import Mathlib

/-!
# GLFW-OCaml stubs: a shallow embedding of `GLFW_stubs.c`

The C stubs marshal between OCaml values and the native GLFW library.  The
embedding below models

* OCaml values as a tree (`value`): immediates and the heap blocks the stubs
  build or inspect;
* the static variables of the stubs, the per-window callback records and the
  state the native library keeps for the binding as one record (`State`);
* every native call as a function that updates the native part of `State`,
  appends itself to a trace, and delivers to `error_callback` the error
  reports the native library raises during that call (given as an argument,
  since the native library is external);
* `caml_raise_with_arg` as the `raised` outcome of `Result`.
-/

namespace GLFW_stubs

/-! ## OCaml values -/

/-- An OCaml value as the stubs see it.  `int n` is the immediate `Val_int(n)`;
the other constructors are heap blocks: a string (`caml_copy_string`), a
function closure, an exception registered by the host side, a block of size 1
and tag 0 (`caml_alloc_small(1, 0)`, the `Some` cell) and a block of size 2 and
tag 0 (`caml_alloc_small(2, 0)`, a list cell or a pair). -/
inductive value where
  | int (n : Int)
  | string (s : String)
  | closure (code : Nat)
  | exn (name : String)
  | block1 (f0 : value)
  | block2 (f0 f1 : value)
deriving DecidableEq, Repr

/-- The immediate `Val_int(n)`. -/
def Val_int (n : Int) : value := value.int n

/-- The constant `Val_unit` is `Val_int(0)`. -/
def Val_unit : value := Val_int 0

/-- The constant `Val_none` is `Val_int(0)` (line 18). -/
def Val_none : value := Val_int 0

/-- The constant `Val_emptylist` is `Val_int(0)`. -/
def Val_emptylist : value := Val_int 0

/-- The value `Val_bool(x)` is `Val_int((x) != 0)`. -/
def Val_bool (x : Int) : value := Val_int (if x ≠ 0 then 1 else 0)

/-- The test `Is_none(v)` is `(v) == Val_none` (line 21). -/
def Is_none (v : value) : Bool := v == Val_none

/-- The read `Some_val(v)` is `Field(v, 0)` (line 19).  Only blocks have fields; the
arguments the stubs apply it to are `Some` cells. -/
def Some_val : value → value
  | value.block1 f0 => f0
  | value.block2 f0 _ => f0
  | _ => Val_unit

/-- The allocation `caml_alloc_some(v)`: a fresh block of size 1 and tag 0 holding `v`
(lines 23-29). -/
def caml_alloc_some (v : value) : value := value.block1 v

/-- The allocation `caml_copy_string(s)`: a fresh OCaml string with the bytes of `s`. -/
def caml_copy_string (s : String) : value := value.string s

/-- The conversion `Int_val(v)`: the integer of an immediate value.  The arguments the stubs
apply it to are immediates by their OCaml type. -/
def Int_val : value → Int
  | value.int n => n
  | _ => 0

/-- Conversion of a `long` to a C `int` (32 bits, two's complement). -/
def to_int (n : Int) : Int := (n + 2 ^ 31) % 2 ^ 32 - 2 ^ 31

/-- The conversion `Cptr_val(t, v)` is `(t)((v) & ~1)` (line 42) on the 64-bit word of the
immediate `v`, which is `2n+1` for `Val_int(n)`. -/
def Cptr_val : value → Nat
  | value.int n => ((2 * n + 1) % 2 ^ 64).toNat / 2 * 2
  | _ => 0

/-! ## Constants of `GLFW/glfw3.h` used by the stubs -/

def GLFW_NOT_INITIALIZED : Int := 0x00010001
def GLFW_NO_CURRENT_CONTEXT : Int := 0x00010002
def GLFW_INVALID_ENUM : Int := 0x00010003
def GLFW_INVALID_VALUE : Int := 0x00010004
def GLFW_OUT_OF_MEMORY : Int := 0x00010005
def GLFW_API_UNAVAILABLE : Int := 0x00010006
def GLFW_VERSION_UNAVAILABLE : Int := 0x00010007
def GLFW_PLATFORM_ERROR : Int := 0x00010008
def GLFW_FORMAT_UNAVAILABLE : Int := 0x00010009
def GLFW_NO_WINDOW_CONTEXT : Int := 0x0001000A

def GLFW_FOCUSED : Int := 0x00020001
def GLFW_ICONIFIED : Int := 0x00020002
def GLFW_RESIZABLE : Int := 0x00020003
def GLFW_VISIBLE : Int := 0x00020004
def GLFW_DECORATED : Int := 0x00020005
def GLFW_AUTO_ICONIFY : Int := 0x00020006
def GLFW_FLOATING : Int := 0x00020007
def GLFW_MAXIMIZED : Int := 0x00020008
def GLFW_CENTER_CURSOR : Int := 0x00020009
def GLFW_TRANSPARENT_FRAMEBUFFER : Int := 0x0002000A
def GLFW_HOVERED : Int := 0x0002000B
def GLFW_FOCUS_ON_SHOW : Int := 0x0002000C
def GLFW_RED_BITS : Int := 0x00021001
def GLFW_GREEN_BITS : Int := 0x00021002
def GLFW_BLUE_BITS : Int := 0x00021003
def GLFW_ALPHA_BITS : Int := 0x00021004
def GLFW_DEPTH_BITS : Int := 0x00021005
def GLFW_STENCIL_BITS : Int := 0x00021006
def GLFW_ACCUM_RED_BITS : Int := 0x00021007
def GLFW_ACCUM_GREEN_BITS : Int := 0x00021008
def GLFW_ACCUM_BLUE_BITS : Int := 0x00021009
def GLFW_ACCUM_ALPHA_BITS : Int := 0x0002100A
def GLFW_AUX_BUFFERS : Int := 0x0002100B
def GLFW_STEREO : Int := 0x0002100C
def GLFW_SAMPLES : Int := 0x0002100D
def GLFW_SRGB_CAPABLE : Int := 0x0002100E
def GLFW_REFRESH_RATE : Int := 0x0002100F
def GLFW_DOUBLEBUFFER : Int := 0x00021010
def GLFW_CLIENT_API : Int := 0x00022001
def GLFW_CONTEXT_VERSION_MAJOR : Int := 0x00022002
def GLFW_CONTEXT_VERSION_MINOR : Int := 0x00022003
def GLFW_CONTEXT_REVISION : Int := 0x00022004
def GLFW_CONTEXT_ROBUSTNESS : Int := 0x00022005
def GLFW_OPENGL_FORWARD_COMPAT : Int := 0x00022006
def GLFW_OPENGL_DEBUG_CONTEXT : Int := 0x00022007
def GLFW_OPENGL_PROFILE : Int := 0x00022008
def GLFW_CONTEXT_RELEASE_BEHAVIOR : Int := 0x00022009
def GLFW_CONTEXT_NO_ERROR : Int := 0x0002200A
def GLFW_CONTEXT_CREATION_API : Int := 0x0002200B
def GLFW_SCALE_TO_MONITOR : Int := 0x0002200C
def GLFW_COCOA_RETINA_FRAMEBUFFER : Int := 0x00023001
def GLFW_COCOA_FRAME_NAME : Int := 0x00023002
def GLFW_COCOA_GRAPHICS_SWITCHING : Int := 0x00023003
def GLFW_X11_CLASS_NAME : Int := 0x00024001
def GLFW_X11_INSTANCE_NAME : Int := 0x00024002

def GLFW_NO_API : Int := 0
def GLFW_OPENGL_API : Int := 0x00030001
def GLFW_OPENGL_ES_API : Int := 0x00030002
def GLFW_NO_ROBUSTNESS : Int := 0
def GLFW_NO_RESET_NOTIFICATION : Int := 0x00031001
def GLFW_LOSE_CONTEXT_ON_RESET : Int := 0x00031002
def GLFW_OPENGL_ANY_PROFILE : Int := 0
def GLFW_OPENGL_CORE_PROFILE : Int := 0x00032001
def GLFW_OPENGL_COMPAT_PROFILE : Int := 0x00032002
def GLFW_NATIVE_CONTEXT_API : Int := 0x00036001
def GLFW_EGL_CONTEXT_API : Int := 0x00036002
def GLFW_OSMESA_CONTEXT_API : Int := 0x00036003

def GLFW_CURSOR : Int := 0x00033001
def GLFW_STICKY_KEYS : Int := 0x00033002
def GLFW_STICKY_MOUSE_BUTTONS : Int := 0x00033003
def GLFW_LOCK_KEY_MODS : Int := 0x00033004
def GLFW_RAW_MOUSE_MOTION : Int := 0x00033005
def GLFW_CURSOR_NORMAL : Int := 0x00034001
def GLFW_CURSOR_HIDDEN : Int := 0x00034002
def GLFW_CURSOR_DISABLED : Int := 0x00034003

def GLFW_CONNECTED : Int := 0x00040001
def GLFW_DISCONNECTED : Int := 0x00040002

/-! ## The state of the binding and of the native library -/

/-- The fields of `struct ml_window_callbacks` (lines 80-99); each is the
`name` argument of one `CAML_WINDOW_SETTER_STUB` instance. -/
inductive Category where
  | window_pos
  | window_size
  | window_close
  | window_refresh
  | window_focus
  | window_iconify
  | window_maximize
  | framebuffer_size
  | window_content_scale
  | key
  | character
  | character_mods
  | mouse_button
  | cursor_pos
  | cursor_enter
  | scroll
  | drop
deriving DecidableEq, Repr

/-- The `name` arguments of the two `CAML_SETTER_STUB` instances (lines 448
and 1433): `monitor_closure` and `joystick_closure`. -/
inductive GlobalName where
  | monitor
  | joystick
deriving DecidableEq, Repr

/-- A native callback pointer handed to a GLFW setter: `NULL`, the trampoline
`name##_callback_stub` of a window category, or that of a global category. -/
inductive fnptr where
  | NULL
  | window_stub (name : Category)
  | global_stub (name : GlobalName)
deriving DecidableEq, Repr

/-- A native call the stubs make, with its arguments, as recorded in the
trace. -/
inductive native_call where
  | GetWindowUserPointer (window : Nat)
  | SetWindowCallback (name : Category) (window : Nat) (fn : fnptr)
  | SetGlobalCallback (name : GlobalName) (fn : fnptr)
  | SetWindowAttrib (window : Nat) (attrib : Int) (v : Int)
  | GetWindowAttrib (window : Nat) (attrib : Int)
  | WindowHint (hint : Int) (v : Int)
  | WindowHintString (hint : Int) (v : String)
  | CreateWindow (width height : Int) (title : String) (monitor share : Nat)
  | SetWindowUserPointer (window pointer : Nat)
  | DestroyWindow (window : Nat)
  | SetWindowSizeLimits (window : Nat) (minW minH maxW maxH : Int)
  | SetWindowMonitor (window monitor : Nat) (xpos ypos width height refreshRate : Int)
  | GetInputMode (window : Nat) (mode : Int)
  | SetInputMode (window : Nat) (mode v : Int)
deriving DecidableEq, Repr

/-- A generational global root registered with the OCaml runtime: the address
of a static closure variable or of a per-window cell. -/
inductive root where
  | global (name : GlobalName)
  | cell (address : Nat)
deriving DecidableEq, Repr

/-- An error report of the native library: the arguments `(error,
description)` it passes to the error callback. -/
abbrev report := Int × String

/-- Everything the stubs read or write.

* `named_value`: the table behind `caml_named_value`, filled by the host side;
* `error_tag`, `error_arg`: the error cell (lines 255-256);
* `closure`: the statics `monitor_closure` and `joystick_closure`;
* `roots`: the registered generational global roots;
* `cells`: the memory holding the per-window callback records, by the address
  of the cell that `glfwGetWindowUserPointer` returns (`none`: no record there);
* `user_pointer`, `window_callback`, `global_callback`, `window_attrib`: what
  the native library stores for a window or globally;
* `trace`: the native calls made so far, oldest first. -/
structure State where
  named_value : String → value
  error_tag : value
  error_arg : value
  closure : GlobalName → value
  roots : List root
  cells : Nat → Option (Category → value)
  user_pointer : Nat → Nat
  window_callback : Nat → Category → fnptr
  global_callback : GlobalName → fnptr
  window_attrib : Nat → Int → Int
  trace : List native_call

/-- The outcome of a stub: a normal return, an OCaml exception raised with
`caml_raise_with_arg`, undefined behaviour of the C code (a read or write
through a pointer to no record, an index outside a table), or the abort of the
program by a failed `assert`. -/
inductive Result (α : Type) where
  | ok (ret : α) (s : State)
  | raised (tag arg : value) (s : State)
  | undefined
  | aborted

/-! ## The error relay (lines 255-306) -/

/-- The name `error_callback` looks up with `caml_named_value` for a native
error code; `none` for a code that no `case` of the `switch` matches. -/
def error_name (error : Int) : Option String :=
  if error = GLFW_NOT_INITIALIZED then some "GLFW.NotInitialized"
  else if error = GLFW_NO_CURRENT_CONTEXT then some "GLFW.NoCurrentContext"
  else if error = GLFW_INVALID_ENUM then some "GLFW.InvalidEnum"
  else if error = GLFW_INVALID_VALUE then some "GLFW.InvalidValue"
  else if error = GLFW_OUT_OF_MEMORY then some "GLFW.OutOfMemory"
  else if error = GLFW_API_UNAVAILABLE then some "GLFW.ApiUnavailable"
  else if error = GLFW_VERSION_UNAVAILABLE then some "GLFW.VersionUnavailable"
  else if error = GLFW_PLATFORM_ERROR then some "GLFW.PlatformError"
  else if error = GLFW_FORMAT_UNAVAILABLE then some "GLFW.FormatUnavailable"
  else if error = GLFW_NO_WINDOW_CONTEXT then some "GLFW.NoWindowContext"
  else none

/-- The function `error_callback(error, description)` (lines 258-293): the
`switch` stores the named exception in `error_tag` when a `case` matches and
leaves it alone otherwise; `error_arg` is overwritten in every case. -/
def error_callback (s : State) (error : Int) (description : String) : State :=
  let s1 : State :=
    match error_name error with
    | some name => { s with error_tag := s.named_value name }
    | none => s
  { s1 with error_arg := caml_copy_string description }

/-- The ten native error codes that have a `case` in `error_callback`. -/
def recognised_codes : List Int :=
  [GLFW_NOT_INITIALIZED, GLFW_NO_CURRENT_CONTEXT, GLFW_INVALID_ENUM, GLFW_INVALID_VALUE,
   GLFW_OUT_OF_MEMORY, GLFW_API_UNAVAILABLE, GLFW_VERSION_UNAVAILABLE, GLFW_PLATFORM_ERROR,
   GLFW_FORMAT_UNAVAILABLE, GLFW_NO_WINDOW_CONTEXT]

/-- The error reports the native library raises during one native call,
delivered to `error_callback` in order. -/
def deliver (s : State) (errs : List report) : State :=
  errs.foldl (fun st r => error_callback st r.1 r.2) s

/-- The function `raise_if_error()` (lines 295-306). -/
def raise_if_error (s : State) : Result Unit :=
  if s.error_tag ≠ Val_unit then
    let error_tag_dup := s.error_tag
    let error_arg_dup := s.error_arg
    Result.raised error_tag_dup error_arg_dup
      { s with error_tag := Val_unit, error_arg := Val_unit }
  else
    Result.ok () s

/-! ## The native library, as far as the stubs observe it

Each native call appends itself to the trace, acts on what the native library
stores, and delivers the error reports `errs` it raises to `error_callback`
(installed by `init_stub`, line 310). -/

/-- The native call `glfwGetWindowUserPointer(window)`: the pointer last
stored for the window. -/
def glfwGetWindowUserPointer (s : State) (window : Nat) (errs : List report) :
    Nat × State :=
  (s.user_pointer window,
   deliver { s with trace := s.trace ++ [native_call.GetWindowUserPointer window] } errs)

/-- The native setter `glfw_setter(window, fn)` of the window category `name`:
the native library stores the pointer it is given. -/
def glfwSetWindowCallback (name : Category) (s : State) (window : Nat) (fn : fnptr)
    (errs : List report) : State :=
  deliver
    { s with
      window_callback := fun w n =>
        if w = window ∧ n = name then fn else s.window_callback w n,
      trace := s.trace ++ [native_call.SetWindowCallback name window fn] }
    errs

/-- The native setter `glfw_setter(fn)` of the global category `name`
(`glfwSetMonitorCallback`, `glfwSetJoystickCallback`). -/
def glfwSetGlobalCallback (name : GlobalName) (s : State) (fn : fnptr)
    (errs : List report) : State :=
  deliver
    { s with
      global_callback := fun n => if n = name then fn else s.global_callback n,
      trace := s.trace ++ [native_call.SetGlobalCallback name fn] }
    errs

/-- The native call `glfwSetWindowAttrib(window, attrib, value)`: the native
library stores the integer it is given. -/
def glfwSetWindowAttrib (s : State) (window : Nat) (attrib v : Int)
    (errs : List report) : State :=
  deliver
    { s with
      window_attrib := fun w a =>
        if w = window ∧ a = attrib then v else s.window_attrib w a,
      trace := s.trace ++ [native_call.SetWindowAttrib window attrib v] }
    errs

/-- The native call `glfwGetWindowAttrib(window, attrib)`: the integer stored for the
attribute. -/
def glfwGetWindowAttrib (s : State) (window : Nat) (attrib : Int)
    (errs : List report) : Int × State :=
  (s.window_attrib window attrib,
   deliver { s with trace := s.trace ++ [native_call.GetWindowAttrib window attrib] } errs)

/-! ## Callback setters (lines 44-134) -/

/-- The read `ml_window_callbacks->name` through the record at cell `p`. -/
def callbacks_field (s : State) (p : Nat) (name : Category) : value :=
  match s.cells p with
  | some callbacks => callbacks name
  | none => Val_unit

/-- The write `ml_window_callbacks->name = v` (also `caml_modify` of that
field) through the record at cell `p`. -/
def store_callbacks_field (s : State) (p : Nat) (name : Category) (v : value) : State :=
  { s with
    cells := fun q =>
      if q = p then
        (s.cells q).map (fun callbacks n => if n = name then v else callbacks n)
      else s.cells q }

/-- The stub `CAML_WINDOW_SETTER_STUB(glfw_setter, name)` (lines 104-134).
`errs_lookup` and `errs_setter` are the error reports the native library
raises during `glfwGetWindowUserPointer` and during `glfw_setter`. -/
def CAML_WINDOW_SETTER_STUB (name : Category) (s : State) (ml_window new_closure : value)
    (errs_lookup errs_setter : List report) : Result value :=
  let window := Cptr_val ml_window
  let lookup := glfwGetWindowUserPointer s window errs_lookup
  let p := lookup.1
  match lookup.2.cells p with
  | none => Result.undefined
  | some _ =>
    match raise_if_error lookup.2 with
    | Result.raised tag arg s2 => Result.raised tag arg s2
    | Result.undefined => Result.undefined
    | Result.aborted => Result.aborted
    | Result.ok _ s2 =>
      let previous_closure :=
        if callbacks_field s2 p name = Val_unit then Val_none
        else caml_alloc_some (callbacks_field s2 p name)
      if Is_none new_closure then
        if callbacks_field s2 p name ≠ Val_unit then
          let s3 := glfwSetWindowCallback name s2 window fnptr.NULL errs_setter
          Result.ok previous_closure (store_callbacks_field s3 p name Val_unit)
        else
          Result.ok previous_closure s2
      else
        let s3 :=
          if callbacks_field s2 p name = Val_unit then
            glfwSetWindowCallback name s2 window (fnptr.window_stub name) errs_setter
          else s2
        Result.ok previous_closure (store_callbacks_field s3 p name (Some_val new_closure))

/-- The stub `CAML_SETTER_STUB(glfw_setter, name)` (lines 44-78).  `errs_setter` are the
error reports the native library raises during `glfw_setter`. -/
def CAML_SETTER_STUB (name : GlobalName) (s : State) (new_closure : value)
    (errs_setter : List report) : Result value :=
  let previous_closure :=
    if s.closure name = Val_unit then Val_none else caml_alloc_some (s.closure name)
  if Is_none new_closure then
    if s.closure name ≠ Val_unit then
      let s1 := glfwSetGlobalCallback name s fnptr.NULL errs_setter
      match raise_if_error s1 with
      | Result.raised tag arg s2 => Result.raised tag arg s2
      | Result.undefined => Result.undefined
      | Result.aborted => Result.aborted
      | Result.ok _ s2 =>
        Result.ok previous_closure
          { s2 with
            roots := s2.roots.erase (root.global name),
            closure := fun n => if n = name then Val_unit else s2.closure n }
    else
      Result.ok previous_closure s
  else
    if s.closure name = Val_unit then
      let s1 := glfwSetGlobalCallback name s (fnptr.global_stub name) errs_setter
      match raise_if_error s1 with
      | Result.raised tag arg s2 => Result.raised tag arg s2
      | Result.undefined => Result.undefined
      | Result.aborted => Result.aborted
      | Result.ok _ s2 =>
        Result.ok previous_closure
          { s2 with
            closure := fun n => if n = name then Some_val new_closure else s2.closure n,
            roots := root.global name :: s2.roots }
    else
      Result.ok previous_closure
        { s with closure := fun n => if n = name then Some_val new_closure else s.closure n }

/-! ## Flag lists (lines 226-240) -/

/-- The `for` loop of `caml_list_of_flags`: `steps` iterations are left, the
loop variable is `i` and the list built so far is `ret`. -/
def caml_list_of_flags_loop (flags : Int) : Nat → Nat → value → value
  | 0, _, ret => ret
  | steps + 1, i, ret =>
    caml_list_of_flags_loop flags steps (i + 1)
      (if (flags >>> i) % 2 ≠ 0 then value.block2 (Val_int i) ret else ret)

/-- The function `caml_list_of_flags(flags, count)`. -/
def caml_list_of_flags (flags count : Int) : value :=
  caml_list_of_flags_loop flags count.toNat 0 Val_emptylist

/-- Modelled from the spec: the conversion of a host flag list back to a
bitmask, which is on the host side and not in the C source: the OR of `1<<i`
over the elements `i` of the list. -/
def mask_of_flag_list : value → Nat
  | value.block2 (value.int i) rest => (1 <<< i.toNat) ||| mask_of_flag_list rest
  | _ => 0

/-! ## Window attributes (lines 136-207, 907-972) -/

/-- The type `enum value_type` (lines 136-146). -/
inductive value_type where
  | Int
  | IntOption
  | ClientApi
  | ContextRobustness
  | OpenGLProfile
  | ContextReleaseBehavior
  | ContextCreationApi
  | String
deriving DecidableEq, Repr

/-- The table `ml_window_attrib` (lines 161-207): the native attribute and the
value type of each host attribute ordinal. -/
def ml_window_attrib : List (Int × value_type) := [
  (GLFW_FOCUSED, value_type.Int),
  (GLFW_ICONIFIED, value_type.Int),
  (GLFW_RESIZABLE, value_type.Int),
  (GLFW_VISIBLE, value_type.Int),
  (GLFW_DECORATED, value_type.Int),
  (GLFW_AUTO_ICONIFY, value_type.Int),
  (GLFW_FLOATING, value_type.Int),
  (GLFW_MAXIMIZED, value_type.Int),
  (GLFW_CENTER_CURSOR, value_type.Int),
  (GLFW_TRANSPARENT_FRAMEBUFFER, value_type.Int),
  (GLFW_HOVERED, value_type.Int),
  (GLFW_FOCUS_ON_SHOW, value_type.Int),
  (GLFW_RED_BITS, value_type.IntOption),
  (GLFW_GREEN_BITS, value_type.IntOption),
  (GLFW_BLUE_BITS, value_type.IntOption),
  (GLFW_ALPHA_BITS, value_type.IntOption),
  (GLFW_DEPTH_BITS, value_type.IntOption),
  (GLFW_STENCIL_BITS, value_type.IntOption),
  (GLFW_ACCUM_RED_BITS, value_type.IntOption),
  (GLFW_ACCUM_GREEN_BITS, value_type.IntOption),
  (GLFW_ACCUM_BLUE_BITS, value_type.IntOption),
  (GLFW_ACCUM_ALPHA_BITS, value_type.IntOption),
  (GLFW_AUX_BUFFERS, value_type.IntOption),
  (GLFW_STEREO, value_type.Int),
  (GLFW_SAMPLES, value_type.IntOption),
  (GLFW_SRGB_CAPABLE, value_type.Int),
  (GLFW_REFRESH_RATE, value_type.IntOption),
  (GLFW_DOUBLEBUFFER, value_type.Int),
  (GLFW_CLIENT_API, value_type.ClientApi),
  (GLFW_CONTEXT_VERSION_MAJOR, value_type.Int),
  (GLFW_CONTEXT_VERSION_MINOR, value_type.Int),
  (GLFW_CONTEXT_REVISION, value_type.Int),
  (GLFW_CONTEXT_ROBUSTNESS, value_type.ContextRobustness),
  (GLFW_OPENGL_FORWARD_COMPAT, value_type.Int),
  (GLFW_OPENGL_DEBUG_CONTEXT, value_type.Int),
  (GLFW_OPENGL_PROFILE, value_type.OpenGLProfile),
  (GLFW_CONTEXT_RELEASE_BEHAVIOR, value_type.ContextReleaseBehavior),
  (GLFW_CONTEXT_NO_ERROR, value_type.Int),
  (GLFW_CONTEXT_CREATION_API, value_type.ContextCreationApi),
  (GLFW_SCALE_TO_MONITOR, value_type.Int),
  (GLFW_COCOA_RETINA_FRAMEBUFFER, value_type.Int),
  (GLFW_COCOA_FRAME_NAME, value_type.String),
  (GLFW_COCOA_GRAPHICS_SWITCHING, value_type.Int),
  (GLFW_X11_CLASS_NAME, value_type.String),
  (GLFW_X11_INSTANCE_NAME, value_type.String)]

/-- The read `ml_window_attrib[offset]`; an index outside the table is
undefined behaviour (`none`). -/
def ml_window_attrib_at (offset : Int) : Option (Int × value_type) :=
  if 0 ≤ offset then ml_window_attrib[offset.toNat]? else none

/-- The `switch` of `caml_glfwGetWindowAttrib` (lines 914-959) on the value
type of the attribute: `ret` starts as `Val_unit` and the value types without a
`case` leave it so. -/
def window_attrib_value (ty : value_type) (glfw_val : Int) : value :=
  match ty with
  | value_type.Int => Val_int glfw_val
  | value_type.ClientApi =>
    if glfw_val = GLFW_NO_API then Val_int 0
    else if glfw_val = GLFW_OPENGL_API then Val_int 1
    else Val_int 2
  | value_type.ContextRobustness =>
    if glfw_val = GLFW_NO_ROBUSTNESS then Val_int 0
    else if glfw_val = GLFW_NO_RESET_NOTIFICATION then Val_int 1
    else Val_int 2
  | value_type.OpenGLProfile =>
    if glfw_val = GLFW_OPENGL_ANY_PROFILE then Val_int 0
    else if glfw_val = GLFW_OPENGL_CORE_PROFILE then Val_int 1
    else Val_int 2
  | value_type.ContextCreationApi =>
    if glfw_val = GLFW_NATIVE_CONTEXT_API then Val_int 0
    else if glfw_val = GLFW_EGL_CONTEXT_API then Val_int 1
    else Val_int 2
  | _ => Val_unit

/-- The stub `caml_glfwGetWindowAttrib(window, attribute)` (lines 907-960); the second
argument is `ml_attribute` here. -/
def caml_glfwGetWindowAttrib (s : State) (window ml_attribute : value)
    (errs : List report) : Result value :=
  let offset := to_int (Int_val ml_attribute)
  match ml_window_attrib_at offset with
  | none => Result.undefined
  | some entry =>
    let call := glfwGetWindowAttrib s (Cptr_val window) entry.1 errs
    let glfw_val := call.1
    match raise_if_error call.2 with
    | Result.raised tag arg s2 => Result.raised tag arg s2
    | Result.undefined => Result.undefined
    | Result.aborted => Result.aborted
    | Result.ok _ s2 => Result.ok (window_attrib_value entry.2 glfw_val) s2

/-- The stub `caml_glfwSetWindowAttrib(window, hint, ml_val)` (lines 962-972). -/
def caml_glfwSetWindowAttrib (s : State) (window hint ml_val : value)
    (errs : List report) : Result value :=
  let offset := to_int (Int_val hint)
  let glfw_val := to_int (Int_val ml_val)
  match ml_window_attrib_at offset with
  | none => Result.undefined
  | some entry =>
    let s1 := glfwSetWindowAttrib s (Cptr_val window) entry.1 glfw_val errs
    match raise_if_error s1 with
    | Result.raised tag arg s2 => Result.raised tag arg s2
    | Result.undefined => Result.undefined
    | Result.aborted => Result.aborted
    | Result.ok _ s2 => Result.ok Val_unit s2

/-! ## Runs of setter calls and concrete states -/

/-- One call of a per-window setter: the instance called (`name`), its two
arguments, and the error reports of its two native calls. -/
structure setter_call where
  name : Category
  ml_window : value
  new_closure : value
  errs_lookup : List report
  errs_setter : List report

/-- A sequence of per-window setter calls, run from `s`: the values returned
and the final state, or `none` when some call raises or is undefined. -/
def run_window_setters (s : State) : List setter_call → Option (List value × State)
  | [] => some ([], s)
  | c :: rest =>
    match CAML_WINDOW_SETTER_STUB c.name s c.ml_window c.new_closure
        c.errs_lookup c.errs_setter with
    | Result.ok ret s1 =>
      match run_window_setters s1 rest with
      | some (rets, s2) => some (ret :: rets, s2)
      | none => none
    | _ => none

/-- The last call of the sequence that addressed the slot `name` of the window
`window`, if any. -/
def most_recent_call : List setter_call → Nat → Category → Option setter_call
  | [], _, _ => none
  | c :: rest, window, name =>
    match most_recent_call rest window name with
    | some d => some d
    | none => if Cptr_val c.ml_window = window ∧ c.name = name then some c else none

/-- The OCaml type of the `new_closure` argument of a setter, a function
option: `None`, or a `Some` cell holding a function (a heap block, hence not
`Val_unit`). -/
def is_closure_option : value → Bool
  | value.block1 f => f != Val_unit
  | v => v == Val_none

/-- The two ways a setter stub registers with the native library: with its
trampoline `name##_callback_stub` or with `NULL`. -/
inductive registration where
  | trampoline
  | null
deriving DecidableEq, Repr

/-- The pointer a per-window setter of category `name` passes for a
registration. -/
def window_pointer (name : Category) : registration → fnptr
  | registration.trampoline => fnptr.window_stub name
  | registration.null => fnptr.NULL

/-- The pointer a global setter of category `name` passes for a
registration. -/
def global_pointer (name : GlobalName) : registration → fnptr
  | registration.trampoline => fnptr.global_stub name
  | registration.null => fnptr.NULL

/-- A run of five setter calls on the window of pointer 42: the key callback
is set, replaced, another slot is cleared, the key callback is cleared and set
again.  No native call reports an error. -/
def example_calls : List setter_call := [
  { name := Category.key, ml_window := Val_int 21,
    new_closure := value.block1 (value.closure 1), errs_lookup := [], errs_setter := [] },
  { name := Category.key, ml_window := Val_int 21,
    new_closure := value.block1 (value.closure 2), errs_lookup := [], errs_setter := [] },
  { name := Category.scroll, ml_window := Val_int 21,
    new_closure := Val_none, errs_lookup := [], errs_setter := [] },
  { name := Category.key, ml_window := Val_int 21,
    new_closure := Val_none, errs_lookup := [], errs_setter := [] },
  { name := Category.key, ml_window := Val_int 21,
    new_closure := value.block1 (value.closure 3), errs_lookup := [], errs_setter := [] }]

/-- A state at start-up with one window record per native window: the statics
hold `Val_unit`, every exception name is registered, window `w` has the cell
`w + 1` as its user pointer and every slot of every record is empty. -/
def start_state : State where
  named_value := fun name => value.exn name
  error_tag := Val_unit
  error_arg := Val_unit
  closure := fun _ => Val_unit
  roots := []
  cells := fun _ => some (fun _ => Val_unit)
  user_pointer := fun w => w + 1
  window_callback := fun _ _ => fnptr.NULL
  global_callback := fun _ => fnptr.NULL
  window_attrib := fun _ _ => 0
  trace := []

/-! ## Native pointers as tagged integers (lines 32-42)

Pointers and OCaml values are 64-bit words here. -/

/-- The machine word of the immediate `Val_int(n)`: `2n+1` on 64 bits. -/
def immediate_word (n : Int) : Nat := ((2 * n + 1) % 2 ^ 64).toNat

/-- The machine word of a value, for the immediates (the model gives heap
blocks no address). -/
def word_of : value → Nat
  | value.int n => immediate_word n
  | _ => 0

/-- The immediate value whose machine word is the odd word `w`: the integer
`(intnat)w >> 1`. -/
def value_of_word (w : Nat) : value :=
  value.int (if w < 2 ^ 63 then ((w / 2 : Nat) : Int) else ((w / 2 : Nat) : Int) - 2 ^ 63)

/-- The word `Val_cptr(p)` returns (lines 36-40): `(value)p | 1`, or `none`
when `assert(((uintptr_t)p & 1) == 0)` fails. -/
def Val_cptr_word (p : Nat) : Option Nat :=
  if p &&& 1 = 0 then some (p ||| 1) else none

/-- The word `Cptr_val(t, v)` computes (line 42): `(v) & ~1`, where `~1` is
the word with every bit but the lowest set. -/
def Cptr_val_word (v : Nat) : Nat := v &&& (2 ^ 64 - 2)

/-- The value `Val_cptr(p)`, or `none` when its assertion fails. -/
def Val_cptr (p : Nat) : Option value := (Val_cptr_word p).map value_of_word

/-! ## Further conversions and constants -/

/-- The conversion `String_val(v)`: the bytes of an OCaml string.  The
arguments the stubs apply it to are strings by their OCaml type. -/
def String_val : value → String
  | value.string x => x
  | _ => ""

def GLFW_DONT_CARE : Int := -1
def GLFW_ANY_RELEASE_BEHAVIOR : Int := 0
def GLFW_RELEASE_BEHAVIOR_FLUSH : Int := 0x00035001
def GLFW_RELEASE_BEHAVIOR_NONE : Int := 0x00035002

/-! ## More of the native library -/

/-- The native call `glfwWindowHint(hint, value)`. -/
def glfwWindowHint (s : State) (hint v : Int) (errs : List report) : State :=
  deliver { s with trace := s.trace ++ [native_call.WindowHint hint v] } errs

/-- The native call `glfwWindowHintString(hint, value)`. -/
def glfwWindowHintString (s : State) (hint : Int) (v : String) (errs : List report) : State :=
  deliver { s with trace := s.trace ++ [native_call.WindowHintString hint v] } errs

/-- The native call `glfwCreateWindow(width, height, title, monitor, share)`
returning the pointer `window` (`0` for `NULL`): the native library starts a
window with no user pointer and no callback registered. -/
def glfwCreateWindow (s : State) (width height : Int) (title : String) (monitor share : Nat)
    (window : Nat) (errs : List report) : State :=
  deliver
    { s with
      user_pointer := fun w => if w = window then 0 else s.user_pointer w,
      window_callback := fun w n => if w = window then fnptr.NULL else s.window_callback w n,
      trace := s.trace ++ [native_call.CreateWindow width height title monitor share] }
    errs

/-- The native call `glfwSetWindowUserPointer(window, pointer)`: the native
library stores the pointer it is given. -/
def glfwSetWindowUserPointer (s : State) (window pointer : Nat) (errs : List report) : State :=
  deliver
    { s with
      user_pointer := fun w => if w = window then pointer else s.user_pointer w,
      trace := s.trace ++ [native_call.SetWindowUserPointer window pointer] }
    errs

/-- The native call `glfwDestroyWindow(window)`. -/
def glfwDestroyWindow (s : State) (window : Nat) (errs : List report) : State :=
  deliver { s with trace := s.trace ++ [native_call.DestroyWindow window] } errs

/-- The native call `glfwSetWindowSizeLimits(window, minW, minH, maxW, maxH)`. -/
def glfwSetWindowSizeLimits (s : State) (window : Nat) (minW minH maxW maxH : Int)
    (errs : List report) : State :=
  deliver
    { s with
      trace := s.trace ++ [native_call.SetWindowSizeLimits window minW minH maxW maxH] }
    errs

/-- The native call `glfwSetWindowMonitor(window, monitor, xpos, ypos, width,
height, refreshRate)`. -/
def glfwSetWindowMonitor (s : State) (window monitor : Nat)
    (xpos ypos width height refreshRate : Int) (errs : List report) : State :=
  deliver
    { s with
      trace := s.trace ++
        [native_call.SetWindowMonitor window monitor xpos ypos width height refreshRate] }
    errs

/-! ## Window hints and optional integers (lines 530-599, 737-749, 883-897) -/

/-- The `switch` of `caml_glfwWindowHint` (lines 535-595) for the value types
that end in `glfwWindowHint`: the C `int` that `glfw_val` receives. -/
def window_hint_value (ty : value_type) (ml_val : value) : Int :=
  match ty with
  | value_type.Int => to_int (Int_val ml_val)
  | value_type.IntOption =>
    to_int (if Is_none ml_val then GLFW_DONT_CARE else Int_val (Some_val ml_val))
  | value_type.ClientApi =>
    if ml_val = Val_int 0 then GLFW_NO_API
    else if ml_val = Val_int 1 then GLFW_OPENGL_API
    else GLFW_OPENGL_ES_API
  | value_type.ContextRobustness =>
    if ml_val = Val_int 0 then GLFW_NO_ROBUSTNESS
    else if ml_val = Val_int 1 then GLFW_NO_RESET_NOTIFICATION
    else GLFW_LOSE_CONTEXT_ON_RESET
  | value_type.OpenGLProfile =>
    if ml_val = Val_int 0 then GLFW_OPENGL_ANY_PROFILE
    else if ml_val = Val_int 1 then GLFW_OPENGL_CORE_PROFILE
    else GLFW_OPENGL_COMPAT_PROFILE
  | value_type.ContextReleaseBehavior =>
    if ml_val = Val_int 0 then GLFW_ANY_RELEASE_BEHAVIOR
    else if ml_val = Val_int 1 then GLFW_RELEASE_BEHAVIOR_FLUSH
    else GLFW_RELEASE_BEHAVIOR_NONE
  | value_type.ContextCreationApi =>
    if ml_val = Val_int 0 then GLFW_NATIVE_CONTEXT_API
    else if ml_val = Val_int 1 then GLFW_EGL_CONTEXT_API
    else GLFW_OSMESA_CONTEXT_API
  | value_type.String => 0

/-- The stub `caml_glfwWindowHint(hint, ml_val)` (lines 530-599): the `String`
case calls `glfwWindowHintString` and returns, the other cases end in
`glfwWindowHint`. -/
def caml_glfwWindowHint (s : State) (hint ml_val : value) (errs : List report) :
    Result value :=
  let offset := to_int (Int_val hint)
  match ml_window_attrib_at offset with
  | none => Result.undefined
  | some entry =>
    let s1 :=
      match entry.2 with
      | value_type.String => glfwWindowHintString s entry.1 (String_val ml_val) errs
      | ty => glfwWindowHint s entry.1 (window_hint_value ty ml_val) errs
    match raise_if_error s1 with
    | Result.raised tag arg s2 => Result.raised tag arg s2
    | Result.undefined => Result.undefined
    | Result.aborted => Result.aborted
    | Result.ok _ s2 => Result.ok Val_unit s2

/-- The stub `caml_glfwSetWindowSizeLimits(window, minW, minH, maxW, maxH)`
(lines 737-749). -/
def caml_glfwSetWindowSizeLimits (s : State) (window minW minH maxW maxH : value)
    (errs : List report) : Result value :=
  let glfw_minW := to_int (if Is_none minW then GLFW_DONT_CARE else Int_val (Some_val minW))
  let glfw_minH := to_int (if Is_none minH then GLFW_DONT_CARE else Int_val (Some_val minH))
  let glfw_maxW := to_int (if Is_none maxW then GLFW_DONT_CARE else Int_val (Some_val maxW))
  let glfw_maxH := to_int (if Is_none maxH then GLFW_DONT_CARE else Int_val (Some_val maxH))
  let s1 := glfwSetWindowSizeLimits s (Cptr_val window) glfw_minW glfw_minH glfw_maxW
    glfw_maxH errs
  match raise_if_error s1 with
  | Result.raised tag arg s2 => Result.raised tag arg s2
  | Result.undefined => Result.undefined
  | Result.aborted => Result.aborted
  | Result.ok _ s2 => Result.ok Val_unit s2

/-- The stub `caml_glfwSetWindowMonitor(window, monitor, xpos, ypos, width,
height, refreshRate)` (lines 883-897). -/
def caml_glfwSetWindowMonitor (s : State)
    (window monitor xpos ypos width height refreshRate : value) (errs : List report) :
    Result value :=
  let glfw_monitor := if Is_none monitor then 0 else Cptr_val (Some_val monitor)
  let glfw_refresh_rate :=
    to_int (if Is_none refreshRate then GLFW_DONT_CARE else Int_val (Some_val refreshRate))
  let s1 := glfwSetWindowMonitor s (Cptr_val window) glfw_monitor (to_int (Int_val xpos))
    (to_int (Int_val ypos)) (to_int (Int_val width)) (to_int (Int_val height))
    glfw_refresh_rate errs
  match raise_if_error s1 with
  | Result.raised tag arg s2 => Result.raised tag arg s2
  | Result.undefined => Result.undefined
  | Result.aborted => Result.aborted
  | Result.ok _ s2 => Result.ok Val_unit s2

/-! ## Window creation and destruction (lines 601-653) -/

/-- The callbacks block of a new window (lines 606-609 and 625-628):
`caml_alloc_small(ML_WINDOW_CALLBACKS_WOSIZE, 0)` with every field set to
`Val_unit`. -/
def empty_callbacks : Category → value := fun _ => Val_unit

/-- The lines that `caml_window_magic` (605-613) and `caml_glfwCreateWindow`
(624-632) have in common, for the native `window` and the address
`user_pointer` that `malloc(sizeof(value))` returned (`0` for `NULL`): the
callbacks block is stored through `user_pointer`, the cell is registered as a
root and attached with `glfwSetWindowUserPointer`, and `Val_cptr(window)` is
returned.  The result of `malloc` is not tested. -/
def attach_callbacks (s : State) (window user_pointer : Nat) (errs : List report) :
    Result value :=
  if user_pointer = 0 then Result.undefined
  else
    let s1 : State :=
      { s with cells := fun q => if q = user_pointer then some empty_callbacks else s.cells q }
    let s2 : State := { s1 with roots := root.cell user_pointer :: s1.roots }
    let s3 := glfwSetWindowUserPointer s2 window user_pointer errs
    match Val_cptr window with
    | none => Result.aborted
    | some handle => Result.ok handle s3

/-- The stub `caml_window_magic(window)` (lines 601-614): the argument is
shifted right by one bit to give the native window; no `raise_if_error`. -/
def caml_window_magic (s : State) (window : value) (malloc_result : Nat)
    (errs_pointer : List report) : Result value :=
  attach_callbacks s (word_of window / 2) malloc_result errs_pointer

/-- The stub `caml_glfwCreateWindow(width, height, title, mntor, share)`
(lines 616-633).  `native_window` is the pointer `glfwCreateWindow` returns
and `malloc_result` the address `malloc` returns. -/
def caml_glfwCreateWindow (s : State) (width height title mntor share : value)
    (native_window malloc_result : Nat) (errs_create errs_pointer : List report) :
    Result value :=
  let s1 := glfwCreateWindow s (to_int (Int_val width)) (to_int (Int_val height))
    (String_val title)
    (if Is_none mntor then 0 else Cptr_val (Some_val mntor))
    (if Is_none share then 0 else Cptr_val (Some_val share))
    native_window errs_create
  match raise_if_error s1 with
  | Result.raised tag arg s2 => Result.raised tag arg s2
  | Result.undefined => Result.undefined
  | Result.aborted => Result.aborted
  | Result.ok _ s2 => attach_callbacks s2 native_window malloc_result errs_pointer

/-- The stub `caml_glfwDestroyWindow(ml_window)` (lines 642-653).
`caml_remove_generational_global_root` reads through `user_pointer` and `free`
releases it: with no cell there the behaviour is undefined. -/
def caml_glfwDestroyWindow (s : State) (ml_window : value)
    (errs_lookup errs_destroy : List report) : Result value :=
  let window := Cptr_val ml_window
  let lookup := glfwGetWindowUserPointer s window errs_lookup
  let user_pointer := lookup.1
  match raise_if_error lookup.2 with
  | Result.raised tag arg s2 => Result.raised tag arg s2
  | Result.undefined => Result.undefined
  | Result.aborted => Result.aborted
  | Result.ok _ s2 =>
    match s2.cells user_pointer with
    | none => Result.undefined
    | some _ =>
      let s3 : State := { s2 with roots := s2.roots.erase (root.cell user_pointer) }
      let s4 : State :=
        { s3 with cells := fun q => if q = user_pointer then none else s3.cells q }
      let s5 := glfwDestroyWindow s4 window errs_destroy
      match raise_if_error s5 with
      | Result.raised tag arg s6 => Result.raised tag arg s6
      | Result.undefined => Result.undefined
      | Result.aborted => Result.aborted
      | Result.ok _ s6 => Result.ok Val_unit s6

/-! ## Trampolines and lists built from native arrays -/

/-- The OCaml list with the given elements: cells of size 2 and tag 0 ending
in `Val_emptylist`. -/
def ocaml_list : List value → value
  | [] => Val_emptylist
  | x :: rest => value.block2 x (ocaml_list rest)

/-- A call `caml_callbackN(closure, args)` of a host function. -/
structure callback_call where
  closure : value
  args : List value
deriving DecidableEq, Repr

/-- The `while` loop of `caml_list_of_pointer_array` (lines 216-222) with
`count` elements left and `ret` built so far; a read outside the array is
undefined, a pointer that fails the assertion of `Val_cptr` aborts. -/
def caml_list_of_pointer_array_loop (s : State) (array : List Nat) :
    Nat → value → Result value
  | 0, ret => Result.ok ret s
  | count + 1, ret =>
    match array[count]? with
    | none => Result.undefined
    | some p =>
      match Val_cptr p with
      | none => Result.aborted
      | some v => caml_list_of_pointer_array_loop s array count (value.block2 v ret)

/-- The function `caml_list_of_pointer_array(array, count)` (lines 211-224). -/
def caml_list_of_pointer_array (s : State) (array : List Nat) (count : Int) : Result value :=
  caml_list_of_pointer_array_loop s array count.toNat Val_emptylist

/-- The `while` loop of `drop_callback_stub` (lines 1332-1339) with `count`
paths left and `ml_paths` built so far; `none` for a read outside the array. -/
def drop_paths_loop (paths : List String) : Nat → value → Option value
  | 0, ml_paths => some ml_paths
  | count + 1, ml_paths =>
    match paths[count]? with
    | none => none
    | some path => drop_paths_loop paths count (value.block2 (caml_copy_string path) ml_paths)

/-- The trampoline `drop_callback_stub(window, count, paths)` (lines
1324-1342): the call of the host callback it makes. -/
def drop_callback_stub (s : State) (window : Nat) (count : Int) (paths : List String)
    (errs_lookup : List report) : Result callback_call :=
  let lookup := glfwGetWindowUserPointer s window errs_lookup
  match lookup.2.cells lookup.1 with
  | none => Result.undefined
  | some _ =>
    match drop_paths_loop paths count.toNat Val_emptylist with
    | none => Result.undefined
    | some ml_paths =>
      match Val_cptr window with
      | none => Result.aborted
      | some handle =>
        Result.ok
          { closure := callbacks_field lookup.2 lookup.1 Category.drop,
            args := [handle, ml_paths] }
          lookup.2

/-- The trampoline `window_pos_callback_stub(window, xpos, ypos)` (lines
974-981): the call of the host callback it makes. -/
def window_pos_callback_stub (s : State) (window : Nat) (xpos ypos : Int)
    (errs_lookup : List report) : Result callback_call :=
  let lookup := glfwGetWindowUserPointer s window errs_lookup
  match lookup.2.cells lookup.1 with
  | none => Result.undefined
  | some _ =>
    match Val_cptr window with
    | none => Result.aborted
    | some handle =>
      Result.ok
        { closure := callbacks_field lookup.2 lookup.1 Category.window_pos,
          args := [handle, Val_int xpos, Val_int ypos] }
        lookup.2

/-- The trampoline `monitor_callback_stub(monitor, event)` (lines 442-446):
the call of the host callback it makes.  The second argument is
`Val_int(event - GLFW_CONNECTED)`. -/
def monitor_callback_stub (s : State) (monitor : Nat) (event : Int) : Result callback_call :=
  match Val_cptr monitor with
  | none => Result.aborted
  | some handle =>
    Result.ok
      { closure := s.closure GlobalName.monitor,
        args := [handle, Val_int (event - GLFW_CONNECTED)] }
      s

/-- The trampoline `joystick_callback_stub(joy, event)` (lines 1427-1431):
the call of the host callback it makes.  The second argument is
`Val_int(event - GLFW_DISCONNECTED)`. -/
def joystick_callback_stub (s : State) (joy event : Int) : Result callback_call :=
  Result.ok
    { closure := s.closure GlobalName.joystick,
      args := [Val_int joy, Val_int (event - GLFW_DISCONNECTED)] }
    s

/-- The native event pump delivering a window position event: it calls the
function registered for the category with `glfwSetWindowPosCallback`, if one
is registered. -/
def pump_window_pos (s : State) (window : Nat) (xpos ypos : Int) :
    Option (Result callback_call) :=
  if s.window_callback window Category.window_pos = fnptr.window_stub Category.window_pos then
    some (window_pos_callback_stub s window xpos ypos [])
  else none

/-- A sequence of per-window setter calls, run from `s`, in which calls may
raise: the final state, or `none` when some call is undefined or aborts. -/
def run_window_setters_any (s : State) : List setter_call → Option State
  | [] => some s
  | c :: rest =>
    match CAML_WINDOW_SETTER_STUB c.name s c.ml_window c.new_closure
        c.errs_lookup c.errs_setter with
    | Result.ok _ s1 => run_window_setters_any s1 rest
    | Result.raised _ _ s1 => run_window_setters_any s1 rest
    | _ => none

/-! ## Input modes (lines 1105-1125) -/

/-- The conversion `Bool_val(x)` is `Int_val(x)`. -/
def Bool_val (v : value) : Int := Int_val v

/-- The native call `glfwGetInputMode(window, mode)`, which returns `result`
(the native library is external: what it returns is an argument here). -/
def glfwGetInputMode (s : State) (window : Nat) (mode result : Int) (errs : List report) :
    Int × State :=
  (result,
   deliver { s with trace := s.trace ++ [native_call.GetInputMode window mode] } errs)

/-- The native call `glfwSetInputMode(window, mode, value)`. -/
def glfwSetInputMode (s : State) (window : Nat) (mode v : Int) (errs : List report) : State :=
  deliver { s with trace := s.trace ++ [native_call.SetInputMode window mode v] } errs

/-- The stub `caml_glfwGetInputMode(window, mode)` (lines 1105-1114), with
`native_value` what `glfwGetInputMode` returns. -/
def caml_glfwGetInputMode (s : State) (window mode : value) (native_value : Int)
    (errs : List report) : Result value :=
  let call := glfwGetInputMode s (Cptr_val window) (to_int (Int_val mode) + GLFW_CURSOR)
    native_value errs
  let v := call.1
  match raise_if_error call.2 with
  | Result.raised tag arg s2 => Result.raised tag arg s2
  | Result.undefined => Result.undefined
  | Result.aborted => Result.aborted
  | Result.ok _ s2 =>
    if to_int (Int_val mode) = 0 then Result.ok (Val_int (v - GLFW_CURSOR_NORMAL)) s2
    else Result.ok (Val_bool v) s2

/-- The C `int` that `glfw_val` receives in `caml_glfwSetInputMode` (lines
1118-1119). -/
def input_mode_value (mode v : value) : Int :=
  if to_int (Int_val mode) = 0 then to_int (Int_val v) + GLFW_CURSOR_NORMAL
  else to_int (Bool_val v)

/-- The stub `caml_glfwSetInputMode(window, mode, v)` (lines 1116-1125). -/
def caml_glfwSetInputMode (s : State) (window mode v : value) (errs : List report) :
    Result value :=
  let glfw_val := input_mode_value mode v
  let s1 := glfwSetInputMode s (Cptr_val window) (to_int (Int_val mode) + GLFW_CURSOR)
    glfw_val errs
  match raise_if_error s1 with
  | Result.raised tag arg s2 => Result.raised tag arg s2
  | Result.undefined => Result.undefined
  | Result.aborted => Result.aborted
  | Result.ok _ s2 => Result.ok Val_unit s2

/-! ## Host values used to state the claims -/

/-- The OCaml value of an `int option`: `None` is `Val_none`, `Some n` is a
block of size 1 holding `Val_int(n)`. -/
def ml_int_option : Option Int → value
  | none => Val_none
  | some n => caml_alloc_some (Val_int n)

/-- The native integer an optional integer stands for: the sentinel
`GLFW_DONT_CARE` for `None`, and for `Some n` the integer `n` as a C `int`. -/
def native_int_option : Option Int → Int
  | none => GLFW_DONT_CARE
  | some n => to_int n

/-- The OCaml value of a `bool`: `Val_true` is `Val_int(1)` and `Val_false`
is `Val_int(0)`. -/
def ml_bool : Bool → value
  | true => Val_int 1
  | false => Val_int 0

/-! ## Theorems -/

/-! ### What `error_callback` and the native calls leave alone -/

theorem error_callback_frame (s : State) (error : Int) (description : String) :
    (error_callback s error description).named_value = s.named_value
    ∧ (error_callback s error description).closure = s.closure
    ∧ (error_callback s error description).roots = s.roots
    ∧ (error_callback s error description).cells = s.cells
    ∧ (error_callback s error description).user_pointer = s.user_pointer
    ∧ (error_callback s error description).window_callback = s.window_callback
    ∧ (error_callback s error description).global_callback = s.global_callback
    ∧ (error_callback s error description).window_attrib = s.window_attrib
    ∧ (error_callback s error description).trace = s.trace := by
  unfold error_callback
  cases error_name error <;> simp

theorem deliver_frame (s : State) (errs : List report) :
    (deliver s errs).named_value = s.named_value
    ∧ (deliver s errs).closure = s.closure
    ∧ (deliver s errs).roots = s.roots
    ∧ (deliver s errs).cells = s.cells
    ∧ (deliver s errs).user_pointer = s.user_pointer
    ∧ (deliver s errs).window_callback = s.window_callback
    ∧ (deliver s errs).global_callback = s.global_callback
    ∧ (deliver s errs).window_attrib = s.window_attrib
    ∧ (deliver s errs).trace = s.trace := by
  induction errs generalizing s with
  | nil => simp [deliver]
  | cons r rest ih =>
    have h := ih (error_callback s r.1 r.2)
    have e := error_callback_frame s r.1 r.2
    simp only [deliver, List.foldl_cons] at h ⊢
    obtain ⟨h1, h2, h3, h4, h5, h6, h7, h8, h9⟩ := h
    obtain ⟨e1, e2, e3, e4, e5, e6, e7, e8, e9⟩ := e
    exact ⟨h1.trans e1, h2.trans e2, h3.trans e3, h4.trans e4, h5.trans e5,
      h6.trans e6, h7.trans e7, h8.trans e8, h9.trans e9⟩

theorem deliver_nil (s : State) : deliver s [] = s := rfl

theorem deliver_append (s : State) (l1 l2 : List report) :
    deliver s (l1 ++ l2) = deliver (deliver s l1) l2 := by
  simp [deliver, List.foldl_append]

/-! ### The error relay -/

/-- C5 (counterexample): a report with a code outside the `switch` of
`error_callback`, delivered to an empty cell, leaves the kind empty and stores
the message; `raise_if_error` then does not raise and returns with the
message still in the cell, so the cell (kind and message) is not empty after
the call. -/
theorem raise_if_error_keeps_message :
    (error_callback start_state 0x0001000C "feature unavailable").error_tag = Val_unit
    ∧ raise_if_error (error_callback start_state 0x0001000C "feature unavailable")
        = Result.ok () (error_callback start_state 0x0001000C "feature unavailable")
    ∧ (error_callback start_state 0x0001000C "feature unavailable").error_arg
        = value.string "feature unavailable"
    ∧ (error_callback start_state 0x0001000C "feature unavailable").error_arg ≠ Val_unit := by
  refine ⟨rfl, rfl, rfl, ?_⟩
  decide

/-- C5 (amended): `raise_if_error` raises if and only if the kind stored in
the cell is not empty; when it raises, the error carries exactly the stored
kind and message and both are empty afterwards; when it does not raise, it
returns with the state unchanged, the kind being empty. -/
theorem raise_if_error_spec (s : State) :
    ((∃ tag arg s1, raise_if_error s = Result.raised tag arg s1) ↔ s.error_tag ≠ Val_unit)
    ∧ (∀ tag arg s1, raise_if_error s = Result.raised tag arg s1 →
        tag = s.error_tag ∧ arg = s.error_arg
        ∧ s1 = { s with error_tag := Val_unit, error_arg := Val_unit })
    ∧ (∀ s1, raise_if_error s = Result.ok () s1 → s1 = s ∧ s1.error_tag = Val_unit)
    ∧ raise_if_error s ≠ Result.undefined := by
  unfold raise_if_error
  by_cases h : s.error_tag = Val_unit
  · simp [h]
  · simp only [ne_eq, h, not_false_eq_true, if_true]
    refine ⟨?_, ?_, ?_, ?_⟩
    · simp
    · intro tag arg s1 e
      cases e
      exact ⟨rfl, rfl, rfl⟩
    · intro s1 e
      cases e
    · intro e
      cases e

theorem raise_if_error_spec_witness :
    (error_callback start_state GLFW_PLATFORM_ERROR "x").error_tag ≠ Val_unit
    ∧ (∃ tag arg s1, raise_if_error (error_callback start_state GLFW_PLATFORM_ERROR "x")
        = Result.raised tag arg s1)
    ∧ value.exn "GLFW.PlatformError"
        = (error_callback start_state GLFW_PLATFORM_ERROR "x").error_tag
    ∧ value.string "x" = (error_callback start_state GLFW_PLATFORM_ERROR "x").error_arg :=
  ⟨by decide,
   (raise_if_error_spec (error_callback start_state GLFW_PLATFORM_ERROR "x")).1.mpr (by decide),
   ((raise_if_error_spec (error_callback start_state GLFW_PLATFORM_ERROR "x")).2.1
     (value.exn "GLFW.PlatformError") (value.string "x")
     { error_callback start_state GLFW_PLATFORM_ERROR "x" with
       error_tag := Val_unit, error_arg := Val_unit } rfl).1,
   ((raise_if_error_spec (error_callback start_state GLFW_PLATFORM_ERROR "x")).2.1
     (value.exn "GLFW.PlatformError") (value.string "x")
     { error_callback start_state GLFW_PLATFORM_ERROR "x" with
       error_tag := Val_unit, error_arg := Val_unit } rfl).2.1⟩

theorem error_callback_tag_of_name (s : State) (error : Int) (description name : String)
    (h : error_name error = some name) :
    (error_callback s error description).error_tag = s.named_value name
    ∧ (error_callback s error description).error_arg = caml_copy_string description := by
  simp [error_callback, h]

theorem error_name_injective :
    ∀ c1 ∈ recognised_codes, ∀ c2 ∈ recognised_codes,
      error_name c1 = error_name c2 → c1 = c2 := by
  decide

theorem error_name_of_recognised :
    ∀ c ∈ recognised_codes, ∃ name, error_name c = some name := by
  have h : ∀ c ∈ recognised_codes, (error_name c).isSome = true := by decide
  intro c hc
  exact Option.isSome_iff_exists.mp (h c hc)

/-- C7: `error_callback` maps each of the ten native error codes to the host
exception registered under the name of that code, and two different codes
never select the same one: the names looked up differ, and so do the
exceptions stored whenever the host side registered different exceptions
under different names. -/
theorem error_callback_one_to_one (s : State) (description : String) :
    (∀ p ∈ [(GLFW_NOT_INITIALIZED, "GLFW.NotInitialized"),
            (GLFW_NO_CURRENT_CONTEXT, "GLFW.NoCurrentContext"),
            (GLFW_INVALID_ENUM, "GLFW.InvalidEnum"),
            (GLFW_INVALID_VALUE, "GLFW.InvalidValue"),
            (GLFW_OUT_OF_MEMORY, "GLFW.OutOfMemory"),
            (GLFW_API_UNAVAILABLE, "GLFW.ApiUnavailable"),
            (GLFW_VERSION_UNAVAILABLE, "GLFW.VersionUnavailable"),
            (GLFW_PLATFORM_ERROR, "GLFW.PlatformError"),
            (GLFW_FORMAT_UNAVAILABLE, "GLFW.FormatUnavailable"),
            (GLFW_NO_WINDOW_CONTEXT, "GLFW.NoWindowContext")],
        p.1 ∈ recognised_codes
        ∧ (error_callback s p.1 description).error_tag = s.named_value p.2)
    ∧ (∀ c1 ∈ recognised_codes, ∀ c2 ∈ recognised_codes, c1 ≠ c2 →
        error_name c1 ≠ error_name c2)
    ∧ (Function.Injective s.named_value →
        ∀ c1 ∈ recognised_codes, ∀ c2 ∈ recognised_codes, c1 ≠ c2 →
          (error_callback s c1 description).error_tag
            ≠ (error_callback s c2 description).error_tag) := by
  refine ⟨?_, ?_, ?_⟩
  · intro p hp
    simp only [List.mem_cons, List.mem_singleton, List.not_mem_nil, or_false] at hp
    rcases hp with h | h | h | h | h | h | h | h | h | h <;> subst h <;>
      exact ⟨by decide, (error_callback_tag_of_name s _ description _ (by decide)).1⟩
  · intro c1 h1 c2 h2 hne e
    exact hne (error_name_injective c1 h1 c2 h2 e)
  · intro hinj c1 h1 c2 h2 hne e
    obtain ⟨n1, e1⟩ := error_name_of_recognised c1 h1
    obtain ⟨n2, e2⟩ := error_name_of_recognised c2 h2
    rw [(error_callback_tag_of_name s c1 description n1 e1).1,
      (error_callback_tag_of_name s c2 description n2 e2).1] at e
    have : n1 = n2 := hinj e
    exact hne (error_name_injective c1 h1 c2 h2 (by rw [e1, e2, this]))

theorem error_callback_one_to_one_witness :
    (error_callback start_state GLFW_INVALID_ENUM "a").error_tag
      ≠ (error_callback start_state GLFW_INVALID_VALUE "a").error_tag :=
  (error_callback_one_to_one start_state "a").2.2
    (fun a b h => by injection h)
    GLFW_INVALID_ENUM (by decide) GLFW_INVALID_VALUE (by decide) (by decide)

/-- C8: after any sequence of native error reports that ends with a report
`r` of a recognised code (one `error_callback` has a name for),
`raise_if_error` raises the exception registered under the name of the code of
`r`, with the message of `r` as an OCaml string, and leaves the cell empty.
The exception registered is a heap block, hence not `Val_unit`. -/
theorem last_report_is_raised (s : State) (reports : List report) (r : report)
    (name : String) (hname : error_name r.1 = some name)
    (hreg : s.named_value name ≠ Val_unit) :
    ∃ s1, raise_if_error (deliver s (reports ++ [r]))
        = Result.raised (s.named_value name) (caml_copy_string r.2) s1
      ∧ s1.error_tag = Val_unit ∧ s1.error_arg = Val_unit := by
  have hd : deliver s (reports ++ [r]) = error_callback (deliver s reports) r.1 r.2 := by
    rw [deliver_append]
    rfl
  have ht := error_callback_tag_of_name (deliver s reports) r.1 r.2 name hname
  rw [(deliver_frame s reports).1] at ht
  rw [hd]
  unfold raise_if_error
  rw [if_pos (by rw [ht.1]; exact hreg)]
  simp only [ht.1, ht.2]
  exact ⟨_, rfl, rfl, rfl⟩

theorem last_report_is_raised_witness :
    ∃ s1, raise_if_error (deliver start_state
        ([(GLFW_INVALID_ENUM, "first"), (0x0001000C, "second")]
          ++ [(GLFW_PLATFORM_ERROR, "third")]))
        = Result.raised (start_state.named_value "GLFW.PlatformError")
            (caml_copy_string "third") s1
      ∧ s1.error_tag = Val_unit ∧ s1.error_arg = Val_unit :=
  last_report_is_raised start_state [(GLFW_INVALID_ENUM, "first"), (0x0001000C, "second")]
    (GLFW_PLATFORM_ERROR, "third") "GLFW.PlatformError" (by decide) (by decide)

/-! ### Flag lists -/

/-- C9: for every mask `m` in 0..15, the flag list `caml_list_of_flags(m, 4)`
converted back by OR-ing `1<<i` over its elements `i` is `m`. -/
theorem flags_round_trip (m : Nat) (h : m ≤ 15) :
    mask_of_flag_list (caml_list_of_flags (m : Int) 4) = m := by
  interval_cases m <;> rfl

theorem flags_round_trip_witness :
    (11 : Nat) ≤ 15
    ∧ caml_list_of_flags ((11 : Nat) : Int) 4
        = value.block2 (Val_int 3) (value.block2 (Val_int 1)
            (value.block2 (Val_int 0) Val_emptylist))
    ∧ mask_of_flag_list (caml_list_of_flags ((11 : Nat) : Int) 4) = 11 :=
  ⟨by decide, by decide, flags_round_trip 11 (by decide)⟩

/-! ### Callback setters -/

theorem lookup_frame (s : State) (window : Nat) (errs : List report) :
    (glfwGetWindowUserPointer s window errs).1 = s.user_pointer window
    ∧ (glfwGetWindowUserPointer s window errs).2.named_value = s.named_value
    ∧ (glfwGetWindowUserPointer s window errs).2.closure = s.closure
    ∧ (glfwGetWindowUserPointer s window errs).2.roots = s.roots
    ∧ (glfwGetWindowUserPointer s window errs).2.cells = s.cells
    ∧ (glfwGetWindowUserPointer s window errs).2.user_pointer = s.user_pointer
    ∧ (glfwGetWindowUserPointer s window errs).2.window_callback = s.window_callback
    ∧ (glfwGetWindowUserPointer s window errs).2.global_callback = s.global_callback
    ∧ (glfwGetWindowUserPointer s window errs).2.window_attrib = s.window_attrib
    ∧ (glfwGetWindowUserPointer s window errs).2.trace
        = s.trace ++ [native_call.GetWindowUserPointer window] := by
  obtain ⟨h1, h2, h3, h4, h5, h6, h7, h8, h9⟩ :=
    deliver_frame { s with trace := s.trace ++ [native_call.GetWindowUserPointer window] } errs
  exact ⟨rfl, h1, h2, h3, h4, h5, h6, h7, h8, h9⟩

theorem window_setter_call_frame (name : Category) (s : State) (window : Nat) (fn : fnptr)
    (errs : List report) :
    (glfwSetWindowCallback name s window fn errs).named_value = s.named_value
    ∧ (glfwSetWindowCallback name s window fn errs).closure = s.closure
    ∧ (glfwSetWindowCallback name s window fn errs).roots = s.roots
    ∧ (glfwSetWindowCallback name s window fn errs).cells = s.cells
    ∧ (glfwSetWindowCallback name s window fn errs).user_pointer = s.user_pointer
    ∧ (glfwSetWindowCallback name s window fn errs).window_callback
        = (fun w n => if w = window ∧ n = name then fn else s.window_callback w n)
    ∧ (glfwSetWindowCallback name s window fn errs).global_callback = s.global_callback
    ∧ (glfwSetWindowCallback name s window fn errs).window_attrib = s.window_attrib
    ∧ (glfwSetWindowCallback name s window fn errs).trace
        = s.trace ++ [native_call.SetWindowCallback name window fn] := by
  unfold glfwSetWindowCallback
  exact deliver_frame _ errs

/-- What a per-window setter does when the window has a callback record and
no error is pending after the window lookup: it returns the previous content
of the slot as an option, stores the new content, and registers with the
native library only when the slot changes between empty and occupied. -/
theorem window_setter_returns (name : Category) (s : State) (ml_window new_closure : value)
    (errs_lookup errs_setter : List report) (callbacks : Category → value)
    (hcell : s.cells (s.user_pointer (Cptr_val ml_window)) = some callbacks)
    (hclean : (glfwGetWindowUserPointer s (Cptr_val ml_window) errs_lookup).2.error_tag
      = Val_unit) :
    ∃ s1, CAML_WINDOW_SETTER_STUB name s ml_window new_closure errs_lookup errs_setter
        = Result.ok
            (if callbacks name = Val_unit then Val_none else caml_alloc_some (callbacks name)) s1
      ∧ s1.cells = (fun q =>
          if q = s.user_pointer (Cptr_val ml_window) then
            some (fun n =>
              if n = name then (if Is_none new_closure then Val_unit else Some_val new_closure)
              else callbacks n)
          else s.cells q)
      ∧ s1.trace = s.trace ++ native_call.GetWindowUserPointer (Cptr_val ml_window) ::
          (if Is_none new_closure then
            (if callbacks name = Val_unit then []
             else [native_call.SetWindowCallback name (Cptr_val ml_window) fnptr.NULL])
           else
            (if callbacks name = Val_unit then
              [native_call.SetWindowCallback name (Cptr_val ml_window) (fnptr.window_stub name)]
             else []))
      ∧ s1.window_callback = (fun w n =>
          if w = Cptr_val ml_window ∧ n = name
              ∧ ((Is_none new_closure = true) ↔ callbacks name ≠ Val_unit) then
            (if Is_none new_closure then fnptr.NULL else fnptr.window_stub name)
          else s.window_callback w n)
      ∧ s1.user_pointer = s.user_pointer
      ∧ s1.named_value = s.named_value
      ∧ s1.closure = s.closure
      ∧ s1.roots = s.roots
      ∧ s1.global_callback = s.global_callback
      ∧ s1.window_attrib = s.window_attrib := by
  obtain ⟨l0, l1, l2, l3, l4, l5, l6, l7, l8, l9⟩ :=
    lookup_frame s (Cptr_val ml_window) errs_lookup
  have hraise : raise_if_error (glfwGetWindowUserPointer s (Cptr_val ml_window) errs_lookup).2
      = Result.ok () (glfwGetWindowUserPointer s (Cptr_val ml_window) errs_lookup).2 := by
    simp [raise_if_error, hclean]
  have hfield : callbacks_field
      (glfwGetWindowUserPointer s (Cptr_val ml_window) errs_lookup).2
      (s.user_pointer (Cptr_val ml_window)) name = callbacks name := by
    simp [callbacks_field, l4, hcell]
  unfold CAML_WINDOW_SETTER_STUB
  simp only [l0, l4, hcell, hraise, hfield]
  by_cases hn : Is_none new_closure = true <;> by_cases he : callbacks name = Val_unit
  · simp only [hn, he, if_true, ne_eq, not_true_eq_false, if_false]
    refine ⟨_, rfl, ?_, ?_, ?_, l5, l1, l2, l3, l7, l8⟩
    · rw [l4]
      funext q
      by_cases hq : q = s.user_pointer (Cptr_val ml_window)
      · subst hq
        simp only [if_true, hcell, Option.some.injEq]
        funext n
        by_cases hnn : n = name
        · subst hnn
          simp [he]
        · simp [hnn]
      · simp [hq]
    · rw [l9]
    · rw [l6]
      funext w n
      simp
  · simp only [hn, he, if_true, ne_eq, not_false_eq_true, if_false]
    obtain ⟨c1, c2, c3, c4, c5, c6, c7, c8, c9⟩ := window_setter_call_frame name
      (glfwGetWindowUserPointer s (Cptr_val ml_window) errs_lookup).2 (Cptr_val ml_window)
      fnptr.NULL errs_setter
    refine ⟨_, rfl, ?_, ?_, ?_, ?_, ?_, ?_, ?_, ?_, ?_⟩
    · simp only [store_callbacks_field, c4, l4]
      funext q
      by_cases hq : q = s.user_pointer (Cptr_val ml_window)
      · subst hq
        simp [hcell]
      · simp [hq]
    · simp only [store_callbacks_field, c9, l9]
      simp
    · simp only [store_callbacks_field, c6, l6]
      funext w n
      simp
    · simp only [store_callbacks_field, c5, l5]
    · simp only [store_callbacks_field, c1, l1]
    · simp only [store_callbacks_field, c2, l2]
    · simp only [store_callbacks_field, c3, l3]
    · simp only [store_callbacks_field, c7, l7]
    · simp only [store_callbacks_field, c8, l8]
  · simp only [hn, he, if_true, if_false]
    obtain ⟨c1, c2, c3, c4, c5, c6, c7, c8, c9⟩ := window_setter_call_frame name
      (glfwGetWindowUserPointer s (Cptr_val ml_window) errs_lookup).2 (Cptr_val ml_window)
      (fnptr.window_stub name) errs_setter
    refine ⟨_, rfl, ?_, ?_, ?_, ?_, ?_, ?_, ?_, ?_, ?_⟩
    · simp only [store_callbacks_field, c4, l4]
      funext q
      by_cases hq : q = s.user_pointer (Cptr_val ml_window)
      · subst hq
        simp [hcell]
      · simp [hq]
    · simp only [store_callbacks_field, c9, l9]
      simp
    · simp only [store_callbacks_field, c6, l6]
      funext w n
      simp
    · simp only [store_callbacks_field, c5, l5]
    · simp only [store_callbacks_field, c1, l1]
    · simp only [store_callbacks_field, c2, l2]
    · simp only [store_callbacks_field, c3, l3]
    · simp only [store_callbacks_field, c7, l7]
    · simp only [store_callbacks_field, c8, l8]
  · simp only [hn, he, if_false]
    refine ⟨_, rfl, ?_, ?_, ?_, ?_, ?_, ?_, ?_, ?_, ?_⟩
    · simp only [store_callbacks_field, l4]
      funext q
      by_cases hq : q = s.user_pointer (Cptr_val ml_window)
      · subst hq
        simp [hcell]
      · simp [hq]
    · simp only [store_callbacks_field, l9]
      simp
    · simp only [store_callbacks_field, l6]
      funext w n
      simp [he]
    · simp only [store_callbacks_field, l5]
    · simp only [store_callbacks_field, l1]
    · simp only [store_callbacks_field, l2]
    · simp only [store_callbacks_field, l3]
    · simp only [store_callbacks_field, l7]
    · simp only [store_callbacks_field, l8]

/-- A per-window setter that returns has found a callback record and no
pending error after the window lookup. -/
theorem window_setter_ok_inv (name : Category) (s : State) (ml_window new_closure : value)
    (errs_lookup errs_setter : List report) (ret : value) (s1 : State)
    (h : CAML_WINDOW_SETTER_STUB name s ml_window new_closure errs_lookup errs_setter
      = Result.ok ret s1) :
    (∃ callbacks, s.cells (s.user_pointer (Cptr_val ml_window)) = some callbacks)
    ∧ (glfwGetWindowUserPointer s (Cptr_val ml_window) errs_lookup).2.error_tag = Val_unit := by
  obtain ⟨l0, -, -, -, l4, -⟩ := lookup_frame s (Cptr_val ml_window) errs_lookup
  unfold CAML_WINDOW_SETTER_STUB at h
  simp only [l0, l4] at h
  cases hc : s.cells (s.user_pointer (Cptr_val ml_window)) with
  | none =>
    rw [hc] at h
    cases h
  | some callbacks =>
    refine ⟨⟨callbacks, rfl⟩, ?_⟩
    by_contra hne
    rw [hc] at h
    simp only [raise_if_error, ne_eq, hne, not_false_eq_true, if_true] at h
    cases h

theorem run_window_setters_cons (s : State) (c : setter_call) (rest : List setter_call)
    (out : List value × State) (h : run_window_setters s (c :: rest) = some out) :
    ∃ ret s1 rets,
      CAML_WINDOW_SETTER_STUB c.name s c.ml_window c.new_closure c.errs_lookup c.errs_setter
          = Result.ok ret s1
      ∧ run_window_setters s1 rest = some (rets, out.2)
      ∧ out.1 = ret :: rets := by
  simp only [run_window_setters] at h
  split at h
  · rename_i ret s1 hc
    split at h
    · rename_i rets s2 hr
      simp only [Option.some.injEq] at h
      subst h
      exact ⟨ret, s1, rets, hc, hr, rfl⟩
    · cases h
  · cases h

theorem run_window_setters_append (s : State) (before : List setter_call) (c : setter_call)
    (after : List setter_call) (out : List value × State)
    (h : run_window_setters s (before ++ c :: after) = some out) :
    ∃ rets1 s1 ret s2 rets2,
      run_window_setters s before = some (rets1, s1)
      ∧ CAML_WINDOW_SETTER_STUB c.name s1 c.ml_window c.new_closure c.errs_lookup c.errs_setter
          = Result.ok ret s2
      ∧ run_window_setters s2 after = some (rets2, out.2)
      ∧ out.1 = rets1 ++ ret :: rets2
      ∧ rets1.length = before.length := by
  induction before generalizing s out with
  | nil =>
    obtain ⟨ret, s2, rets2, h1, h2, h3⟩ := run_window_setters_cons s c after out h
    exact ⟨[], s, ret, s2, rets2, rfl, h1, h2, h3, rfl⟩
  | cons b rest ih =>
    obtain ⟨retb, sb, retso, h1, h2, h3⟩ :=
      run_window_setters_cons s b (rest ++ c :: after) out h
    obtain ⟨rets1, s1, ret, s2, rets2, k1, k2, k3, k4, k5⟩ := ih sb (retso, out.2) h2
    refine ⟨retb :: rets1, s1, ret, s2, rets2, ?_, k2, k3, ?_, ?_⟩
    · simp only [run_window_setters, h1, k1]
    · rw [h3]
      simp only [List.cons_append, List.cons.injEq, true_and]
      exact k4
    · simp only [List.length_cons, k5]

theorem most_recent_call_mem (calls : List setter_call) (window : Nat) (name : Category)
    (d : setter_call) (h : most_recent_call calls window name = some d) : d ∈ calls := by
  induction calls with
  | nil => cases h
  | cons c rest ih =>
    simp only [most_recent_call] at h
    cases hr : most_recent_call rest window name with
    | some e =>
      rw [hr] at h
      simp only [Option.some.injEq] at h
      subst h
      exact List.mem_cons_of_mem _ (ih hr)
    | none =>
      rw [hr] at h
      by_cases hm : Cptr_val c.ml_window = window ∧ c.name = name
      · simp only [hm, and_self, if_true, Option.some.injEq] at h
        subst h
        exact List.mem_cons_self _ _
      · simp only [hm, if_false] at h
        cases h

/-- After a run of per-window setter calls that all return, from a state in
which different windows have different callback records, every slot holds
what the last call addressing it stored, or what it held at the start when no
call addressed it; the user pointers are those of the start. -/
theorem run_window_setters_slots (s : State) (calls : List setter_call)
    (out : List value × State) (hinj : Function.Injective s.user_pointer)
    (h : run_window_setters s calls = some out) :
    out.2.user_pointer = s.user_pointer
    ∧ ∀ window name, callbacks_field out.2 (s.user_pointer window) name
        = match most_recent_call calls window name with
          | none => callbacks_field s (s.user_pointer window) name
          | some d => if Is_none d.new_closure then Val_unit else Some_val d.new_closure := by
  induction calls generalizing s out with
  | nil =>
    simp only [run_window_setters, Option.some.injEq] at h
    subst h
    exact ⟨rfl, fun _ _ => rfl⟩
  | cons c rest ih =>
    obtain ⟨ret, s1, rets, hc, hr, -⟩ := run_window_setters_cons s c rest out h
    obtain ⟨⟨callbacks, hcell⟩, hclean⟩ := window_setter_ok_inv _ _ _ _ _ _ _ _ hc
    obtain ⟨s1b, e1, hcells, -, -, hup, -⟩ := window_setter_returns c.name s c.ml_window
      c.new_closure c.errs_lookup c.errs_setter callbacks hcell hclean
    rw [hc] at e1
    cases e1
    have hinj1 : Function.Injective s1.user_pointer := by rw [hup]; exact hinj
    obtain ⟨i1, i2⟩ := ih s1 (rets, out.2) hinj1 hr
    refine ⟨i1.trans hup, ?_⟩
    intro window name
    have i3 := i2 window name
    rw [hup] at i3
    rw [i3]
    simp only [most_recent_call]
    cases hm : most_recent_call rest window name with
    | some d => rfl
    | none =>
      simp only [callbacks_field, hcells]
      by_cases hw : Cptr_val c.ml_window = window
      · subst hw
        by_cases hn : c.name = name
        · subst hn
          simp
        · have hn2 : ¬ name = c.name := fun e => hn e.symm
          simp [hn, hn2, hcell]
      · have hp : ¬ s.user_pointer window = s.user_pointer (Cptr_val c.ml_window) :=
          fun e => hw (hinj e).symm
        simp [hw, hp]

theorem run_window_setters_length (s : State) (calls : List setter_call)
    (out : List value × State) (h : run_window_setters s calls = some out) :
    out.1.length = calls.length := by
  induction calls generalizing s out with
  | nil =>
    simp only [run_window_setters, Option.some.injEq] at h
    subst h
    rfl
  | cons c rest ih =>
    obtain ⟨ret, s1, rets, -, hr, e⟩ := run_window_setters_cons s c rest out h
    rw [e]
    simp only [List.length_cons, add_left_inj]
    exact ih s1 (rets, out.2) hr

/-- Storing a function option in an empty-or-occupied slot and reading the
slot back as an option gives the option stored. -/
theorem closure_option_stored (v : value) (h : is_closure_option v = true) :
    (if (if Is_none v then Val_unit else Some_val v) = Val_unit then Val_none
     else caml_alloc_some (if Is_none v then Val_unit else Some_val v)) = v := by
  cases v with
  | block1 f =>
    have hf : f ≠ Val_unit := by simpa [is_closure_option] using h
    have hn : Is_none (value.block1 f) = false := by
      simp [Is_none, Val_none, Val_int]
    simp [hn, Some_val, hf, caml_alloc_some]
  | int n =>
    have hv : value.int n = Val_none := by simpa [is_closure_option] using h
    rw [hv]
    simp [Is_none]
  | string x => simp [is_closure_option, Val_none, Val_int] at h
  | closure x => simp [is_closure_option, Val_none, Val_int] at h
  | exn x => simp [is_closure_option, Val_none, Val_int] at h
  | block2 x y => simp [is_closure_option, Val_none, Val_int] at h

/-- C1: in every sequence of per-window setter calls that all return (none
raises), run from a state where every window has its own callback record with
all slots empty, each call returns the function option given by the most
recent earlier call for the same category on the same window, and `None` when
there is no earlier such call.  (A most recent call that gave `None` is
returned as that `None`.) -/
theorem setter_returns_previous (s : State) (calls : List setter_call)
    (out : List value × State)
    (hinj : Function.Injective s.user_pointer)
    (hempty : ∀ window name, callbacks_field s (s.user_pointer window) name = Val_unit)
    (htyped : ∀ c ∈ calls, is_closure_option c.new_closure = true)
    (hrun : run_window_setters s calls = some out) :
    out.1.length = calls.length
    ∧ ∀ (i : Nat) (c : setter_call), calls[i]? = some c →
        out.1[i]? = some
          (match most_recent_call (calls.take i) (Cptr_val c.ml_window) c.name with
           | none => Val_none
           | some d => d.new_closure) := by
  refine ⟨run_window_setters_length s calls out hrun, ?_⟩
  intro i c hi
  obtain ⟨hlt, hget⟩ := List.getElem?_eq_some.mp hi
  have hsplit : calls = calls.take i ++ c :: calls.drop (i + 1) := by
    rw [← hget, ← List.drop_eq_getElem_cons hlt, List.take_append_drop]
  have hrun2 := hrun
  rw [hsplit] at hrun2
  obtain ⟨rets1, s1, ret, s2, rets2, h1, h2, -, h4, h5⟩ :=
    run_window_setters_append s _ c _ out hrun2
  have hlen : rets1.length = i := by
    rw [h5, List.length_take]
    exact Nat.min_eq_left (Nat.le_of_lt hlt)
  have hret : out.1[i]? = some ret := by
    rw [h4, List.getElem?_append_right (by rw [hlen]), hlen]
    simp
  rw [hret]
  obtain ⟨hup, hslots⟩ := run_window_setters_slots s (calls.take i) (rets1, s1) hinj h1
  simp only at hup hslots
  obtain ⟨⟨callbacks, hcell⟩, hclean⟩ := window_setter_ok_inv _ _ _ _ _ _ _ _ h2
  obtain ⟨s1b, e1, -⟩ := window_setter_returns c.name s1 c.ml_window
    c.new_closure c.errs_lookup c.errs_setter callbacks hcell hclean
  rw [h2] at e1
  simp only [Result.ok.injEq] at e1
  have hfield : callbacks c.name
      = callbacks_field s1 (s.user_pointer (Cptr_val c.ml_window)) c.name := by
    rw [← hup]
    simp [callbacks_field, hcell]
  rw [e1.1, hfield, hslots]
  cases hm : most_recent_call (calls.take i) (Cptr_val c.ml_window) c.name with
  | none =>
    simp [hempty]
  | some d =>
    have hd : d ∈ calls := List.mem_of_mem_take (most_recent_call_mem _ _ _ d hm)
    simp only [Option.some.injEq]
    exact closure_option_stored d.new_closure (htyped d hd)

theorem start_state_user_pointer_injective : Function.Injective start_state.user_pointer :=
  fun _ _ h => Nat.succ.inj h

theorem setter_returns_previous_witness :
    ((run_window_setters start_state example_calls).getD ([], start_state)).1
      = [Val_none, value.block1 (value.closure 1), Val_none,
         value.block1 (value.closure 2), Val_none]
    ∧ ((run_window_setters start_state example_calls).getD ([], start_state)).1[1]?
      = some (value.block1 (value.closure 1))
    ∧ ((run_window_setters start_state example_calls).getD ([], start_state)).1[4]?
      = some Val_none :=
  ⟨by decide,
   (setter_returns_previous start_state example_calls
      ((run_window_setters start_state example_calls).getD ([], start_state))
      start_state_user_pointer_injective (fun _ _ => rfl) (by decide) rfl).2 1
      { name := Category.key, ml_window := Val_int 21,
        new_closure := value.block1 (value.closure 2), errs_lookup := [], errs_setter := [] }
      rfl,
   (setter_returns_previous start_state example_calls
      ((run_window_setters start_state example_calls).getD ([], start_state))
      start_state_user_pointer_injective (fun _ _ => rfl) (by decide) rfl).2 4
      { name := Category.key, ml_window := Val_int 21,
        new_closure := value.block1 (value.closure 3), errs_lookup := [], errs_setter := [] }
      rfl⟩

/-- C2: when the slot of a category holds a callback and no error is pending
after the window lookup, the per-window setter called with `None` returns the
callback held, calls the native setter with `NULL` (the only native call after
the lookup), and leaves the slot empty; the native library, storing the
pointer it is given, then has `NULL` registered for the category. -/
theorem unregister_clears_slot (name : Category) (s : State) (ml_window : value)
    (errs_lookup errs_setter : List report)
    (hheld : callbacks_field s (s.user_pointer (Cptr_val ml_window)) name ≠ Val_unit)
    (hclean : (glfwGetWindowUserPointer s (Cptr_val ml_window) errs_lookup).2.error_tag
      = Val_unit) :
    ∃ s1, CAML_WINDOW_SETTER_STUB name s ml_window Val_none errs_lookup errs_setter
        = Result.ok
            (caml_alloc_some (callbacks_field s (s.user_pointer (Cptr_val ml_window)) name)) s1
      ∧ s1.trace = s.trace ++ [native_call.GetWindowUserPointer (Cptr_val ml_window),
          native_call.SetWindowCallback name (Cptr_val ml_window) fnptr.NULL]
      ∧ callbacks_field s1 (s1.user_pointer (Cptr_val ml_window)) name = Val_unit
      ∧ s1.window_callback (Cptr_val ml_window) name = fnptr.NULL := by
  cases hcell : s.cells (s.user_pointer (Cptr_val ml_window)) with
  | none =>
    simp [callbacks_field, hcell] at hheld
  | some callbacks =>
    have hf : callbacks_field s (s.user_pointer (Cptr_val ml_window)) name = callbacks name := by
      simp [callbacks_field, hcell]
    rw [hf] at hheld ⊢
    obtain ⟨s1, e, hcells, htrace, hcb, hup, -⟩ := window_setter_returns name s ml_window
      Val_none errs_lookup errs_setter callbacks hcell hclean
    have hn : Is_none Val_none = true := rfl
    simp only [hheld, hn, if_true, if_false] at e hcells htrace hcb
    refine ⟨s1, e, htrace, ?_, ?_⟩
    · simp [callbacks_field, hcells, hup]
    · rw [hcb]
      simp [hheld]

theorem unregister_clears_slot_witness :
    ∃ s1, CAML_WINDOW_SETTER_STUB Category.key
        (store_callbacks_field start_state 43 Category.key (value.closure 1))
        (Val_int 21) Val_none [] []
        = Result.ok (value.block1 (value.closure 1)) s1
      ∧ s1.trace = [native_call.GetWindowUserPointer 42,
          native_call.SetWindowCallback Category.key 42 fnptr.NULL]
      ∧ callbacks_field s1 (s1.user_pointer 42) Category.key = Val_unit
      ∧ s1.window_callback 42 Category.key = fnptr.NULL :=
  unregister_clears_slot Category.key
    (store_callbacks_field start_state 43 Category.key (value.closure 1))
    (Val_int 21) [] [] (by decide) (by decide)

/-- C3: in every sequence of per-window setter calls that all return, each
call `c`, made in the state `s1` that the calls before it lead to, makes after
the window lookup exactly one native setter call with the trampoline when it
sets `Some f` and the slot is empty, exactly one with `NULL` when it sets
`None` and the slot is occupied, and no native setter call otherwise.  A call
that sets `Some g` on an occupied slot makes no native setter call, leaves the
native registrations as they are, stores `g` in the slot and changes no other
slot. -/
theorem trampoline_registered_once (s : State) (before : List setter_call) (c : setter_call)
    (after : List setter_call) (out : List value × State)
    (hrun : run_window_setters s (before ++ c :: after) = some out) :
    ∃ rets1 s1 ret s2,
      run_window_setters s before = some (rets1, s1)
      ∧ CAML_WINDOW_SETTER_STUB c.name s1 c.ml_window c.new_closure c.errs_lookup c.errs_setter
          = Result.ok ret s2
      ∧ s2.trace = s1.trace ++ native_call.GetWindowUserPointer (Cptr_val c.ml_window) ::
          (if Is_none c.new_closure then
            (if callbacks_field s1 (s1.user_pointer (Cptr_val c.ml_window)) c.name = Val_unit
             then []
             else [native_call.SetWindowCallback c.name (Cptr_val c.ml_window) fnptr.NULL])
           else
            (if callbacks_field s1 (s1.user_pointer (Cptr_val c.ml_window)) c.name = Val_unit
             then [native_call.SetWindowCallback c.name (Cptr_val c.ml_window)
                    (fnptr.window_stub c.name)]
             else []))
      ∧ (Is_none c.new_closure = false →
          callbacks_field s1 (s1.user_pointer (Cptr_val c.ml_window)) c.name ≠ Val_unit →
            s2.trace = s1.trace ++ [native_call.GetWindowUserPointer (Cptr_val c.ml_window)]
            ∧ s2.window_callback = s1.window_callback
            ∧ callbacks_field s2 (s1.user_pointer (Cptr_val c.ml_window)) c.name
                = Some_val c.new_closure
            ∧ ∀ q n, ¬ (q = s1.user_pointer (Cptr_val c.ml_window) ∧ n = c.name) →
                callbacks_field s2 q n = callbacks_field s1 q n) := by
  obtain ⟨rets1, s1, ret, s2, rets2, h1, h2, -, -, -⟩ :=
    run_window_setters_append s before c after out hrun
  obtain ⟨⟨callbacks, hcell⟩, hclean⟩ := window_setter_ok_inv _ _ _ _ _ _ _ _ h2
  obtain ⟨s2b, e, hcells, htrace, hcb, -⟩ := window_setter_returns c.name s1 c.ml_window
    c.new_closure c.errs_lookup c.errs_setter callbacks hcell hclean
  rw [h2] at e
  simp only [Result.ok.injEq] at e
  obtain ⟨-, e2⟩ := e
  subst e2
  have hf : callbacks_field s1 (s1.user_pointer (Cptr_val c.ml_window)) c.name
      = callbacks c.name := by
    simp [callbacks_field, hcell]
  refine ⟨rets1, s1, ret, s2, h1, h2, ?_, ?_⟩
  · rw [hf]
    exact htrace
  · intro hsome hheld
    rw [hf] at hheld
    refine ⟨?_, ?_, ?_, ?_⟩
    · rw [htrace]
      simp [hsome, hheld]
    · rw [hcb]
      funext w n
      simp [hsome, hheld]
    · simp [callbacks_field, hcells, hsome]
    · intro q n hqn
      simp only [callbacks_field, hcells]
      by_cases hq : q = s1.user_pointer (Cptr_val c.ml_window)
      · subst hq
        have hn : ¬ n = c.name := fun e => hqn ⟨rfl, e⟩
        simp [hn, hcell]
      · simp [hq]

theorem trampoline_registered_once_witness :
    ∃ rets1 s1 ret s2,
      run_window_setters start_state (example_calls.take 1) = some (rets1, s1)
      ∧ CAML_WINDOW_SETTER_STUB Category.key s1 (Val_int 21) (value.block1 (value.closure 2))
          [] [] = Result.ok ret s2
      ∧ s1.trace = [native_call.GetWindowUserPointer 42,
          native_call.SetWindowCallback Category.key 42 (fnptr.window_stub Category.key)]
      ∧ s2.trace = s1.trace ++ [native_call.GetWindowUserPointer 42]
      ∧ callbacks_field s2 43 Category.key = value.closure 2 :=
  match trampoline_registered_once start_state (example_calls.take 1)
      { name := Category.key, ml_window := Val_int 21,
        new_closure := value.block1 (value.closure 2), errs_lookup := [], errs_setter := [] }
      (example_calls.drop 2)
      ((run_window_setters start_state example_calls).getD ([], start_state)) rfl with
  | ⟨rets1, s1, ret, s2, h1, h2, _, h4⟩ =>
    ⟨rets1, s1, ret, s2, h1, h2,
      by
        have e : run_window_setters start_state (example_calls.take 1)
            = some (_, _) := rfl
        rw [e] at h1
        simp only [Option.some.injEq, Prod.mk.injEq] at h1
        rw [← h1.2]
        decide,
      by
        have e : run_window_setters start_state (example_calls.take 1)
            = some (_, _) := rfl
        rw [e] at h1
        simp only [Option.some.injEq, Prod.mk.injEq] at h1
        have k := h4 rfl (by rw [← h1.2]; decide)
        exact k.1,
      by
        have e : run_window_setters start_state (example_calls.take 1)
            = some (_, _) := rfl
        rw [e] at h1
        simp only [Option.some.injEq, Prod.mk.injEq] at h1
        have k := h4 rfl (by rw [← h1.2]; decide)
        have k3 := k.2.2.1
        rw [← h1.2] at k3
        exact k3⟩

theorem global_setter_call_frame (name : GlobalName) (s : State) (fn : fnptr)
    (errs : List report) :
    (glfwSetGlobalCallback name s fn errs).named_value = s.named_value
    ∧ (glfwSetGlobalCallback name s fn errs).closure = s.closure
    ∧ (glfwSetGlobalCallback name s fn errs).roots = s.roots
    ∧ (glfwSetGlobalCallback name s fn errs).cells = s.cells
    ∧ (glfwSetGlobalCallback name s fn errs).user_pointer = s.user_pointer
    ∧ (glfwSetGlobalCallback name s fn errs).window_callback = s.window_callback
    ∧ (glfwSetGlobalCallback name s fn errs).global_callback
        = (fun n => if n = name then fn else s.global_callback n)
    ∧ (glfwSetGlobalCallback name s fn errs).window_attrib = s.window_attrib
    ∧ (glfwSetGlobalCallback name s fn errs).trace
        = s.trace ++ [native_call.SetGlobalCallback name fn] := by
  unfold glfwSetGlobalCallback
  exact deliver_frame _ errs

/-- What a global setter does when no error is pending and the native setter
reports none: it returns the previous content of the slot as an option, stores
the new content, and registers with the native library only when the slot
changes between empty and occupied. -/
theorem global_setter_returns (name : GlobalName) (s : State) (new_closure : value)
    (hclean : s.error_tag = Val_unit) :
    ∃ s1, CAML_SETTER_STUB name s new_closure []
        = Result.ok
            (if s.closure name = Val_unit then Val_none else caml_alloc_some (s.closure name)) s1
      ∧ s1.closure name = (if Is_none new_closure then Val_unit else Some_val new_closure)
      ∧ s1.trace = s.trace ++
          (if Is_none new_closure then
            (if s.closure name = Val_unit then []
             else [native_call.SetGlobalCallback name fnptr.NULL])
           else
            (if s.closure name = Val_unit then
              [native_call.SetGlobalCallback name (fnptr.global_stub name)]
             else [])) := by
  have hraise : ∀ fn, raise_if_error (glfwSetGlobalCallback name s fn [])
      = Result.ok () (glfwSetGlobalCallback name s fn []) := by
    intro fn
    have ht : (glfwSetGlobalCallback name s fn []).error_tag = Val_unit := hclean
    simp [raise_if_error, ht]
  unfold CAML_SETTER_STUB
  by_cases hn : Is_none new_closure = true <;> by_cases he : s.closure name = Val_unit
  · simp only [hn, he, if_true, ne_eq, not_true_eq_false, if_false]
    exact ⟨_, rfl, he, by simp⟩
  · simp only [hn, he, if_true, ne_eq, not_false_eq_true, if_false, hraise]
    refine ⟨_, rfl, by simp, ?_⟩
    simp [(global_setter_call_frame name s fnptr.NULL []).2.2.2.2.2.2.2.2]
  · simp only [hn, he, if_true, if_false, hraise]
    refine ⟨_, rfl, by simp, ?_⟩
    simp [(global_setter_call_frame name s (fnptr.global_stub name) []).2.2.2.2.2.2.2.2]
  · simp only [hn, he, if_false]
    exact ⟨_, rfl, by simp, by simp⟩

/-- C4: from one state with no error pending, in which the global slot
`name##_closure` and the slot of a window category hold the same value, and
with no native call reporting an error, the global setter and the per-window
setter given the same new value both return, return the same previous value,
leave the same content in their slot, and make the same registrations with
their native setter (with the trampoline, with `NULL`, or none). -/
theorem global_setter_matches_window_setter (gname : GlobalName) (cname : Category)
    (s : State) (ml_window new_closure : value) (callbacks : Category → value)
    (hcell : s.cells (s.user_pointer (Cptr_val ml_window)) = some callbacks)
    (hslot : s.closure gname = callbacks cname)
    (hclean : s.error_tag = Val_unit) :
    ∃ (ret : value) (sw sg : State) (regs : List registration),
      CAML_WINDOW_SETTER_STUB cname s ml_window new_closure [] [] = Result.ok ret sw
      ∧ CAML_SETTER_STUB gname s new_closure [] = Result.ok ret sg
      ∧ sg.closure gname = callbacks_field sw (s.user_pointer (Cptr_val ml_window)) cname
      ∧ sw.trace = s.trace ++ native_call.GetWindowUserPointer (Cptr_val ml_window) ::
          regs.map (fun r =>
            native_call.SetWindowCallback cname (Cptr_val ml_window) (window_pointer cname r))
      ∧ sg.trace = s.trace ++
          regs.map (fun r => native_call.SetGlobalCallback gname (global_pointer gname r)) := by
  have hclean2 : (glfwGetWindowUserPointer s (Cptr_val ml_window) []).2.error_tag
      = Val_unit := hclean
  obtain ⟨sw, e, hcells, htrace, -⟩ := window_setter_returns cname s ml_window
    new_closure [] [] callbacks hcell hclean2
  obtain ⟨sg, eg, hclosure, hgtrace⟩ := global_setter_returns gname s new_closure hclean
  have hfield : callbacks_field sw (s.user_pointer (Cptr_val ml_window)) cname
      = (if Is_none new_closure then Val_unit else Some_val new_closure) := by
    simp [callbacks_field, hcells]
  rw [hslot] at eg hgtrace
  refine ⟨_, sw, sg,
    (if Is_none new_closure then
      (if callbacks cname = Val_unit then [] else [registration.null])
     else (if callbacks cname = Val_unit then [registration.trampoline] else [])),
    e, eg, ?_, ?_, ?_⟩
  · rw [hfield, hclosure]
  · rw [htrace]
    by_cases hn : Is_none new_closure = true <;> by_cases he : callbacks cname = Val_unit <;>
      simp [hn, he, window_pointer]
  · rw [hgtrace]
    by_cases hn : Is_none new_closure = true <;> by_cases he : callbacks cname = Val_unit <;>
      simp [hn, he, global_pointer]

theorem global_setter_matches_window_setter_witness :
    ∃ (ret : value) (sw sg : State) (regs : List registration),
      CAML_WINDOW_SETTER_STUB Category.key start_state (Val_int 21)
          (value.block1 (value.closure 1)) [] [] = Result.ok ret sw
      ∧ CAML_SETTER_STUB GlobalName.joystick start_state (value.block1 (value.closure 1)) []
          = Result.ok ret sg
      ∧ sg.closure GlobalName.joystick
          = callbacks_field sw (start_state.user_pointer (Cptr_val (Val_int 21))) Category.key
      ∧ sw.trace = start_state.trace ++
          native_call.GetWindowUserPointer (Cptr_val (Val_int 21)) ::
          regs.map (fun r => native_call.SetWindowCallback Category.key (Cptr_val (Val_int 21))
            (window_pointer Category.key r))
      ∧ sg.trace = start_state.trace ++
          regs.map (fun r =>
            native_call.SetGlobalCallback GlobalName.joystick
              (global_pointer GlobalName.joystick r)) :=
  global_setter_matches_window_setter GlobalName.joystick Category.key start_state
    (Val_int 21) (value.block1 (value.closure 1)) (fun _ => Val_unit) rfl rfl rfl

/-- C6 (the code at the failing input): a per-window setter that registers its
trampoline while the native setter reports an error returns normally and
leaves the error in the cell, to be raised by a later entry point; the global
setter, in the same situation, checks the cell after the native setter and
raises the error itself. -/
theorem window_setter_leaves_error_pending :
    (∃ s1, CAML_WINDOW_SETTER_STUB Category.key start_state (Val_int 21)
        (value.block1 (value.closure 1)) [] [(GLFW_PLATFORM_ERROR, "no display")]
        = Result.ok Val_none s1
      ∧ s1.error_tag = value.exn "GLFW.PlatformError"
      ∧ s1.error_arg = value.string "no display"
      ∧ s1.error_tag ≠ Val_unit)
    ∧ (∃ s2, CAML_SETTER_STUB GlobalName.monitor start_state
        (value.block1 (value.closure 1)) [(GLFW_PLATFORM_ERROR, "no display")]
        = Result.raised (value.exn "GLFW.PlatformError") (value.string "no display") s2
      ∧ s2.error_tag = Val_unit ∧ s2.error_arg = Val_unit) :=
  ⟨⟨_, rfl, rfl, rfl, by decide⟩, ⟨_, rfl, rfl, rfl⟩⟩

/-! ### Window attributes -/

theorem to_int_of_range (n : Int) (h : -2 ^ 31 ≤ n ∧ n < 2 ^ 31) : to_int n = n := by
  unfold to_int
  obtain ⟨h1, h2⟩ := h
  norm_num at h1 h2 ⊢
  omega

theorem writable_attrib_entry (o : Nat) (attrib : Int) (ty : value_type)
    (hentry : ml_window_attrib[o]? = some (attrib, ty))
    (hwritable : attrib ∈ [GLFW_RESIZABLE, GLFW_DECORATED, GLFW_AUTO_ICONIFY, GLFW_FLOATING,
      GLFW_FOCUS_ON_SHOW]) :
    ty = value_type.Int
    ∧ ml_window_attrib_at (to_int (Int_val (Val_int (o : Int))))
        = some (attrib, value_type.Int) := by
  have hlt : o < 45 := (List.getElem?_eq_some.mp hentry).1
  interval_cases o <;>
    simp only [ml_window_attrib, List.getElem?_cons_zero, List.getElem?_cons_succ,
      Option.some.injEq, Prod.mk.injEq] at hentry <;>
    obtain ⟨h1, h2⟩ := hentry <;> subst h1 <;> subst h2 <;>
    first
      | (exfalso; revert hwritable; decide)
      | exact ⟨rfl, by decide⟩

theorem caml_glfwSetWindowAttrib_returns (s : State) (window hint ml_val : value)
    (errs : List report) (entry : Int × value_type)
    (hat : ml_window_attrib_at (to_int (Int_val hint)) = some entry)
    (hclean : (glfwSetWindowAttrib s (Cptr_val window) entry.1 (to_int (Int_val ml_val))
      errs).error_tag = Val_unit) :
    caml_glfwSetWindowAttrib s window hint ml_val errs
      = Result.ok Val_unit
          (glfwSetWindowAttrib s (Cptr_val window) entry.1 (to_int (Int_val ml_val)) errs) := by
  unfold caml_glfwSetWindowAttrib
  simp only [hat, raise_if_error, hclean, ne_eq, not_true_eq_false, if_false]

theorem caml_glfwGetWindowAttrib_returns (s : State) (window ml_attribute : value)
    (errs : List report) (entry : Int × value_type)
    (hat : ml_window_attrib_at (to_int (Int_val ml_attribute)) = some entry)
    (hclean : (glfwGetWindowAttrib s (Cptr_val window) entry.1 errs).2.error_tag = Val_unit) :
    caml_glfwGetWindowAttrib s window ml_attribute errs
      = Result.ok (window_attrib_value entry.2 (s.window_attrib (Cptr_val window) entry.1))
          (glfwGetWindowAttrib s (Cptr_val window) entry.1 errs).2 := by
  unfold caml_glfwGetWindowAttrib
  simp only [hat, raise_if_error, hclean, ne_eq, not_true_eq_false, if_false]
  rfl

/-- C10: for every host attribute ordinal `o` whose table entry is one of the
writable native attributes (resizable, decorated, auto-iconify, floating,
focus-on-show) and every value `Val_int(v)` with `v` representable as a C
`int` (the booleans `Val_int(0)` and `Val_int(1)` among them), when no error
is pending and the native library stores the integer it is given and reports
no error, `caml_glfwSetWindowAttrib` returns unit and `caml_glfwGetWindowAttrib`
on the same window and attribute then returns `Val_int(v)`. -/
theorem window_attrib_round_trip (s : State) (window : value) (o : Nat) (attrib : Int)
    (ty : value_type) (v : Int)
    (hentry : ml_window_attrib[o]? = some (attrib, ty))
    (hwritable : attrib ∈ [GLFW_RESIZABLE, GLFW_DECORATED, GLFW_AUTO_ICONIFY, GLFW_FLOATING,
      GLFW_FOCUS_ON_SHOW])
    (hrange : -2 ^ 31 ≤ v ∧ v < 2 ^ 31)
    (hclean : s.error_tag = Val_unit) :
    ∃ s1 s2,
      caml_glfwSetWindowAttrib s window (Val_int (o : Int)) (Val_int v) [] = Result.ok Val_unit s1
      ∧ caml_glfwGetWindowAttrib s1 window (Val_int (o : Int)) [] = Result.ok (Val_int v) s2 := by
  obtain ⟨-, hat⟩ := writable_attrib_entry o attrib ty hentry hwritable
  have hv : to_int (Int_val (Val_int v)) = v := to_int_of_range v hrange
  have hset := caml_glfwSetWindowAttrib_returns s window (Val_int (o : Int)) (Val_int v) []
    (attrib, value_type.Int) hat hclean
  have hget := caml_glfwGetWindowAttrib_returns
    (glfwSetWindowAttrib s (Cptr_val window) attrib (to_int (Int_val (Val_int v))) [])
    window (Val_int (o : Int)) [] (attrib, value_type.Int) hat hclean
  have hread : (glfwSetWindowAttrib s (Cptr_val window) attrib
      (to_int (Int_val (Val_int v))) []).window_attrib (Cptr_val window) attrib
      = to_int (Int_val (Val_int v)) := by
    simp [glfwSetWindowAttrib, deliver]
  rw [hread] at hget
  rw [hv] at hset hget
  exact ⟨_, _, hset, hget⟩

theorem window_attrib_round_trip_witness :
    ∃ s1 s2,
      caml_glfwSetWindowAttrib start_state (Val_int 21) (Val_int ((6 : Nat) : Int))
          (Val_int 1) [] = Result.ok Val_unit s1
      ∧ caml_glfwGetWindowAttrib s1 (Val_int 21) (Val_int ((6 : Nat) : Int)) []
          = Result.ok (Val_int 1) s2 :=
  window_attrib_round_trip start_state (Val_int 21) 6 GLFW_FLOATING value_type.Int 1
    (by decide) (by decide) (by decide) rfl

/-! ### Pointer tagging -/

theorem or_one_of_even (p : Nat) (h : p % 2 = 0) : p ||| 1 = p + 1 := by
  have h1 : 2 ^ 1 * (p / 2) + 1 = 2 ^ 1 * (p / 2) ||| 1 :=
    Nat.mul_add_lt_is_or (by decide) (p / 2)
  have h2 : 2 ^ 1 * (p / 2) = p := by omega
  rw [h2] at h1
  exact h1.symm

theorem and_not_one (v : Nat) (h : v < 2 ^ 64) : v &&& (2 ^ 64 - 2) = v / 2 * 2 := by
  apply Nat.eq_of_testBit_eq
  intro i
  rw [Nat.testBit_and]
  cases i with
  | zero =>
    have h1 : (2 ^ 64 - 2 : Nat).testBit 0 = false := by decide
    have h2 : (v / 2 * 2).testBit 0 = false := by
      rw [Nat.testBit_zero]
      simp
    rw [h1, h2]
    simp
  | succ j =>
    rw [Nat.testBit_succ, Nat.testBit_succ, Nat.testBit_succ]
    have h1 : (2 ^ 64 - 2 : Nat) / 2 = 2 ^ 63 - 1 := by decide
    have h2 : v / 2 * 2 / 2 = v / 2 := by omega
    rw [h1, h2, Nat.testBit_two_pow_sub_one]
    by_cases hj : j < 63
    · simp [hj]
    · have hv : v / 2 < 2 ^ j := by
        have : 2 ^ 63 ≤ 2 ^ j := Nat.pow_le_pow_right (by decide) (by omega)
        omega
      simp [hj, Nat.testBit_lt_two_pow hv]

theorem Cptr_val_value_of_word (v : Nat) (hodd : v % 2 = 1) (h : v < 2 ^ 64) :
    Cptr_val (value_of_word v) = v - 1 := by
  unfold value_of_word Cptr_val
  by_cases hs : v < 2 ^ 63
  · simp only [hs, if_true]
    norm_num at h hs ⊢
    omega
  · simp only [hs, if_false]
    norm_num at h hs ⊢
    omega

/-- C13: for every 64-bit pointer `p` with low bit 0, `Val_cptr(p)` passes its
assertion and is the word `p | 1`, whose low bit is 1 (an immediate), and
`Cptr_val` of it is `p`, on words and on the values of the model; the
assertion of `Val_cptr` fails exactly when the low bit of `p` is 1. -/
theorem pointer_tagging (p : Nat) (hp : p < 2 ^ 64) :
    (p % 2 = 0 →
      ∃ v, Val_cptr_word p = some v ∧ v % 2 = 1 ∧ Cptr_val_word v = p
        ∧ Val_cptr p = some (value_of_word v) ∧ Cptr_val (value_of_word v) = p)
    ∧ (Val_cptr_word p = none ↔ p % 2 = 1) := by
  constructor
  · intro heven
    have hor : p ||| 1 = p + 1 := or_one_of_even p heven
    have hlt : p + 1 < 2 ^ 64 := by
      norm_num at hp ⊢
      omega
    have hw : Val_cptr_word p = some (p + 1) := by
      simp [Val_cptr_word, Nat.and_one_is_mod, heven, hor]
    refine ⟨p + 1, hw, by omega, ?_, ?_, ?_⟩
    · unfold Cptr_val_word
      rw [and_not_one (p + 1) hlt]
      omega
    · simp [Val_cptr, hw]
    · rw [Cptr_val_value_of_word (p + 1) (by omega) hlt]
      rfl
  · unfold Val_cptr_word
    rw [Nat.and_one_is_mod]
    by_cases h : p % 2 = 0
    · simp [h]
    · simp only [h, if_false]
      constructor
      · intro _
        omega
      · intro _
        trivial

theorem pointer_tagging_witness :
    ∃ v, Val_cptr_word 42 = some v ∧ v % 2 = 1 ∧ Cptr_val_word v = 42
      ∧ Val_cptr 42 = some (value_of_word v) ∧ Cptr_val (value_of_word v) = 42 :=
  (pointer_tagging 42 (by decide)).1 (by decide)

/-! ### Window hints and optional integers -/

theorem ml_window_attrib_at_of_entry (off : Nat) (entry : Int × value_type)
    (hentry : ml_window_attrib[off]? = some entry) :
    ml_window_attrib_at (to_int (Int_val (Val_int (off : Int)))) = some entry := by
  have hlt : off < 45 := (List.getElem?_eq_some.mp hentry).1
  have h0 : -2 ^ 31 ≤ (off : Int) ∧ (off : Int) < 2 ^ 31 := by
    norm_num
    omega
  have h1 : to_int (Int_val (Val_int (off : Int))) = (off : Int) :=
    to_int_of_range (off : Int) h0
  rw [h1]
  unfold ml_window_attrib_at
  simp [hentry]

theorem caml_glfwWindowHint_returns (s : State) (hint ml_val : value) (errs : List report)
    (entry : Int × value_type)
    (hat : ml_window_attrib_at (to_int (Int_val hint)) = some entry)
    (hty : entry.2 ≠ value_type.String)
    (hclean : (glfwWindowHint s entry.1 (window_hint_value entry.2 ml_val) errs).error_tag
      = Val_unit) :
    caml_glfwWindowHint s hint ml_val errs
      = Result.ok Val_unit (glfwWindowHint s entry.1 (window_hint_value entry.2 ml_val) errs) := by
  unfold caml_glfwWindowHint
  obtain ⟨attrib, ty⟩ := entry
  cases ty <;> simp_all [raise_if_error]

theorem enum_values_round_trip :
    ∀ ty ∈ [value_type.ClientApi, value_type.ContextRobustness, value_type.OpenGLProfile,
        value_type.ContextCreationApi],
      ∀ o ∈ [(0 : Int), 1, 2],
        window_attrib_value ty (window_hint_value ty (Val_int o)) = Val_int o := by
  decide

/-- C11 (the code at the failing input): for the context release behavior
attribute (table offset 36) and the host ordinal 1, `caml_glfwWindowHint` passes
`GLFW_RELEASE_BEHAVIOR_FLUSH` to the native library; on a window whose native
attribute holds that constant, `caml_glfwGetWindowAttrib` returns `Val_unit`,
which is the ordinal 0 and not 1: its `switch` has no case for this kind. -/
theorem release_behavior_not_decoded :
    ml_window_attrib[36]?
      = some (GLFW_CONTEXT_RELEASE_BEHAVIOR, value_type.ContextReleaseBehavior)
    ∧ (∃ s1, caml_glfwWindowHint start_state (Val_int 36) (Val_int 1) []
          = Result.ok Val_unit s1
        ∧ s1.trace = [native_call.WindowHint GLFW_CONTEXT_RELEASE_BEHAVIOR
            GLFW_RELEASE_BEHAVIOR_FLUSH])
    ∧ (∃ s2, caml_glfwGetWindowAttrib
          { start_state with window_attrib := fun _ _ => GLFW_RELEASE_BEHAVIOR_FLUSH }
          (Val_int 21) (Val_int 36) [] = Result.ok Val_unit s2)
    ∧ Val_unit = Val_int 0
    ∧ Val_unit ≠ Val_int 1 :=
  ⟨by decide, ⟨_, rfl, rfl⟩, ⟨_, rfl⟩, rfl, by decide⟩

/-- The round trip of the four closed enumeration kinds that
`caml_glfwGetWindowAttrib` decodes (client API, context robustness, OpenGL
profile, context creation API): for every attribute of such a kind in the table and
every host ordinal `o` in {0, 1, 2}: `caml_glfwWindowHint` passes one native
constant `g` for `o` to `glfwWindowHint`, and `caml_glfwGetWindowAttrib`, on a
window whose native attribute is `g`, returns `o`.  No error is pending and
no native call reports one. -/
theorem enum_round_trip (s sw : State) (window : value) (off : Nat) (attrib : Int)
    (ty : value_type) (o : Int)
    (hentry : ml_window_attrib[off]? = some (attrib, ty))
    (hty : ty ∈ [value_type.ClientApi, value_type.ContextRobustness,
      value_type.OpenGLProfile, value_type.ContextCreationApi])
    (ho : o ∈ [(0 : Int), 1, 2])
    (hclean : s.error_tag = Val_unit) (hcleanw : sw.error_tag = Val_unit)
    (hnative : sw.window_attrib (Cptr_val window) attrib = window_hint_value ty (Val_int o)) :
    ∃ s1 s2,
      caml_glfwWindowHint s (Val_int (off : Int)) (Val_int o) [] = Result.ok Val_unit s1
      ∧ s1.trace = s.trace ++ [native_call.WindowHint attrib (window_hint_value ty (Val_int o))]
      ∧ caml_glfwGetWindowAttrib sw window (Val_int (off : Int)) [] = Result.ok (Val_int o) s2 := by
  have hat := ml_window_attrib_at_of_entry off (attrib, ty) hentry
  have hne : ty ≠ value_type.String := by
    intro e
    subst e
    revert hty
    decide
  have hhint := caml_glfwWindowHint_returns s (Val_int (off : Int)) (Val_int o) []
    (attrib, ty) hat hne hclean
  have hget := caml_glfwGetWindowAttrib_returns sw window (Val_int (off : Int)) []
    (attrib, ty) hat hcleanw
  have hval := enum_values_round_trip ty hty o ho
  simp only at hget
  rw [hnative, hval] at hget
  exact ⟨_, _, hhint, rfl, hget⟩

theorem enum_round_trip_witness :
    ∃ s1 s2,
      caml_glfwWindowHint start_state (Val_int ((38 : Nat) : Int)) (Val_int 2) []
        = Result.ok Val_unit s1
      ∧ s1.trace = start_state.trace ++ [native_call.WindowHint GLFW_CONTEXT_CREATION_API
          (window_hint_value value_type.ContextCreationApi (Val_int 2))]
      ∧ caml_glfwGetWindowAttrib
          { start_state with window_attrib := fun _ _ => GLFW_OSMESA_CONTEXT_API }
          (Val_int 21) (Val_int ((38 : Nat) : Int)) [] = Result.ok (Val_int 2) s2 :=
  enum_round_trip start_state
    { start_state with window_attrib := fun _ _ => GLFW_OSMESA_CONTEXT_API }
    (Val_int 21) 38 GLFW_CONTEXT_CREATION_API value_type.ContextCreationApi 2
    (by decide) (by decide) (by decide) rfl rfl (by decide)

theorem caml_glfwSetWindowSizeLimits_returns (s : State) (window minW minH maxW maxH : value)
    (errs : List report)
    (hclean : (glfwSetWindowSizeLimits s (Cptr_val window)
      (to_int (if Is_none minW then GLFW_DONT_CARE else Int_val (Some_val minW)))
      (to_int (if Is_none minH then GLFW_DONT_CARE else Int_val (Some_val minH)))
      (to_int (if Is_none maxW then GLFW_DONT_CARE else Int_val (Some_val maxW)))
      (to_int (if Is_none maxH then GLFW_DONT_CARE else Int_val (Some_val maxH)))
      errs).error_tag = Val_unit) :
    caml_glfwSetWindowSizeLimits s window minW minH maxW maxH errs
      = Result.ok Val_unit (glfwSetWindowSizeLimits s (Cptr_val window)
          (to_int (if Is_none minW then GLFW_DONT_CARE else Int_val (Some_val minW)))
          (to_int (if Is_none minH then GLFW_DONT_CARE else Int_val (Some_val minH)))
          (to_int (if Is_none maxW then GLFW_DONT_CARE else Int_val (Some_val maxW)))
          (to_int (if Is_none maxH then GLFW_DONT_CARE else Int_val (Some_val maxH)))
          errs) := by
  unfold caml_glfwSetWindowSizeLimits
  simp only [raise_if_error, hclean, ne_eq, not_true_eq_false, if_false]

theorem caml_glfwSetWindowMonitor_returns (s : State)
    (window monitor xpos ypos width height refreshRate : value) (errs : List report)
    (hclean : (glfwSetWindowMonitor s (Cptr_val window)
      (if Is_none monitor then 0 else Cptr_val (Some_val monitor))
      (to_int (Int_val xpos)) (to_int (Int_val ypos)) (to_int (Int_val width))
      (to_int (Int_val height))
      (to_int (if Is_none refreshRate then GLFW_DONT_CARE else Int_val (Some_val refreshRate)))
      errs).error_tag = Val_unit) :
    caml_glfwSetWindowMonitor s window monitor xpos ypos width height refreshRate errs
      = Result.ok Val_unit (glfwSetWindowMonitor s (Cptr_val window)
          (if Is_none monitor then 0 else Cptr_val (Some_val monitor))
          (to_int (Int_val xpos)) (to_int (Int_val ypos)) (to_int (Int_val width))
          (to_int (Int_val height))
          (to_int (if Is_none refreshRate then GLFW_DONT_CARE
            else Int_val (Some_val refreshRate)))
          errs) := by
  unfold caml_glfwSetWindowMonitor
  simp only [raise_if_error, hclean, ne_eq, not_true_eq_false, if_false]

theorem int_option_conversion (x : Option Int) :
    to_int (if Is_none (ml_int_option x) then GLFW_DONT_CARE
      else Int_val (Some_val (ml_int_option x))) = native_int_option x := by
  cases x with
  | none => decide
  | some n =>
    have hn : Is_none (ml_int_option (some n)) = false := by
      simp [Is_none, ml_int_option, caml_alloc_some, Val_none, Val_int]
    rw [hn]
    rfl

/-- C12: every optional-integer argument reaches the native library converted
in the same way, `None` as `GLFW_DONT_CARE` and `Some n` as `n` (as a C
`int`, which is `n` itself whenever `n` fits 32 bits): the value of a hint of
kind `IntOption` in `caml_glfwWindowHint`, the four limits of
`caml_glfwSetWindowSizeLimits` and the refresh rate of
`caml_glfwSetWindowMonitor`.  No error is pending and no native call reports
one. -/
theorem optional_int_arguments (s : State) (window monitor xpos ypos width height : value)
    (off : Nat) (attrib : Int) (x minW minH maxW maxH refreshRate : Option Int)
    (hentry : ml_window_attrib[off]? = some (attrib, value_type.IntOption))
    (hclean : s.error_tag = Val_unit) :
    (∃ s1, caml_glfwWindowHint s (Val_int (off : Int)) (ml_int_option x) []
        = Result.ok Val_unit s1
      ∧ s1.trace = s.trace ++ [native_call.WindowHint attrib (native_int_option x)])
    ∧ (∃ s1, caml_glfwSetWindowSizeLimits s window (ml_int_option minW) (ml_int_option minH)
          (ml_int_option maxW) (ml_int_option maxH) [] = Result.ok Val_unit s1
        ∧ s1.trace = s.trace ++ [native_call.SetWindowSizeLimits (Cptr_val window)
            (native_int_option minW) (native_int_option minH) (native_int_option maxW)
            (native_int_option maxH)])
    ∧ (∃ s1, caml_glfwSetWindowMonitor s window monitor xpos ypos width height
          (ml_int_option refreshRate) [] = Result.ok Val_unit s1
        ∧ s1.trace = s.trace ++ [native_call.SetWindowMonitor (Cptr_val window)
            (if Is_none monitor then 0 else Cptr_val (Some_val monitor))
            (to_int (Int_val xpos)) (to_int (Int_val ypos)) (to_int (Int_val width))
            (to_int (Int_val height)) (native_int_option refreshRate)])
    ∧ native_int_option none = GLFW_DONT_CARE
    ∧ (∀ n : Int, native_int_option (some n) = to_int n)
    ∧ (∀ n : Int, -2 ^ 31 ≤ n ∧ n < 2 ^ 31 → native_int_option (some n) = n) := by
  refine ⟨?_, ?_, ?_, rfl, fun _ => rfl, fun n hn => to_int_of_range n hn⟩
  · have hat := ml_window_attrib_at_of_entry off (attrib, value_type.IntOption) hentry
    have h := caml_glfwWindowHint_returns s (Val_int (off : Int)) (ml_int_option x) []
      (attrib, value_type.IntOption) hat (fun e => by cases e) hclean
    have hv : window_hint_value value_type.IntOption (ml_int_option x)
        = native_int_option x := int_option_conversion x
    simp only [hv] at h
    exact ⟨_, h, rfl⟩
  · have h := caml_glfwSetWindowSizeLimits_returns s window (ml_int_option minW)
      (ml_int_option minH) (ml_int_option maxW) (ml_int_option maxH) [] hclean
    rw [int_option_conversion, int_option_conversion, int_option_conversion,
      int_option_conversion] at h
    exact ⟨_, h, rfl⟩
  · have h := caml_glfwSetWindowMonitor_returns s window monitor xpos ypos width height
      (ml_int_option refreshRate) [] hclean
    rw [int_option_conversion] at h
    exact ⟨_, h, rfl⟩

theorem optional_int_arguments_witness :
    (∃ s1, caml_glfwSetWindowSizeLimits start_state (Val_int 21) (ml_int_option (some 640))
          (ml_int_option none) (ml_int_option none) (ml_int_option (some 1080)) []
          = Result.ok Val_unit s1
        ∧ s1.trace = start_state.trace ++ [native_call.SetWindowSizeLimits
            (Cptr_val (Val_int 21)) (native_int_option (some 640)) (native_int_option none)
            (native_int_option none) (native_int_option (some 1080))])
    ∧ native_int_option (some 640) = 640 :=
  ⟨(optional_int_arguments start_state (Val_int 21) Val_none (Val_int 0) (Val_int 0)
      (Val_int 800) (Val_int 600) 26 GLFW_REFRESH_RATE (some 60) (some 640) none none
      (some 1080) (some 60) (by decide) rfl).2.1,
   (optional_int_arguments start_state (Val_int 21) Val_none (Val_int 0) (Val_int 0)
      (Val_int 800) (Val_int 600) 26 GLFW_REFRESH_RATE (some 60) (some 640) none none
      (some 1080) (some 60) (by decide) rfl).2.2.2.2.2 640 (by decide)⟩

/-! ### Window creation and destruction -/

theorem word_of_lt (v : value) : word_of v < 2 ^ 64 := by
  cases v with
  | int n =>
    simp only [word_of, immediate_word]
    have h1 : 0 ≤ (2 * n + 1) % 2 ^ 64 := Int.emod_nonneg _ (by norm_num)
    have h2 : (2 * n + 1) % 2 ^ 64 < 2 ^ 64 := Int.emod_lt_of_pos _ (by norm_num)
    omega
  | string x => simp [word_of]
  | closure x => simp [word_of]
  | exn x => simp [word_of]
  | block1 x => simp [word_of]
  | block2 x y => simp [word_of]

theorem Val_cptr_of_even (p : Nat) (heven : p % 2 = 0) (hword : p < 2 ^ 64) :
    Val_cptr p = some (value_of_word (p + 1)) ∧ Cptr_val (value_of_word (p + 1)) = p := by
  have hor : p ||| 1 = p + 1 := or_one_of_even p heven
  have hlt : p + 1 < 2 ^ 64 := by
    norm_num at hword ⊢
    omega
  constructor
  · simp [Val_cptr, Val_cptr_word, Nat.and_one_is_mod, heven, hor]
  · rw [Cptr_val_value_of_word (p + 1) (by omega) hlt]
    rfl

theorem set_user_pointer_frame (s : State) (window pointer : Nat) (errs : List report) :
    (glfwSetWindowUserPointer s window pointer errs).named_value = s.named_value
    ∧ (glfwSetWindowUserPointer s window pointer errs).closure = s.closure
    ∧ (glfwSetWindowUserPointer s window pointer errs).roots = s.roots
    ∧ (glfwSetWindowUserPointer s window pointer errs).cells = s.cells
    ∧ (glfwSetWindowUserPointer s window pointer errs).user_pointer
        = (fun w => if w = window then pointer else s.user_pointer w)
    ∧ (glfwSetWindowUserPointer s window pointer errs).window_callback = s.window_callback
    ∧ (glfwSetWindowUserPointer s window pointer errs).global_callback = s.global_callback
    ∧ (glfwSetWindowUserPointer s window pointer errs).window_attrib = s.window_attrib
    ∧ (glfwSetWindowUserPointer s window pointer errs).trace
        = s.trace ++ [native_call.SetWindowUserPointer window pointer] := by
  unfold glfwSetWindowUserPointer
  exact deliver_frame _ errs

/-- What the common lines of the two creating stubs do with a non-null cell
and a window pointer that passes the assertion of `Val_cptr`: they return the
handle of the window, with a record of empty slots in the new cell, the cell
registered as a root and attached to the window. -/
theorem attach_callbacks_returns (s : State) (window user_pointer : Nat) (errs : List report)
    (heven : window % 2 = 0) (hword : window < 2 ^ 64) (hmalloc : user_pointer ≠ 0) :
    ∃ s1, attach_callbacks s window user_pointer errs
        = Result.ok (value_of_word (window + 1)) s1
      ∧ Cptr_val (value_of_word (window + 1)) = window
      ∧ s1.cells = (fun q => if q = user_pointer then some empty_callbacks else s.cells q)
      ∧ s1.roots = root.cell user_pointer :: s.roots
      ∧ s1.user_pointer = (fun w => if w = window then user_pointer else s.user_pointer w)
      ∧ s1.window_callback = s.window_callback
      ∧ s1.closure = s.closure
      ∧ s1.trace = s.trace ++ [native_call.SetWindowUserPointer window user_pointer]
      ∧ (errs = [] → s1.error_tag = s.error_tag) := by
  obtain ⟨hv, hc⟩ := Val_cptr_of_even window heven hword
  obtain ⟨-, f2, f3, f4, f5, f6, -, -, f9⟩ := set_user_pointer_frame
    { s with
      cells := fun q => if q = user_pointer then some empty_callbacks else s.cells q,
      roots := root.cell user_pointer :: s.roots } window user_pointer errs
  unfold attach_callbacks
  simp only [hmalloc, if_false, hv]
  refine ⟨_, rfl, hc, f4, f3, f5, f6, f2, f9, ?_⟩
  intro he
  subst he
  rfl

theorem caml_glfwCreateWindow_returns (s : State) (width height title mntor share : value)
    (native_window malloc_result : Nat) (errs_create errs_pointer : List report)
    (hclean : (glfwCreateWindow s (to_int (Int_val width)) (to_int (Int_val height))
      (String_val title)
      (if Is_none mntor then 0 else Cptr_val (Some_val mntor))
      (if Is_none share then 0 else Cptr_val (Some_val share))
      native_window errs_create).error_tag = Val_unit) :
    caml_glfwCreateWindow s width height title mntor share native_window malloc_result
        errs_create errs_pointer
      = attach_callbacks
          (glfwCreateWindow s (to_int (Int_val width)) (to_int (Int_val height))
            (String_val title)
            (if Is_none mntor then 0 else Cptr_val (Some_val mntor))
            (if Is_none share then 0 else Cptr_val (Some_val share))
            native_window errs_create)
          native_window malloc_result errs_pointer := by
  unfold caml_glfwCreateWindow
  simp only [raise_if_error, hclean, ne_eq, not_true_eq_false, if_false]

theorem create_window_frame (s : State) (width height : Int) (title : String)
    (monitor share window : Nat) (errs : List report) :
    (glfwCreateWindow s width height title monitor share window errs).named_value
        = s.named_value
    ∧ (glfwCreateWindow s width height title monitor share window errs).closure = s.closure
    ∧ (glfwCreateWindow s width height title monitor share window errs).roots = s.roots
    ∧ (glfwCreateWindow s width height title monitor share window errs).cells = s.cells
    ∧ (glfwCreateWindow s width height title monitor share window errs).user_pointer
        = (fun w => if w = window then 0 else s.user_pointer w)
    ∧ (glfwCreateWindow s width height title monitor share window errs).window_callback
        = (fun w n => if w = window then fnptr.NULL else s.window_callback w n)
    ∧ (glfwCreateWindow s width height title monitor share window errs).global_callback
        = s.global_callback
    ∧ (glfwCreateWindow s width height title monitor share window errs).window_attrib
        = s.window_attrib
    ∧ (glfwCreateWindow s width height title monitor share window errs).trace
        = s.trace ++ [native_call.CreateWindow width height title monitor share] := by
  unfold glfwCreateWindow
  exact deliver_frame _ errs

theorem first_setter_returns_none (s1 : State) (handle : value) (window p : Nat)
    (hc : Cptr_val handle = window) (hup : s1.user_pointer window = p)
    (hcells : s1.cells p = some empty_callbacks) (hclean : s1.error_tag = Val_unit)
    (name : Category) (new_closure : value) (errs_setter : List report) :
    ∃ s2, CAML_WINDOW_SETTER_STUB name s1 handle new_closure [] errs_setter
      = Result.ok Val_none s2 := by
  have hcell : s1.cells (s1.user_pointer (Cptr_val handle)) = some empty_callbacks := by
    rw [hc, hup]
    exact hcells
  have hclean2 : (glfwGetWindowUserPointer s1 (Cptr_val handle) []).2.error_tag = Val_unit :=
    hclean
  obtain ⟨s2, e, -⟩ := window_setter_returns name s1 handle new_closure [] errs_setter
    empty_callbacks hcell hclean2
  have hn : empty_callbacks name = Val_unit := rfl
  simp only [hn, if_true] at e
  exact ⟨s2, e⟩

/-- C14: a window returned by `caml_glfwCreateWindow`, and one adopted by
`caml_window_magic`, has a callback record attached in which every slot is
empty, so that the first setter call for any category on the handle returns
`None`.  Conditions: `malloc` returns a cell, the window pointer passes the
assertion of `Val_cptr`, no error is pending and no native call of the
creation or of the window lookup reports one. -/
theorem created_window_has_empty_record (s : State)
    (width height title mntor share window : value) (native_window malloc_result : Nat)
    (hclean : s.error_tag = Val_unit) (hmalloc : malloc_result ≠ 0)
    (heven : native_window % 2 = 0) (hword : native_window < 2 ^ 64)
    (hmagic : (word_of window / 2) % 2 = 0) :
    (∃ handle s1,
      caml_glfwCreateWindow s width height title mntor share native_window malloc_result [] []
        = Result.ok handle s1
      ∧ Cptr_val handle = native_window
      ∧ s1.user_pointer native_window = malloc_result
      ∧ s1.cells malloc_result = some empty_callbacks
      ∧ (∀ name, callbacks_field s1 (s1.user_pointer (Cptr_val handle)) name = Val_unit)
      ∧ ∀ name new_closure errs_setter, ∃ s2,
          CAML_WINDOW_SETTER_STUB name s1 handle new_closure [] errs_setter
            = Result.ok Val_none s2)
    ∧ (∃ handle s1,
      caml_window_magic s window malloc_result [] = Result.ok handle s1
      ∧ Cptr_val handle = word_of window / 2
      ∧ s1.user_pointer (word_of window / 2) = malloc_result
      ∧ s1.cells malloc_result = some empty_callbacks
      ∧ (∀ name, callbacks_field s1 (s1.user_pointer (Cptr_val handle)) name = Val_unit)
      ∧ ∀ name new_closure errs_setter, ∃ s2,
          CAML_WINDOW_SETTER_STUB name s1 handle new_closure [] errs_setter
            = Result.ok Val_none s2) := by
  constructor
  · have hc := caml_glfwCreateWindow_returns s width height title mntor share native_window
      malloc_result [] [] hclean
    obtain ⟨s1, e, hh, hcells, -, hup, -, -, -, herr⟩ := attach_callbacks_returns
      (glfwCreateWindow s (to_int (Int_val width)) (to_int (Int_val height))
        (String_val title)
        (if Is_none mntor then 0 else Cptr_val (Some_val mntor))
        (if Is_none share then 0 else Cptr_val (Some_val share))
        native_window []) native_window malloc_result [] heven hword hmalloc
    rw [← hc] at e
    have hup1 : s1.user_pointer native_window = malloc_result := by simp [hup]
    have hcell1 : s1.cells malloc_result = some empty_callbacks := by simp [hcells]
    have hclean1 : s1.error_tag = Val_unit := (herr rfl).trans hclean
    refine ⟨_, s1, e, hh, hup1, hcell1, ?_, ?_⟩
    · intro name
      simp [callbacks_field, hh, hup1, hcell1, empty_callbacks]
    · intro name new_closure errs_setter
      exact first_setter_returns_none s1 _ native_window malloc_result hh hup1 hcell1 hclean1
        name new_closure errs_setter
  · have hword2 : word_of window / 2 < 2 ^ 64 := by
      have := word_of_lt window
      omega
    obtain ⟨s1, e, hh, hcells, -, hup, -, -, -, herr⟩ := attach_callbacks_returns s
      (word_of window / 2) malloc_result [] hmagic hword2 hmalloc
    have hup1 : s1.user_pointer (word_of window / 2) = malloc_result := by simp [hup]
    have hcell1 : s1.cells malloc_result = some empty_callbacks := by simp [hcells]
    have hclean1 : s1.error_tag = Val_unit := (herr rfl).trans hclean
    refine ⟨_, s1, e, hh, hup1, hcell1, ?_, ?_⟩
    · intro name
      simp [callbacks_field, hh, hup1, hcell1, empty_callbacks]
    · intro name new_closure errs_setter
      exact first_setter_returns_none s1 _ (word_of window / 2) malloc_result hh hup1 hcell1
        hclean1 name new_closure errs_setter

theorem created_window_has_empty_record_witness :
    (∃ handle s1,
      caml_glfwCreateWindow start_state (Val_int 640) (Val_int 480) (value.string "demo")
        Val_none Val_none 4096 8192 [] [] = Result.ok handle s1
      ∧ Cptr_val handle = 4096
      ∧ s1.user_pointer 4096 = 8192
      ∧ s1.cells 8192 = some empty_callbacks
      ∧ (∀ name, callbacks_field s1 (s1.user_pointer (Cptr_val handle)) name = Val_unit)
      ∧ ∀ name new_closure errs_setter, ∃ s2,
          CAML_WINDOW_SETTER_STUB name s1 handle new_closure [] errs_setter
            = Result.ok Val_none s2) :=
  (created_window_has_empty_record start_state (Val_int 640) (Val_int 480)
    (value.string "demo") Val_none Val_none (Val_int 4096) 4096 8192 rfl (by decide)
    (by decide) (by decide) (by decide)).1

theorem destroy_window_frame (s : State) (window : Nat) (errs : List report) :
    (glfwDestroyWindow s window errs).cells = s.cells
    ∧ (glfwDestroyWindow s window errs).roots = s.roots := by
  obtain ⟨-, -, h3, h4, -⟩ :=
    deliver_frame { s with trace := s.trace ++ [native_call.DestroyWindow window] } errs
  exact ⟨h4, h3⟩

/-- What `caml_glfwDestroyWindow` does when no error is pending after the
window lookup and the window has a cell: it removes the root, frees the cell,
and returns or raises according to the error cell after `glfwDestroyWindow`. -/
theorem caml_glfwDestroyWindow_releases (s : State) (ml_window : value)
    (errs_lookup errs_destroy : List report) (callbacks : Category → value)
    (hcell : s.cells (s.user_pointer (Cptr_val ml_window)) = some callbacks)
    (hclean : (glfwGetWindowUserPointer s (Cptr_val ml_window) errs_lookup).2.error_tag
      = Val_unit) :
    ∃ s2,
      (caml_glfwDestroyWindow s ml_window errs_lookup errs_destroy = Result.ok Val_unit s2
        ∨ ∃ tag arg,
          caml_glfwDestroyWindow s ml_window errs_lookup errs_destroy
            = Result.raised tag arg s2)
      ∧ s2.cells = (fun q => if q = s.user_pointer (Cptr_val ml_window) then none else s.cells q)
      ∧ s2.roots = s.roots.erase (root.cell (s.user_pointer (Cptr_val ml_window))) := by
  obtain ⟨l0, -, -, l3, l4, -⟩ := lookup_frame s (Cptr_val ml_window) errs_lookup
  have hraise : raise_if_error (glfwGetWindowUserPointer s (Cptr_val ml_window) errs_lookup).2
      = Result.ok () (glfwGetWindowUserPointer s (Cptr_val ml_window) errs_lookup).2 := by
    simp [raise_if_error, hclean]
  unfold caml_glfwDestroyWindow
  simp only [hraise, l0, l4, hcell, l3]
  generalize hs5 : glfwDestroyWindow _ (Cptr_val ml_window) errs_destroy = s5
  have hf := destroy_window_frame
    { (glfwGetWindowUserPointer s (Cptr_val ml_window) errs_lookup).2 with
      roots := s.roots.erase (root.cell (s.user_pointer (Cptr_val ml_window))),
      cells := fun q => if q = s.user_pointer (Cptr_val ml_window) then none else s.cells q }
    (Cptr_val ml_window) errs_destroy
  rw [hs5] at hf
  by_cases ht : s5.error_tag = Val_unit
  · refine ⟨s5, Or.inl ?_, hf.1, hf.2⟩
    simp [raise_if_error, ht]
  · refine ⟨{ s5 with error_tag := Val_unit, error_arg := Val_unit },
      Or.inr ⟨s5.error_tag, s5.error_arg, ?_⟩, hf.1, hf.2⟩
    simp [raise_if_error, ht]

/-- C15: with the live cells (`cells`) and the registered roots (`roots`) as
the allocation state, `caml_glfwCreateWindow` allocates one cell and registers
it as one root, and `caml_glfwDestroyWindow` on the returned handle frees that
cell and removes that root, whether `glfwDestroyWindow` then reports an error
or not: both sets are afterwards exactly what they were before the creation.
Conditions: `malloc` returns a cell that was not live, the window pointer
passes the assertion of `Val_cptr`, no error is pending and no native call
before the release reports one. -/
theorem create_destroy_restores_allocation (s : State)
    (width height title mntor share : value) (native_window malloc_result : Nat)
    (errs_destroy : List report)
    (hclean : s.error_tag = Val_unit) (hmalloc : malloc_result ≠ 0)
    (hfresh : s.cells malloc_result = none)
    (heven : native_window % 2 = 0) (hword : native_window < 2 ^ 64) :
    ∃ handle s1 s2,
      caml_glfwCreateWindow s width height title mntor share native_window malloc_result [] []
        = Result.ok handle s1
      ∧ s1.cells = (fun q => if q = malloc_result then some empty_callbacks else s.cells q)
      ∧ s1.roots = root.cell malloc_result :: s.roots
      ∧ (caml_glfwDestroyWindow s1 handle [] errs_destroy = Result.ok Val_unit s2
          ∨ ∃ tag arg,
            caml_glfwDestroyWindow s1 handle [] errs_destroy = Result.raised tag arg s2)
      ∧ s2.cells = s.cells
      ∧ s2.roots = s.roots := by
  have hc := caml_glfwCreateWindow_returns s width height title mntor share native_window
    malloc_result [] [] hclean
  obtain ⟨s1, e, hh, hcells, hroots, hup, -, -, -, herr⟩ := attach_callbacks_returns
    (glfwCreateWindow s (to_int (Int_val width)) (to_int (Int_val height))
      (String_val title)
      (if Is_none mntor then 0 else Cptr_val (Some_val mntor))
      (if Is_none share then 0 else Cptr_val (Some_val share))
      native_window []) native_window malloc_result [] heven hword hmalloc
  rw [← hc] at e
  have hcells0 : s1.cells
      = (fun q => if q = malloc_result then some empty_callbacks else s.cells q) := hcells
  have hroots0 : s1.roots = root.cell malloc_result :: s.roots := hroots
  have hup1 : s1.user_pointer native_window = malloc_result := by simp [hup]
  have hcell1 : s1.cells (s1.user_pointer (Cptr_val (value_of_word (native_window + 1))))
      = some empty_callbacks := by
    rw [hh, hup1, hcells0]
    simp
  have hclean1 : (glfwGetWindowUserPointer s1
      (Cptr_val (value_of_word (native_window + 1))) []).2.error_tag = Val_unit :=
    (herr rfl).trans hclean
  obtain ⟨s2, hd, dcells, droots⟩ := caml_glfwDestroyWindow_releases s1
    (value_of_word (native_window + 1)) [] errs_destroy empty_callbacks hcell1 hclean1
  refine ⟨_, s1, s2, e, hcells0, hroots0, hd, ?_, ?_⟩
  · rw [dcells, hh, hup1, hcells0]
    funext q
    by_cases hq : q = malloc_result
    · subst hq
      simp [hfresh]
    · simp [hq]
  · rw [droots, hh, hup1, hroots0]
    simp

theorem create_destroy_restores_allocation_witness :
    ∃ handle s1 s2,
      caml_glfwCreateWindow
          { start_state with cells := fun _ => none }
          (Val_int 640) (Val_int 480) (value.string "demo") Val_none Val_none 4096 8192 [] []
        = Result.ok handle s1
      ∧ s1.cells = (fun q => if q = 8192 then some empty_callbacks else none)
      ∧ s1.roots = root.cell 8192 :: []
      ∧ (caml_glfwDestroyWindow s1 handle [] [] = Result.ok Val_unit s2
          ∨ ∃ tag arg, caml_glfwDestroyWindow s1 handle [] [] = Result.raised tag arg s2)
      ∧ s2.cells = (fun _ => none)
      ∧ s2.roots = [] :=
  create_destroy_restores_allocation { start_state with cells := fun _ => none }
    (Val_int 640) (Val_int 480) (value.string "demo") Val_none Val_none 4096 8192 []
    rfl (by decide) rfl (by decide) (by decide)

/-- C17 (counterexample): with `malloc` returning `NULL`, neither
`caml_glfwCreateWindow` nor `caml_window_magic` aborts: each goes on to store
the callbacks block through the null pointer, which is undefined behaviour. -/
theorem failed_malloc_is_not_checked :
    caml_glfwCreateWindow start_state (Val_int 640) (Val_int 480) (value.string "demo")
        Val_none Val_none 4096 0 [] [] = Result.undefined
    ∧ caml_glfwCreateWindow start_state (Val_int 640) (Val_int 480) (value.string "demo")
        Val_none Val_none 4096 0 [] [] ≠ Result.aborted
    ∧ caml_window_magic start_state (Val_int 4096) 0 [] = Result.undefined
    ∧ caml_window_magic start_state (Val_int 4096) 0 [] ≠ Result.aborted := by
  refine ⟨rfl, ?_, rfl, ?_⟩
  · intro h
    have e : caml_glfwCreateWindow start_state (Val_int 640) (Val_int 480)
        (value.string "demo") Val_none Val_none 4096 0 [] [] = Result.undefined := rfl
    rw [e] at h
    cases h
  · intro h
    have e : caml_window_magic start_state (Val_int 4096) 0 [] = Result.undefined := rfl
    rw [e] at h
    cases h

/-- C17 (amended): the two creating stubs do not test the result of `malloc`.
When it is `NULL`, `caml_window_magic` stores the callbacks block through the
null pointer, which is undefined behaviour; `caml_glfwCreateWindow` raises the
pending error when there is one after `glfwCreateWindow` and otherwise makes
the same store.  In no case is a window handle returned, and the program does
not abort. -/
theorem failed_malloc_stores_through_null (s : State)
    (width height title mntor share window : value) (native_window : Nat)
    (errs_create errs_pointer : List report) :
    caml_window_magic s window 0 errs_pointer = Result.undefined
    ∧ (caml_glfwCreateWindow s width height title mntor share native_window 0
          errs_create errs_pointer = Result.undefined
        ∨ ∃ tag arg s1,
          caml_glfwCreateWindow s width height title mntor share native_window 0
            errs_create errs_pointer = Result.raised tag arg s1)
    ∧ (∀ handle s1,
        caml_glfwCreateWindow s width height title mntor share native_window 0
          errs_create errs_pointer ≠ Result.ok handle s1)
    ∧ caml_glfwCreateWindow s width height title mntor share native_window 0
        errs_create errs_pointer ≠ Result.aborted := by
  have hattach : ∀ (st : State) (w : Nat) (errs : List report),
      attach_callbacks st w 0 errs = Result.undefined := by
    intro st w errs
    simp [attach_callbacks]
  have hcreate : caml_glfwCreateWindow s width height title mntor share native_window 0
        errs_create errs_pointer = Result.undefined
      ∨ ∃ tag arg s1,
        caml_glfwCreateWindow s width height title mntor share native_window 0
          errs_create errs_pointer = Result.raised tag arg s1 := by
    unfold caml_glfwCreateWindow
    by_cases ht : (glfwCreateWindow s (to_int (Int_val width)) (to_int (Int_val height))
        (String_val title)
        (if Is_none mntor then 0 else Cptr_val (Some_val mntor))
        (if Is_none share then 0 else Cptr_val (Some_val share))
        native_window errs_create).error_tag = Val_unit
    · left
      simp only [raise_if_error, ht, ne_eq, not_true_eq_false, if_false, hattach]
    · right
      simp only [raise_if_error, ht, ne_eq, not_false_eq_true, if_true]
      exact ⟨_, _, _, rfl⟩
  refine ⟨hattach _ _ _, hcreate, ?_, ?_⟩
  · intro handle s1 h
    rcases hcreate with e | ⟨t, a, s2, e⟩ <;> rw [e] at h <;> cases h
  · intro h
    rcases hcreate with e | ⟨t, a, s2, e⟩ <;> rw [e] at h <;> cases h

/-! ### Frame and atomicity of the setters -/

/-- A per-window setter that raises does so at the `raise_if_error` after the
window lookup, with the error that is pending there, and has changed nothing
but the trace and the error cell. -/
theorem window_setter_raised (name : Category) (s : State) (ml_window new_closure : value)
    (errs_lookup errs_setter : List report) (tag arg : value) (s1 : State)
    (h : CAML_WINDOW_SETTER_STUB name s ml_window new_closure errs_lookup errs_setter
      = Result.raised tag arg s1) :
    (glfwGetWindowUserPointer s (Cptr_val ml_window) errs_lookup).2.error_tag ≠ Val_unit
    ∧ tag = (glfwGetWindowUserPointer s (Cptr_val ml_window) errs_lookup).2.error_tag
    ∧ arg = (glfwGetWindowUserPointer s (Cptr_val ml_window) errs_lookup).2.error_arg
    ∧ s1.cells = s.cells
    ∧ s1.closure = s.closure
    ∧ s1.roots = s.roots
    ∧ s1.user_pointer = s.user_pointer
    ∧ s1.window_callback = s.window_callback
    ∧ s1.global_callback = s.global_callback
    ∧ s1.trace = s.trace ++ [native_call.GetWindowUserPointer (Cptr_val ml_window)]
    ∧ s1.error_tag = Val_unit := by
  obtain ⟨l0, l1, l2, l3, l4, l5, l6, l7, l8, l9⟩ :=
    lookup_frame s (Cptr_val ml_window) errs_lookup
  cases hc : s.cells (s.user_pointer (Cptr_val ml_window)) with
  | none =>
    unfold CAML_WINDOW_SETTER_STUB at h
    simp only [l0, l4, hc] at h
    cases h
  | some callbacks =>
    by_cases ht : (glfwGetWindowUserPointer s (Cptr_val ml_window) errs_lookup).2.error_tag
        = Val_unit
    · obtain ⟨s2, e, -⟩ := window_setter_returns name s ml_window new_closure errs_lookup
        errs_setter callbacks hc ht
      rw [e] at h
      cases h
    · unfold CAML_WINDOW_SETTER_STUB at h
      simp only [l0, l4, hc, raise_if_error, ne_eq, ht, not_false_eq_true, if_true,
        Result.raised.injEq] at h
      obtain ⟨h1, h2, h3⟩ := h
      subst h3
      refine ⟨ht, h1.symm, h2.symm, ?_, ?_, ?_, ?_, ?_, ?_, ?_, rfl⟩ <;>
        simp [l2, l3, l4, l5, l6, l7, l9]

/-- C16: a per-window setter call for the category `name` on the window
`ml_window`, whether it returns or raises, changes at most the slot `name` of
the callback record of that window: every other slot of every record is as
before, in particular the other slots of the same window and all slots of the
windows that have a record of their own, and both global callback slots are
as before. -/
theorem setter_changes_one_slot (name : Category) (s : State) (ml_window new_closure : value)
    (errs_lookup errs_setter : List report) (s1 : State)
    (h : (∃ ret, CAML_WINDOW_SETTER_STUB name s ml_window new_closure errs_lookup errs_setter
          = Result.ok ret s1)
      ∨ (∃ tag arg, CAML_WINDOW_SETTER_STUB name s ml_window new_closure errs_lookup
          errs_setter = Result.raised tag arg s1)) :
    (∀ q n, ¬ (q = s.user_pointer (Cptr_val ml_window) ∧ n = name) →
        callbacks_field s1 q n = callbacks_field s q n)
    ∧ (∀ n, n ≠ name →
        callbacks_field s1 (s1.user_pointer (Cptr_val ml_window)) n
          = callbacks_field s (s.user_pointer (Cptr_val ml_window)) n)
    ∧ (∀ w n, s.user_pointer w ≠ s.user_pointer (Cptr_val ml_window) →
        callbacks_field s1 (s1.user_pointer w) n = callbacks_field s (s.user_pointer w) n)
    ∧ s1.closure GlobalName.monitor = s.closure GlobalName.monitor
    ∧ s1.closure GlobalName.joystick = s.closure GlobalName.joystick
    ∧ s1.user_pointer = s.user_pointer := by
  have key : (∀ q n, ¬ (q = s.user_pointer (Cptr_val ml_window) ∧ n = name) →
        callbacks_field s1 q n = callbacks_field s q n)
      ∧ s1.closure = s.closure ∧ s1.user_pointer = s.user_pointer := by
    rcases h with ⟨ret, e⟩ | ⟨tag, arg, e⟩
    · obtain ⟨⟨callbacks, hcell⟩, hclean⟩ := window_setter_ok_inv _ _ _ _ _ _ _ _ e
      obtain ⟨s2, e2, hcells, -, -, hup, -, hcl, -⟩ := window_setter_returns name s ml_window
        new_closure errs_lookup errs_setter callbacks hcell hclean
      rw [e] at e2
      simp only [Result.ok.injEq] at e2
      obtain ⟨-, e3⟩ := e2
      subst e3
      refine ⟨?_, hcl, hup⟩
      intro q n hqn
      simp only [callbacks_field, hcells]
      by_cases hq : q = s.user_pointer (Cptr_val ml_window)
      · subst hq
        have hn : ¬ n = name := fun e => hqn ⟨rfl, e⟩
        simp [hn, hcell]
      · simp [hq]
    · obtain ⟨-, -, -, hcells, hcl, -, hup, -⟩ := window_setter_raised _ _ _ _ _ _ _ _ _ e
      refine ⟨?_, hcl, hup⟩
      intro q n _
      simp only [callbacks_field, hcells]
  obtain ⟨k1, k2, k3⟩ := key
  refine ⟨k1, ?_, ?_, by rw [k2], by rw [k2], k3⟩
  · intro n hn
    rw [k3]
    exact k1 _ _ (fun e => hn e.2)
  · intro w n hw
    rw [k3]
    exact k1 _ _ (fun e => hw e.1)

theorem setter_changes_one_slot_witness :
    ∃ s1, CAML_WINDOW_SETTER_STUB Category.key start_state (Val_int 21)
        (value.block1 (value.closure 1)) [] [] = Result.ok Val_none s1
      ∧ callbacks_field s1 (s1.user_pointer (Cptr_val (Val_int 21))) Category.key
          = value.closure 1
      ∧ ∀ n, n ≠ Category.key →
          callbacks_field s1 (s1.user_pointer (Cptr_val (Val_int 21))) n
            = callbacks_field start_state (start_state.user_pointer (Cptr_val (Val_int 21))) n :=
  ⟨_, rfl, by decide,
    (setter_changes_one_slot Category.key start_state (Val_int 21)
      (value.block1 (value.closure 1)) [] [] _ (Or.inl ⟨Val_none, rfl⟩)).2.1⟩

/-- A global setter that raises does so at the `raise_if_error` after its
native setter call, with the error pending there: the native registration has
been changed, the slot, the roots and the window records have not. -/
theorem global_setter_raised (name : GlobalName) (s : State) (new_closure : value)
    (errs_setter : List report) (tag arg : value) (s1 : State)
    (h : CAML_SETTER_STUB name s new_closure errs_setter = Result.raised tag arg s1) :
    ∃ fn,
      fn = (if Is_none new_closure then fnptr.NULL else fnptr.global_stub name)
      ∧ (glfwSetGlobalCallback name s fn errs_setter).error_tag ≠ Val_unit
      ∧ tag = (glfwSetGlobalCallback name s fn errs_setter).error_tag
      ∧ arg = (glfwSetGlobalCallback name s fn errs_setter).error_arg
      ∧ s1.closure = s.closure
      ∧ s1.cells = s.cells
      ∧ s1.roots = s.roots
      ∧ s1.trace = s.trace ++ [native_call.SetGlobalCallback name fn]
      ∧ s1.global_callback name = fn
      ∧ s1.error_tag = Val_unit := by
  unfold CAML_SETTER_STUB at h
  by_cases hn : Is_none new_closure = true <;> by_cases he : s.closure name = Val_unit
  · simp only [hn, he, if_true, ne_eq, not_true_eq_false, if_false] at h
    cases h
  · simp only [hn, he, if_true, ne_eq, not_false_eq_true] at h
    obtain ⟨-, c2, c3, c4, -, -, c7, -, c9⟩ :=
      global_setter_call_frame name s fnptr.NULL errs_setter
    by_cases ht : (glfwSetGlobalCallback name s fnptr.NULL errs_setter).error_tag = Val_unit
    · simp only [raise_if_error, ht, ne_eq, not_true_eq_false, if_false] at h
      cases h
    · simp only [raise_if_error, ht, ne_eq, not_false_eq_true, if_true,
        Result.raised.injEq] at h
      obtain ⟨h1, h2, h3⟩ := h
      subst h3
      refine ⟨fnptr.NULL, by simp [hn], ht, h1.symm, h2.symm, c2, c4, c3, c9, ?_, rfl⟩
      simp [c7]
  · simp only [hn, he, if_true, if_false, Bool.false_eq_true] at h
    obtain ⟨-, c2, c3, c4, -, -, c7, -, c9⟩ :=
      global_setter_call_frame name s (fnptr.global_stub name) errs_setter
    by_cases ht : (glfwSetGlobalCallback name s (fnptr.global_stub name)
        errs_setter).error_tag = Val_unit
    · simp only [raise_if_error, ht, ne_eq, not_true_eq_false, if_false] at h
      cases h
    · simp only [raise_if_error, ht, ne_eq, not_false_eq_true, if_true,
        Result.raised.injEq] at h
      obtain ⟨h1, h2, h3⟩ := h
      subst h3
      refine ⟨fnptr.global_stub name, by simp [hn], ht, h1.symm, h2.symm, c2, c4, c3, c9,
        ?_, rfl⟩
      simp [c7]
  · simp only [hn, he, if_false, Bool.false_eq_true] at h
    cases h

/-- C20: a callback setter that raises leaves the stored host callback
exactly as it was.  The per-window setter raises only at the check after the
window lookup, with an error pending there, and every slot of every record is
unchanged; the global setter raises only at the check after its native setter
call, with an error pending there, and both global slots are unchanged. -/
theorem setter_raise_keeps_slot :
    (∀ (name : Category) (s : State) (ml_window new_closure : value)
        (errs_lookup errs_setter : List report) (tag arg : value) (s1 : State),
      CAML_WINDOW_SETTER_STUB name s ml_window new_closure errs_lookup errs_setter
          = Result.raised tag arg s1 →
        (glfwGetWindowUserPointer s (Cptr_val ml_window) errs_lookup).2.error_tag ≠ Val_unit
        ∧ s1.cells = s.cells
        ∧ s1.user_pointer = s.user_pointer
        ∧ callbacks_field s1 (s1.user_pointer (Cptr_val ml_window)) name
            = callbacks_field s (s.user_pointer (Cptr_val ml_window)) name)
    ∧ (∀ (name : GlobalName) (s : State) (new_closure : value) (errs_setter : List report)
        (tag arg : value) (s1 : State),
      CAML_SETTER_STUB name s new_closure errs_setter = Result.raised tag arg s1 →
        (glfwSetGlobalCallback name s
          (if Is_none new_closure then fnptr.NULL else fnptr.global_stub name)
          errs_setter).error_tag ≠ Val_unit
        ∧ s1.closure = s.closure
        ∧ s1.closure name = s.closure name) := by
  constructor
  · intro name s ml_window new_closure errs_lookup errs_setter tag arg s1 h
    obtain ⟨h1, -, -, hcells, -, -, hup, -⟩ := window_setter_raised _ _ _ _ _ _ _ _ _ h
    refine ⟨h1, hcells, hup, ?_⟩
    simp only [callbacks_field, hcells, hup]
  · intro name s new_closure errs_setter tag arg s1 h
    obtain ⟨fn, hfn, ht, -, -, hcl, -⟩ := global_setter_raised _ _ _ _ _ _ _ h
    subst hfn
    exact ⟨ht, hcl, by rw [hcl]⟩

theorem setter_raise_keeps_slot_witness :
    (∃ s1, CAML_WINDOW_SETTER_STUB Category.key
        (store_callbacks_field start_state 43 Category.key (value.closure 1))
        (Val_int 21) Val_none [(GLFW_NOT_INITIALIZED, "not initialized")] []
        = Result.raised (value.exn "GLFW.NotInitialized") (value.string "not initialized") s1
      ∧ callbacks_field s1 (s1.user_pointer (Cptr_val (Val_int 21))) Category.key
          = value.closure 1)
    ∧ (∃ s1, CAML_SETTER_STUB GlobalName.monitor start_state
        (value.block1 (value.closure 1)) [(GLFW_PLATFORM_ERROR, "no display")]
        = Result.raised (value.exn "GLFW.PlatformError") (value.string "no display") s1
      ∧ s1.closure GlobalName.monitor = Val_unit) :=
  ⟨⟨_, rfl,
      (setter_raise_keeps_slot.1 Category.key
        (store_callbacks_field start_state 43 Category.key (value.closure 1))
        (Val_int 21) Val_none [(GLFW_NOT_INITIALIZED, "not initialized")] []
        _ _ _ rfl).2.2.2⟩,
   ⟨_, rfl,
      (setter_raise_keeps_slot.2 GlobalName.monitor start_state
        (value.block1 (value.closure 1)) [(GLFW_PLATFORM_ERROR, "no display")]
        _ _ _ rfl).2.2⟩⟩

/-! ### Lists built from native arrays -/

theorem drop_paths_loop_spec (paths : List String) (count : Nat) (ml_paths : value)
    (h : count ≤ paths.length) :
    drop_paths_loop paths count ml_paths
      = some (((paths.take count).map caml_copy_string).foldr value.block2 ml_paths) := by
  induction count generalizing ml_paths with
  | zero => simp [drop_paths_loop]
  | succ k ih =>
    have hk : k < paths.length := h
    have hget : paths[k]? = some paths[k] := List.getElem?_eq_getElem hk
    rw [drop_paths_loop, hget]
    simp only
    rw [ih _ (Nat.le_of_lt hk)]
    have ht : paths.take (k + 1) = paths.take k ++ [paths[k]] := by
      rw [List.take_succ, hget]
      rfl
    rw [ht, List.map_append, List.foldr_append]
    rfl

theorem ocaml_list_eq_foldr (l : List value) :
    ocaml_list l = l.foldr value.block2 Val_emptylist := by
  induction l with
  | nil => rfl
  | cons x rest ih => simp [ocaml_list, ih]

theorem pointer_array_loop_spec (s : State) (array : List Nat) (count : Nat) (ret : value)
    (h : count ≤ array.length) (hall : ∀ p ∈ array, p % 2 = 0 ∧ p < 2 ^ 64) :
    caml_list_of_pointer_array_loop s array count ret
      = Result.ok
          (((array.take count).map (fun p => value_of_word (p + 1))).foldr value.block2 ret)
          s := by
  induction count generalizing ret with
  | zero => simp [caml_list_of_pointer_array_loop]
  | succ k ih =>
    have hk : k < array.length := h
    have hget : array[k]? = some array[k] := List.getElem?_eq_getElem hk
    have hp := hall array[k] (List.getElem_mem hk)
    have hv := (Val_cptr_of_even array[k] hp.1 hp.2).1
    rw [caml_list_of_pointer_array_loop, hget]
    simp only [hv]
    rw [ih _ (Nat.le_of_lt hk)]
    have ht : array.take (k + 1) = array.take k ++ [array[k]] := by
      rw [List.take_succ, hget]
      rfl
    rw [ht, List.map_append, List.foldr_append]
    rfl

/-- C18: for a native array holding at least `count` paths, the file-drop
trampoline `drop_callback_stub` calls the drop slot of the window with the
handle and the list of the copies of the first `count` paths, in native order
(so a list of exactly `count` strings whose i-th element is the copy of the
i-th path); for `count <= 0` the list is empty.  `caml_list_of_pointer_array`
builds the list of the handles of the first `count` pointers in the same
order, and the empty list for `count <= 0`. -/
theorem drop_paths_in_native_order (s : State) (window : Nat) (paths : List String)
    (count : Nat) (errs_lookup : List report) (callbacks : Category → value)
    (array : List Nat) (n : Nat)
    (hcount : count ≤ paths.length)
    (hcell : s.cells (s.user_pointer window) = some callbacks)
    (heven : window % 2 = 0) (hword : window < 2 ^ 64)
    (hn : n ≤ array.length) (hall : ∀ p ∈ array, p % 2 = 0 ∧ p < 2 ^ 64) :
    (∃ s1, drop_callback_stub s window (count : Int) paths errs_lookup
        = Result.ok
            { closure := callbacks Category.drop,
              args := [value_of_word (window + 1),
                ocaml_list ((paths.take count).map caml_copy_string)] }
            s1)
    ∧ ((paths.take count).map caml_copy_string).length = count
    ∧ (∀ i, i < count →
        ((paths.take count).map caml_copy_string)[i]? = paths[i]?.map caml_copy_string)
    ∧ (∀ c : Int, c ≤ 0 →
        ∃ s1, drop_callback_stub s window c paths errs_lookup
          = Result.ok
              { closure := callbacks Category.drop,
                args := [value_of_word (window + 1), Val_emptylist] }
              s1)
    ∧ caml_list_of_pointer_array s array (n : Int)
        = Result.ok (ocaml_list ((array.take n).map (fun p => value_of_word (p + 1)))) s
    ∧ (∀ c : Int, c ≤ 0 → caml_list_of_pointer_array s array c = Result.ok Val_emptylist s) := by
  obtain ⟨l0, -, -, -, l4, -⟩ := lookup_frame s window errs_lookup
  have hv := (Val_cptr_of_even window heven hword).1
  have hfield : callbacks_field (glfwGetWindowUserPointer s window errs_lookup).2
      (s.user_pointer window) Category.drop = callbacks Category.drop := by
    simp [callbacks_field, l4, hcell]
  refine ⟨⟨(glfwGetWindowUserPointer s window errs_lookup).2, ?_⟩, ?_, ?_, ?_, ?_, ?_⟩
  · unfold drop_callback_stub
    simp only [l0, l4, hcell, Int.toNat_ofNat, drop_paths_loop_spec paths count _ hcount, hv,
      hfield, ocaml_list_eq_foldr]
  · simp [hcount]
  · intro i hi
    simp [List.getElem?_take, hi]
  · intro c hc
    have h0 : c.toNat = 0 := Int.toNat_eq_zero.mpr hc
    refine ⟨(glfwGetWindowUserPointer s window errs_lookup).2, ?_⟩
    unfold drop_callback_stub
    simp only [l0, l4, hcell, h0, drop_paths_loop, hv, hfield]
  · unfold caml_list_of_pointer_array
    rw [Int.toNat_ofNat, pointer_array_loop_spec s array n _ hn hall, ocaml_list_eq_foldr]
  · intro c hc
    have h0 : c.toNat = 0 := Int.toNat_eq_zero.mpr hc
    unfold caml_list_of_pointer_array
    rw [h0]
    rfl

theorem drop_paths_in_native_order_witness :
    ∃ s1, drop_callback_stub start_state 42 2 ["a.txt", "b.txt", "c.txt"] []
        = Result.ok
            { closure := Val_unit,
              args := [value_of_word 43,
                ocaml_list [caml_copy_string "a.txt", caml_copy_string "b.txt"]] }
            s1 :=
  (drop_paths_in_native_order start_state 42 ["a.txt", "b.txt", "c.txt"] 2 []
    (fun _ => Val_unit) [4096, 8192] 2 (by decide) rfl (by decide) (by decide) (by decide)
    (by decide)).1

/-! ### The registration follows the slot -/

/-- One per-window setter call, returning or raising, keeps the relation
between the slots of the window `W` with record `P` and its native
registrations, when no other window has `P` as its user pointer. -/
theorem setter_keeps_registration (W P : Nat) (name : Category) (s : State)
    (ml_window new_closure : value) (errs_lookup errs_setter : List report) (s1 : State)
    (callbacks : Category → value)
    (hup : s.user_pointer W = P) (halias : ∀ w, w ≠ W → s.user_pointer w ≠ P)
    (hcell : s.cells P = some callbacks)
    (hreg : ∀ n, s.window_callback W n
      = if callbacks n = Val_unit then fnptr.NULL else fnptr.window_stub n)
    (htyped : is_closure_option new_closure = true)
    (h : (∃ ret, CAML_WINDOW_SETTER_STUB name s ml_window new_closure errs_lookup errs_setter
          = Result.ok ret s1)
      ∨ (∃ tag arg, CAML_WINDOW_SETTER_STUB name s ml_window new_closure errs_lookup errs_setter
          = Result.raised tag arg s1)) :
    s1.user_pointer W = P
    ∧ (∀ w, w ≠ W → s1.user_pointer w ≠ P)
    ∧ ∃ callbacks1, s1.cells P = some callbacks1
      ∧ ∀ n, s1.window_callback W n
        = if callbacks1 n = Val_unit then fnptr.NULL else fnptr.window_stub n := by
  rcases h with ⟨ret, h⟩ | ⟨tag, arg, h⟩
  · obtain ⟨⟨cb, hcb⟩, hclean⟩ := window_setter_ok_inv name s ml_window new_closure
      errs_lookup errs_setter ret s1 h
    obtain ⟨s2, e, k1, -, k3, k4, -⟩ := window_setter_returns name s ml_window new_closure
      errs_lookup errs_setter cb hcb hclean
    rw [e] at h
    injection h with _ hs
    subst hs
    refine ⟨by rw [k4]; exact hup, fun w hw => by rw [k4]; exact halias w hw, ?_⟩
    have hslot : (if Is_none new_closure then Val_unit else Some_val new_closure) = Val_unit
        ↔ Is_none new_closure = true := by
      cases new_closure with
      | block1 f =>
        have hf : f ≠ Val_unit := by simpa [is_closure_option] using htyped
        simp [Is_none, Val_none, Val_int, Some_val, hf]
      | int k =>
        have hv : value.int k = Val_none := by simpa [is_closure_option] using htyped
        rw [hv]
        simp [Is_none]
      | string x => simp [is_closure_option, Val_none, Val_int] at htyped
      | closure x => simp [is_closure_option, Val_none, Val_int] at htyped
      | exn x => simp [is_closure_option, Val_none, Val_int] at htyped
      | block2 x y => simp [is_closure_option, Val_none, Val_int] at htyped
    by_cases hw : Cptr_val ml_window = W
    · have hcc : cb = callbacks := by
        rw [hw, hup, hcell] at hcb
        exact (Option.some.inj hcb).symm
      subst hcc
      refine ⟨fun n => if n = name then
          (if Is_none new_closure then Val_unit else Some_val new_closure) else cb n,
        by rw [k1, hw, hup]; simp, ?_⟩
      intro n
      rw [k3]
      by_cases hn : n = name
      · subst hn
        by_cases hnone : Is_none new_closure = true
        · by_cases hc : cb n = Val_unit
          · simp [hw, hnone, hc, hreg n]
          · simp [hw, hnone, hc]
        · have hsv : Some_val new_closure ≠ Val_unit := by
            intro e
            apply hnone
            apply hslot.mp
            simp [hnone, e]
          by_cases hc : cb n = Val_unit
          · simp [hw, hnone, hc, hsv]
          · simp [hw, hnone, hc, hsv, hreg n]
      · simp [hn, hreg n]
    · have hp : s.user_pointer (Cptr_val ml_window) ≠ P := halias _ hw
      refine ⟨callbacks, by rw [k1]; simp [Ne.symm hp, hcell], ?_⟩
      intro n
      rw [k3]
      simp [Ne.symm hw, hreg n]
  · obtain ⟨-, -, -, r1, -, -, r4, r5, -⟩ := window_setter_raised name s ml_window new_closure
      errs_lookup errs_setter tag arg s1 h
    exact ⟨by rw [r4]; exact hup, fun w hw => by rw [r4]; exact halias w hw,
      callbacks, by rw [r1]; exact hcell, fun n => by rw [r5]; exact hreg n⟩

theorem run_keeps_registration (W P : Nat) (calls : List setter_call) :
    ∀ (s s1 : State) (callbacks : Category → value),
      s.user_pointer W = P → (∀ w, w ≠ W → s.user_pointer w ≠ P) →
      s.cells P = some callbacks →
      (∀ n, s.window_callback W n
        = if callbacks n = Val_unit then fnptr.NULL else fnptr.window_stub n) →
      (∀ c ∈ calls, is_closure_option c.new_closure = true) →
      run_window_setters_any s calls = some s1 →
      s1.user_pointer W = P
      ∧ ∃ callbacks1, s1.cells P = some callbacks1
        ∧ ∀ n, s1.window_callback W n
          = if callbacks1 n = Val_unit then fnptr.NULL else fnptr.window_stub n := by
  induction calls with
  | nil =>
    intro s s1 callbacks hup _ hcell hreg _ hrun
    simp only [run_window_setters_any, Option.some.injEq] at hrun
    subst hrun
    exact ⟨hup, callbacks, hcell, hreg⟩
  | cons c rest ih =>
    intro s s1 callbacks hup halias hcell hreg htyped hrun
    have hc := htyped c (List.mem_cons_self c rest)
    have hrest : ∀ d ∈ rest, is_closure_option d.new_closure = true :=
      fun d hd => htyped d (List.mem_cons_of_mem c hd)
    rw [run_window_setters_any] at hrun
    cases hstub : CAML_WINDOW_SETTER_STUB c.name s c.ml_window c.new_closure
        c.errs_lookup c.errs_setter with
    | ok ret s2 =>
      rw [hstub] at hrun
      obtain ⟨a1, a2, cb2, a3, a4⟩ := setter_keeps_registration W P c.name s c.ml_window
        c.new_closure c.errs_lookup c.errs_setter s2 callbacks hup halias hcell hreg hc
        (Or.inl ⟨ret, hstub⟩)
      exact ih s2 s1 cb2 a1 a2 a3 a4 hrest hrun
    | raised tag arg s2 =>
      rw [hstub] at hrun
      obtain ⟨a1, a2, cb2, a3, a4⟩ := setter_keeps_registration W P c.name s c.ml_window
        c.new_closure c.errs_lookup c.errs_setter s2 callbacks hup halias hcell hreg hc
        (Or.inr ⟨tag, arg, hstub⟩)
      exact ih s2 s1 cb2 a1 a2 a3 a4 hrest hrun
    | undefined =>
      rw [hstub] at hrun
      cases hrun
    | aborted =>
      rw [hstub] at hrun
      cases hrun

/-- A window that `caml_glfwCreateWindow` returns has the new cell as its
user pointer, with every slot empty, and no native callback registered; the
user pointers of the other windows are those of before. -/
theorem created_window_unregistered (s : State) (width height title mntor share : value)
    (native_window malloc_result : Nat) (errs_create errs_pointer : List report)
    (handle : value) (s0 : State)
    (h : caml_glfwCreateWindow s width height title mntor share native_window malloc_result
      errs_create errs_pointer = Result.ok handle s0) :
    Val_cptr native_window = some handle
    ∧ s0.user_pointer native_window = malloc_result
    ∧ (∀ w, w ≠ native_window → s0.user_pointer w = s.user_pointer w)
    ∧ s0.cells malloc_result = some empty_callbacks
    ∧ ∀ n, s0.window_callback native_window n = fnptr.NULL := by
  obtain ⟨-, -, -, -, c5, c6, -⟩ := create_window_frame s (to_int (Int_val width))
    (to_int (Int_val height)) (String_val title)
    (if Is_none mntor then 0 else Cptr_val (Some_val mntor))
    (if Is_none share then 0 else Cptr_val (Some_val share)) native_window errs_create
  by_cases ht : (glfwCreateWindow s (to_int (Int_val width)) (to_int (Int_val height))
      (String_val title)
      (if Is_none mntor then 0 else Cptr_val (Some_val mntor))
      (if Is_none share then 0 else Cptr_val (Some_val share))
      native_window errs_create).error_tag = Val_unit
  · rw [caml_glfwCreateWindow_returns s width height title mntor share native_window
      malloc_result errs_create errs_pointer ht] at h
    unfold attach_callbacks at h
    by_cases hm : malloc_result = 0
    · simp only [hm, if_true] at h
      cases h
    · simp only [hm, if_false] at h
      cases hv : Val_cptr native_window with
      | none =>
        rw [hv] at h
        cases h
      | some v =>
        rw [hv] at h
        injection h with h1 h2
        subst h1
        subst h2
        obtain ⟨-, -, -, f4, f5, f6, -⟩ := set_user_pointer_frame
          { glfwCreateWindow s (to_int (Int_val width)) (to_int (Int_val height))
              (String_val title)
              (if Is_none mntor then 0 else Cptr_val (Some_val mntor))
              (if Is_none share then 0 else Cptr_val (Some_val share))
              native_window errs_create with
            cells := fun q => if q = malloc_result then some empty_callbacks else
              (glfwCreateWindow s (to_int (Int_val width)) (to_int (Int_val height))
                (String_val title)
                (if Is_none mntor then 0 else Cptr_val (Some_val mntor))
                (if Is_none share then 0 else Cptr_val (Some_val share))
                native_window errs_create).cells q,
            roots := root.cell malloc_result ::
              (glfwCreateWindow s (to_int (Int_val width)) (to_int (Int_val height))
                (String_val title)
                (if Is_none mntor then 0 else Cptr_val (Some_val mntor))
                (if Is_none share then 0 else Cptr_val (Some_val share))
                native_window errs_create).roots }
          native_window malloc_result errs_pointer
        refine ⟨rfl, ?_, ?_, ?_, ?_⟩
        · rw [f5]
          simp
        · intro w hw
          rw [f5]
          simp [hw, c5]
        · rw [f4]
          simp
        · intro n
          rw [f6]
          simp [c6]
  · unfold caml_glfwCreateWindow at h
    simp only [raise_if_error, ne_eq, ht, not_false_eq_true, if_true] at h
    cases h

/-- C19: for a window returned by `caml_glfwCreateWindow` whose record is the
user pointer of no other window, after every sequence of per-window setter
calls (on any windows, each passed a function option, each returning or
raising), the window still has its record, the native registration of a
category is the trampoline if and only if the slot of the category holds a
callback, and `NULL` if and only if the slot is empty.  Hence the event pump
calls `window_pos_callback_stub` only when the slot is occupied, and the
trampoline then calls the content of the slot. -/
theorem registration_follows_slot (s : State) (width height title mntor share : value)
    (native_window malloc_result : Nat) (errs_create errs_pointer : List report)
    (handle : value) (s0 : State) (calls : List setter_call) (s1 : State)
    (hcreate : caml_glfwCreateWindow s width height title mntor share native_window
      malloc_result errs_create errs_pointer = Result.ok handle s0)
    (halias : ∀ w, w ≠ native_window → s.user_pointer w ≠ malloc_result)
    (htyped : ∀ c ∈ calls, is_closure_option c.new_closure = true)
    (hrun : run_window_setters_any s0 calls = some s1) :
    (∃ callbacks, s1.cells (s1.user_pointer native_window) = some callbacks)
    ∧ (∀ name,
        (s1.window_callback native_window name = fnptr.window_stub name
          ↔ callbacks_field s1 (s1.user_pointer native_window) name ≠ Val_unit)
        ∧ (s1.window_callback native_window name = fnptr.NULL
          ↔ callbacks_field s1 (s1.user_pointer native_window) name = Val_unit))
    ∧ ∀ xpos ypos,
        (callbacks_field s1 (s1.user_pointer native_window) Category.window_pos = Val_unit
          ∧ pump_window_pos s1 native_window xpos ypos = none)
        ∨ (callbacks_field s1 (s1.user_pointer native_window) Category.window_pos ≠ Val_unit
          ∧ ∃ s2, pump_window_pos s1 native_window xpos ypos
            = some (Result.ok
                { closure :=
                    callbacks_field s1 (s1.user_pointer native_window) Category.window_pos,
                  args := [handle, Val_int xpos, Val_int ypos] }
                s2)) := by
  obtain ⟨hv, c2, c3, c4, c5⟩ := created_window_unregistered s width height title mntor share
    native_window malloc_result errs_create errs_pointer handle s0 hcreate
  have hreg0 : ∀ n, s0.window_callback native_window n
      = if empty_callbacks n = Val_unit then fnptr.NULL else fnptr.window_stub n := by
    intro n
    simp [c5 n, empty_callbacks]
  obtain ⟨hup, cb, hcell, hreg⟩ := run_keeps_registration native_window malloc_result calls
    s0 s1 empty_callbacks c2 (fun w hw => by rw [c3 w hw]; exact halias w hw) c4 hreg0 htyped
    hrun
  have hfield : ∀ name, callbacks_field s1 (s1.user_pointer native_window) name = cb name := by
    intro name
    simp [callbacks_field, hup, hcell]
  refine ⟨⟨cb, by rw [hup]; exact hcell⟩, ?_, ?_⟩
  · intro name
    rw [hfield name, hreg name]
    by_cases hc : cb name = Val_unit
    · simp [hc]
    · simp [hc]
  · intro xpos ypos
    obtain ⟨l0, -, -, -, l4, -⟩ := lookup_frame s1 native_window []
    rw [hfield Category.window_pos]
    by_cases hc : cb Category.window_pos = Val_unit
    · left
      refine ⟨hc, ?_⟩
      unfold pump_window_pos
      simp [hreg Category.window_pos, hc]
    · right
      refine ⟨hc, (glfwGetWindowUserPointer s1 native_window []).2, ?_⟩
      have hf : callbacks_field (glfwGetWindowUserPointer s1 native_window []).2
          malloc_result Category.window_pos = cb Category.window_pos := by
        simp [callbacks_field, l4, hcell]
      unfold pump_window_pos window_pos_callback_stub
      simp only [hreg Category.window_pos, hc, if_false, if_true, l0, l4, hup, hcell, hv, hf]

theorem registration_follows_slot_witness :
    ∃ s0 s1,
      caml_glfwCreateWindow
          { start_state with cells := fun _ => none, user_pointer := fun _ => 0 }
          (Val_int 640) (Val_int 480) (value.string "demo") Val_none Val_none 42 8192 [] []
        = Result.ok (Val_int 21) s0
      ∧ run_window_setters_any s0 example_calls = some s1
      ∧ s1.window_callback 42 Category.key = fnptr.window_stub Category.key
      ∧ callbacks_field s1 (s1.user_pointer 42) Category.key = value.closure 3
      ∧ s1.window_callback 42 Category.scroll = fnptr.NULL
      ∧ ∀ name,
          (s1.window_callback 42 name = fnptr.window_stub name
            ↔ callbacks_field s1 (s1.user_pointer 42) name ≠ Val_unit)
          ∧ (s1.window_callback 42 name = fnptr.NULL
            ↔ callbacks_field s1 (s1.user_pointer 42) name = Val_unit) :=
  ⟨_, _, rfl, rfl, by decide, by decide, by decide,
    (registration_follows_slot
      { start_state with cells := fun _ => none, user_pointer := fun _ => 0 }
      (Val_int 640) (Val_int 480) (value.string "demo") Val_none Val_none 42 8192 [] []
      (Val_int 21) _ example_calls _ rfl (fun _ _ => (by decide : (0 : Nat) ≠ 8192)) (by decide) rfl).2.1⟩

/-! ### Connection events -/

/-- C21 (the code at the failing input): for the native event
`GLFW_CONNECTED`, `monitor_callback_stub` passes the ordinal 0 to the host
callback and `joystick_callback_stub` passes -1, which is neither 0 nor 1; for
`GLFW_DISCONNECTED` the monitor trampoline passes 1 and the joystick
trampoline 0.  The joystick trampoline subtracts `GLFW_DISCONNECTED` where the
monitor trampoline subtracts `GLFW_CONNECTED`. -/
theorem joystick_event_ordinal_differs :
    (∀ s : State, monitor_callback_stub s 4096 GLFW_CONNECTED
      = Result.ok
          { closure := s.closure GlobalName.monitor, args := [Val_int 2048, Val_int 0] } s)
    ∧ (∀ (s : State) (joy : Int), joystick_callback_stub s joy GLFW_CONNECTED
      = Result.ok
          { closure := s.closure GlobalName.joystick, args := [Val_int joy, Val_int (-1)] } s)
    ∧ (∀ s : State, monitor_callback_stub s 4096 GLFW_DISCONNECTED
      = Result.ok
          { closure := s.closure GlobalName.monitor, args := [Val_int 2048, Val_int 1] } s)
    ∧ (∀ (s : State) (joy : Int), joystick_callback_stub s joy GLFW_DISCONNECTED
      = Result.ok
          { closure := s.closure GlobalName.joystick, args := [Val_int joy, Val_int 0] } s)
    ∧ Val_int (-1) ≠ Val_int 0
    ∧ Val_int (-1) ≠ Val_int 1
    ∧ Val_int 0 ≠ Val_int 1 := by
  refine ⟨fun _ => rfl, fun _ _ => rfl, fun _ => rfl, fun _ _ => rfl, ?_, ?_, ?_⟩ <;> decide

/-! ### The sources of the error cell -/

theorem error_name_of_unrecognised (c : Int) (h : c ∉ recognised_codes) :
    error_name c = none := by
  simp only [recognised_codes, List.mem_cons, List.mem_singleton, List.not_mem_nil, or_false,
    not_or] at h
  obtain ⟨h1, h2, h3, h4, h5, h6, h7, h8, h9, h10⟩ := h
  simp [error_name, h1, h2, h3, h4, h5, h6, h7, h8, h9, h10]

theorem deliver_unrecognised (s : State) (errs : List report)
    (h : ∀ q ∈ errs, q.1 ∉ recognised_codes) :
    (deliver s errs).error_tag = s.error_tag := by
  induction errs generalizing s with
  | nil => rfl
  | cons r rest ih =>
    have hr := error_name_of_unrecognised r.1 (h r (List.mem_cons_self r rest))
    have hstep : (error_callback s r.1 r.2).error_tag = s.error_tag := by
      simp [error_callback, hr]
    have := ih (error_callback s r.1 r.2) (fun q hq => h q (List.mem_cons_of_mem r hq))
    simp only [deliver, List.foldl_cons] at this ⊢
    rw [this, hstep]

theorem deliver_last_message (s : State) (errs : List report) (r : report) :
    (deliver s (errs ++ [r])).error_arg = caml_copy_string r.2 := by
  rw [deliver_append]
  show (error_callback (deliver s errs) r.1 r.2).error_arg = caml_copy_string r.2
  unfold error_callback
  cases error_name r.1 <;> rfl

/-- C22 (counterexample): after a report of a recognised code followed by a
report of a code outside the `switch`, the kind in the cell is not empty and
is that of the first report while the message is that of the second: no
report of the sequence has both that kind and that message. -/
theorem error_cell_mixes_reports :
    (deliver start_state
        [(GLFW_PLATFORM_ERROR, "no display"), (0x0001000C, "feature unavailable")]).error_tag
      = value.exn "GLFW.PlatformError"
    ∧ (deliver start_state
        [(GLFW_PLATFORM_ERROR, "no display"), (0x0001000C, "feature unavailable")]).error_tag
      ≠ Val_unit
    ∧ (deliver start_state
        [(GLFW_PLATFORM_ERROR, "no display"), (0x0001000C, "feature unavailable")]).error_arg
      = value.string "feature unavailable"
    ∧ ∀ r ∈ [(GLFW_PLATFORM_ERROR, "no display"), (0x0001000C, "feature unavailable")],
        ¬ ((error_callback start_state r.1 r.2).error_tag = value.exn "GLFW.PlatformError"
          ∧ (error_callback start_state r.1 r.2).error_arg
            = value.string "feature unavailable") := by
  refine ⟨rfl, ?_, rfl, ?_⟩ <;> decide

/-- C22 (amended): for every sequence of calls to `error_callback`, the kind
in the cell is that of the last report whose code is one of the ten
recognised ones (the report `r`, followed by reports `later` of other codes)
and the message is that of the last report of the sequence.  Kind and message
are those of one and the same report when the last report has a recognised
code (`later` is empty), in particular in every sequence of recognised codes;
a sequence without a recognised code leaves the kind as it was. -/
theorem error_cell_sources (s : State) (earlier later : List report) (r : report)
    (hr : r.1 ∈ recognised_codes) (hlater : ∀ q ∈ later, q.1 ∉ recognised_codes) :
    (∃ name, error_name r.1 = some name
      ∧ (deliver s (earlier ++ r :: later)).error_tag = s.named_value name
      ∧ (error_callback s r.1 r.2).error_tag = s.named_value name)
    ∧ (deliver s (earlier ++ r :: later)).error_arg
        = caml_copy_string (later.getLast?.getD r).2
    ∧ (later = [] →
        (deliver s (earlier ++ r :: later)).error_tag = (error_callback s r.1 r.2).error_tag
        ∧ (deliver s (earlier ++ r :: later)).error_arg
            = (error_callback s r.1 r.2).error_arg)
    ∧ (∀ others : List report, (∀ q ∈ others, q.1 ∉ recognised_codes) →
        (deliver s others).error_tag = s.error_tag) := by
  obtain ⟨name, hname⟩ := error_name_of_recognised r.1 hr
  have hsplit : earlier ++ r :: later = (earlier ++ [r]) ++ later := by simp
  have htag : (deliver s (earlier ++ r :: later)).error_tag = s.named_value name := by
    rw [hsplit, deliver_append, deliver_unrecognised _ later hlater, deliver_append]
    show (error_callback (deliver s earlier) r.1 r.2).error_tag = s.named_value name
    rw [(error_callback_tag_of_name (deliver s earlier) r.1 r.2 name hname).1,
      (deliver_frame s earlier).1]
  have harg : (deliver s (earlier ++ r :: later)).error_arg
      = caml_copy_string (later.getLast?.getD r).2 := by
    rcases List.eq_nil_or_concat later with hl | ⟨init, last, hl⟩
    · subst hl
      exact deliver_last_message s earlier r
    · rw [List.concat_eq_append] at hl
      subst hl
      have e : earlier ++ r :: (init ++ [last]) = (earlier ++ r :: init) ++ [last] := by simp
      rw [e, deliver_last_message]
      simp
  have hone := error_callback_tag_of_name s r.1 r.2 name hname
  refine ⟨⟨name, hname, htag, hone.1⟩, harg, ?_, ?_⟩
  · intro hl
    subst hl
    exact ⟨htag.trans hone.1.symm, by rw [harg, hone.2]; rfl⟩
  · intro others ho
    exact deliver_unrecognised s others ho

theorem error_cell_sources_witness :
    (deliver start_state
        ([(GLFW_INVALID_ENUM, "first")] ++ (GLFW_PLATFORM_ERROR, "second") ::
          [(0x0001000C, "third")])).error_arg
      = caml_copy_string "third" :=
  (error_cell_sources start_state [(GLFW_INVALID_ENUM, "first")] [(0x0001000C, "third")]
    (GLFW_PLATFORM_ERROR, "second") (by decide) (by decide)).2.1

/-! ### Flag lists of any width -/

/-- The test `flags >> i & 1` of `caml_list_of_flags` is the test of bit `i`
of `flags` in two's complement. -/
theorem flag_test_eq_testBit (flags : Int) (i : Nat) :
    ((flags >>> i) % 2 ≠ 0) ↔ flags.testBit i = true := by
  cases flags with
  | ofNat m =>
    have e : (Int.ofNat m) >>> i = ((m >>> i : Nat) : Int) := rfl
    rw [e]
    simp only [Int.testBit, Nat.testBit_to_div_mod, Nat.shiftRight_eq_div_pow,
      decide_eq_true_eq]
    omega
  | negSucc m =>
    have e : (Int.negSucc m) >>> i = Int.negSucc (m >>> i) := rfl
    rw [e]
    simp only [Int.testBit, Nat.testBit_to_div_mod, Nat.shiftRight_eq_div_pow,
      Bool.not_eq_true', decide_eq_false_iff_not, Int.negSucc_eq]
    omega

theorem caml_list_of_flags_loop_spec (flags : Int) (steps : Nat) :
    ∀ (i : Nat) (ret : value),
      caml_list_of_flags_loop flags steps i ret
        = ((((List.range' i steps).filter (fun j => flags.testBit j)).reverse).map
            (fun j : Nat => Val_int (j : Int))).foldr value.block2 ret := by
  induction steps with
  | zero =>
    intro i ret
    rfl
  | succ k ih =>
    intro i ret
    rw [caml_list_of_flags_loop, ih, List.range'_succ, List.filter_cons]
    by_cases hb : flags.testBit i = true
    · have ht : (flags >>> i) % 2 ≠ 0 := (flag_test_eq_testBit flags i).mpr hb
      rw [if_pos ht, if_pos hb, List.reverse_cons, List.map_append, List.foldr_append]
      rfl
    · have ht : ¬ (flags >>> i) % 2 ≠ 0 := fun h => hb ((flag_test_eq_testBit flags i).mp h)
      rw [if_neg ht, if_neg hb]

theorem set_bits_eq (flags : Int) (i steps : Nat) :
    ((List.range' i steps).filter (fun j => flags.testBit j)).reverse
      = (List.range' i steps).reverse.filter (fun j => flags.testBit j) := by
  rw [List.filter_reverse]

theorem caml_list_of_flags_eq (flags : Int) (n : Nat) :
    caml_list_of_flags flags (n : Int)
      = ocaml_list (((List.range n).reverse.filter (fun j => flags.testBit j)).map
          (fun j : Nat => Val_int (j : Int))) := by
  unfold caml_list_of_flags
  rw [Int.toNat_ofNat, caml_list_of_flags_loop_spec, set_bits_eq, ← List.range_eq_range',
    ocaml_list_eq_foldr]

theorem low_bits_of_mod (flags : Int) (i : Nat) (hi : i < 4) :
    (flags % 16).testBit i = flags.testBit i := by
  rw [Bool.eq_iff_iff, ← flag_test_eq_testBit, ← flag_test_eq_testBit,
    Int.shiftRight_eq_div_pow, Int.shiftRight_eq_div_pow]
  interval_cases i <;> norm_num <;> omega

/-- C23: for every integer `flags` and every count `n`,
`caml_list_of_flags(flags, n)` is the list of the indices `i < n` whose bit
`i` is set in `flags` (in two's complement), each once, in strictly
decreasing order; the bits at the positions `n` and above do not affect the
result; and for every mask `m` the 4-bit list converted back by OR-ing `1<<i`
over its elements is `m AND 15`, that is `m mod 16`. -/
theorem list_of_flags_is_set_bits (flags : Int) (n : Nat) :
    caml_list_of_flags flags (n : Int)
      = ocaml_list (((List.range n).reverse.filter (fun j => flags.testBit j)).map
          (fun j : Nat => Val_int (j : Int)))
    ∧ (∀ i, i ∈ (List.range n).reverse.filter (fun j => flags.testBit j)
        ↔ i < n ∧ flags.testBit i = true)
    ∧ ((List.range n).reverse.filter (fun j => flags.testBit j)).Pairwise (fun a b => b < a)
    ∧ (∀ flags2 : Int, (∀ i, i < n → flags2.testBit i = flags.testBit i) →
        caml_list_of_flags flags2 (n : Int) = caml_list_of_flags flags (n : Int))
    ∧ (mask_of_flag_list (caml_list_of_flags flags 4) : Int) = flags % 16
    ∧ (∀ m : Nat, mask_of_flag_list (caml_list_of_flags (m : Int) 4) = m &&& 15) := by
  have hround : ∀ f : Int, (mask_of_flag_list (caml_list_of_flags f 4) : Int) = f % 16 := by
    intro f
    have e : caml_list_of_flags f ((4 : Nat) : Int)
        = caml_list_of_flags (f % 16) ((4 : Nat) : Int) := by
      rw [caml_list_of_flags_eq, caml_list_of_flags_eq]
      congr 2
      apply List.filter_congr
      intro i hi
      have hi4 : i < 4 := by simpa using hi
      exact (low_bits_of_mod f i hi4).symm
    have e4 : caml_list_of_flags f 4 = caml_list_of_flags (f % 16) 4 := e
    rw [e4]
    have h0 : 0 ≤ f % 16 := Int.emod_nonneg f (by norm_num)
    have h1 : f % 16 < 16 := Int.emod_lt_of_pos f (by norm_num)
    generalize f % 16 = r at h0 h1
    interval_cases r <;> rfl
  refine ⟨caml_list_of_flags_eq flags n, ?_, ?_, ?_, hround flags, ?_⟩
  · intro i
    simp [List.mem_filter, List.mem_range]
  · apply List.Pairwise.filter
    rw [List.pairwise_reverse]
    exact List.pairwise_lt_range n
  · intro flags2 h
    rw [caml_list_of_flags_eq, caml_list_of_flags_eq]
    congr 2
    apply List.filter_congr
    intro i hi
    have hin : i < n := by simpa using hi
    exact h i hin
  · intro m
    have h := hround (m : Int)
    have h2 : mask_of_flag_list (caml_list_of_flags (m : Int) 4) = m % 16 := by omega
    rw [h2]
    exact (Nat.and_pow_two_sub_one_eq_mod m 4).symm

/-! ### Input modes -/

theorem input_mode_frame (s : State) (window : Nat) (mode v : Int) (errs : List report) :
    (glfwSetInputMode s window mode v errs).trace
        = s.trace ++ [native_call.SetInputMode window mode v]
    ∧ (glfwGetInputMode s window mode v errs).2.trace
        = s.trace ++ [native_call.GetInputMode window mode]
    ∧ (errs = [] → (glfwSetInputMode s window mode v errs).error_tag = s.error_tag)
    ∧ (errs = [] → (glfwGetInputMode s window mode v errs).2.error_tag = s.error_tag) := by
  refine ⟨?_, ?_, ?_, ?_⟩
  · exact (deliver_frame _ errs).2.2.2.2.2.2.2.2
  · exact (deliver_frame _ errs).2.2.2.2.2.2.2.2
  · intro h
    subst h
    rfl
  · intro h
    subst h
    rfl

/-- What `caml_glfwSetInputMode` does when no error is pending after the
native call: it passes the mode identifier `Int_val(mode) + GLFW_CURSOR` and
the encoded value, and returns unit. -/
theorem caml_glfwSetInputMode_returns (s : State) (window mode v : value)
    (errs : List report)
    (hclean : (glfwSetInputMode s (Cptr_val window) (to_int (Int_val mode) + GLFW_CURSOR)
      (input_mode_value mode v) errs).error_tag = Val_unit) :
    caml_glfwSetInputMode s window mode v errs
      = Result.ok Val_unit
          (glfwSetInputMode s (Cptr_val window) (to_int (Int_val mode) + GLFW_CURSOR)
            (input_mode_value mode v) errs) := by
  unfold caml_glfwSetInputMode
  simp only [raise_if_error, hclean, ne_eq, not_true_eq_false, if_false]

/-- What `caml_glfwGetInputMode` does when no error is pending after the
native call: it decodes the value the native library returned. -/
theorem caml_glfwGetInputMode_returns (s : State) (window mode : value) (native_value : Int)
    (errs : List report)
    (hclean : (glfwGetInputMode s (Cptr_val window) (to_int (Int_val mode) + GLFW_CURSOR)
      native_value errs).2.error_tag = Val_unit) :
    caml_glfwGetInputMode s window mode native_value errs
      = Result.ok
          (if to_int (Int_val mode) = 0 then Val_int (native_value - GLFW_CURSOR_NORMAL)
           else Val_bool native_value)
          (glfwGetInputMode s (Cptr_val window) (to_int (Int_val mode) + GLFW_CURSOR)
            native_value errs).2 := by
  unfold caml_glfwGetInputMode
  simp only [raise_if_error, hclean, ne_eq, not_true_eq_false, if_false]
  split <;> rfl

/-- C24: the input-mode values round-trip.  For the cursor mode (mode ordinal
0) and every ordinal `k`, `caml_glfwSetInputMode` passes
`k + GLFW_CURSOR_NORMAL` to the native library and `caml_glfwGetInputMode`
decodes that native value to `k`; for every other mode ordinal `m` and every
boolean `b`, the value passed is 1 or 0 and it is decoded to `b`; and both
stubs name the mode to the native library as `m + GLFW_CURSOR`.  The ordinals
are in the range in which the C `int` additions do not overflow, no error is
pending and the native calls report none. -/
theorem input_mode_round_trip (s : State) (window : value) (m k : Int) (b : Bool)
    (hm : -2 ^ 31 ≤ m ∧ m + GLFW_CURSOR < 2 ^ 31)
    (hk : -2 ^ 31 ≤ k ∧ k + GLFW_CURSOR_NORMAL < 2 ^ 31)
    (hclean : s.error_tag = Val_unit) :
    (m = 0 →
      ∃ s1 s2,
        caml_glfwSetInputMode s window (Val_int m) (Val_int k) [] = Result.ok Val_unit s1
        ∧ s1.trace = s.trace ++
            [native_call.SetInputMode (Cptr_val window) GLFW_CURSOR (k + GLFW_CURSOR_NORMAL)]
        ∧ caml_glfwGetInputMode s1 window (Val_int m) (k + GLFW_CURSOR_NORMAL) []
            = Result.ok (Val_int k) s2
        ∧ s2.trace = s1.trace ++ [native_call.GetInputMode (Cptr_val window) GLFW_CURSOR])
    ∧ (m ≠ 0 →
      ∃ s1 s2,
        caml_glfwSetInputMode s window (Val_int m) (ml_bool b) [] = Result.ok Val_unit s1
        ∧ s1.trace = s.trace ++
            [native_call.SetInputMode (Cptr_val window) (m + GLFW_CURSOR) (if b then 1 else 0)]
        ∧ caml_glfwGetInputMode s1 window (Val_int m) (if b then 1 else 0) []
            = Result.ok (ml_bool b) s2
        ∧ s2.trace = s1.trace ++
            [native_call.GetInputMode (Cptr_val window) (m + GLFW_CURSOR)]) := by
  have hmr : -2 ^ 31 ≤ m ∧ m < 2 ^ 31 := by
    unfold GLFW_CURSOR at hm
    constructor <;> omega
  have hkr : -2 ^ 31 ≤ k ∧ k < 2 ^ 31 := by
    unfold GLFW_CURSOR_NORMAL at hk
    constructor <;> omega
  have hto : to_int (Int_val (Val_int m)) = m := to_int_of_range m hmr
  have htk : to_int (Int_val (Val_int k)) = k := to_int_of_range k hkr
  have h1 : to_int 1 = 1 := to_int_of_range 1 (by norm_num)
  have h0 : to_int 0 = 0 := to_int_of_range 0 (by norm_num)
  constructor
  · intro hz
    have hv : input_mode_value (Val_int m) (Val_int k) = k + GLFW_CURSOR_NORMAL := by
      unfold input_mode_value
      rw [hto, htk, if_pos hz]
    have hid : m + GLFW_CURSOR = GLFW_CURSOR := by rw [hz, zero_add]
    obtain ⟨f1, -, f3, -⟩ := input_mode_frame s (Cptr_val window) (m + GLFW_CURSOR)
      (k + GLFW_CURSOR_NORMAL) []
    obtain ⟨-, g2, -, g4⟩ := input_mode_frame
      (glfwSetInputMode s (Cptr_val window) (m + GLFW_CURSOR) (k + GLFW_CURSOR_NORMAL) [])
      (Cptr_val window) (m + GLFW_CURSOR) (k + GLFW_CURSOR_NORMAL) []
    have hset := caml_glfwSetInputMode_returns s window (Val_int m) (Val_int k) []
      (by rw [hto, hv]; exact (f3 rfl).trans hclean)
    have hget := caml_glfwGetInputMode_returns
      (glfwSetInputMode s (Cptr_val window) (m + GLFW_CURSOR) (k + GLFW_CURSOR_NORMAL) [])
      window (Val_int m) (k + GLFW_CURSOR_NORMAL) []
      (by rw [hto]; exact (g4 rfl).trans ((f3 rfl).trans hclean))
    rw [hto, hv] at hset
    rw [hto, if_pos hz, add_sub_cancel_right] at hget
    rw [hid] at hset hget f1 g2
    exact ⟨_, _, hset, f1, hget, g2⟩
  · intro hnz
    have hv : input_mode_value (Val_int m) (ml_bool b) = if b then 1 else 0 := by
      unfold input_mode_value
      rw [hto, if_neg hnz]
      cases b
      · exact h0
      · exact h1
    obtain ⟨f1, -, f3, -⟩ := input_mode_frame s (Cptr_val window) (m + GLFW_CURSOR)
      (if b then 1 else 0) []
    obtain ⟨-, g2, -, g4⟩ := input_mode_frame
      (glfwSetInputMode s (Cptr_val window) (m + GLFW_CURSOR) (if b then 1 else 0) [])
      (Cptr_val window) (m + GLFW_CURSOR) (if b then 1 else 0) []
    have hset := caml_glfwSetInputMode_returns s window (Val_int m) (ml_bool b) []
      (by rw [hto, hv]; exact (f3 rfl).trans hclean)
    have hget := caml_glfwGetInputMode_returns
      (glfwSetInputMode s (Cptr_val window) (m + GLFW_CURSOR) (if b then 1 else 0) [])
      window (Val_int m) (if b then 1 else 0) []
      (by rw [hto]; exact (g4 rfl).trans ((f3 rfl).trans hclean))
    have hb : Val_bool (if b then 1 else 0) = ml_bool b := by
      cases b <;> rfl
    rw [hto, hv] at hset
    rw [hto, if_neg hnz, hb] at hget
    exact ⟨_, _, hset, f1, hget, g2⟩

theorem input_mode_round_trip_witness :
    ∃ s1 s2,
      caml_glfwSetInputMode start_state (Val_int 21) (Val_int 0) (Val_int 2) []
        = Result.ok Val_unit s1
      ∧ s1.trace = start_state.trace ++
          [native_call.SetInputMode (Cptr_val (Val_int 21)) GLFW_CURSOR
            (2 + GLFW_CURSOR_NORMAL)]
      ∧ caml_glfwGetInputMode s1 (Val_int 21) (Val_int 0) (2 + GLFW_CURSOR_NORMAL) []
          = Result.ok (Val_int 2) s2
      ∧ s2.trace = s1.trace ++
          [native_call.GetInputMode (Cptr_val (Val_int 21)) GLFW_CURSOR] :=
  (input_mode_round_trip start_state (Val_int 21) 0 2 true (by decide) (by decide) rfl).1 rfl

end GLFW_stubs
